import Mathlib

/-!
XRCE Agent: sessions and the per-session object registry.

A shallow embedding of `Agent::create_client`, `Agent::delete_client` and the
submessage handlers `Agent::process_*` (src/cpp/Root.cpp) and of
`ProxyClient::create`, `ProxyClient::delete_object`, `ProxyClient::get_object`,
`ProxyClient::write`, `ProxyClient::read` and `ProxyClient::on_read_data`
(src/cpp/client/ProxyClient.cpp), with the properties proved about them.

Conventions of the embedding.

* `std::map` is a finite partial function: `Map κ α` wraps `κ → Option α`, so a
  key holds at most one value by construction, as in the C++ container.
* A method that mutates `this` returns the new state next to its result.
* A step whose behaviour is undefined or that throws (dereferencing the null
  result of a failed `dynamic_cast`, a `dynamic_cast` to a reference type that
  fails) makes the method end in `Except.error` with the `Fault` that occurred.
* Classes of the repository that these two files use but do not define (the
  DDS-facing proxies, `StreamsManager`, `XRCEFactory`, the default constructor
  of `ResultStatus`) enter as parameters.
* The result of `deserializer.deserialize(payload)` is an argument of the
  handler: `some payload` when the payload decodes, `none` when it does not.
-/

namespace XRCE

/-! ## Containers -/

/-- A `std::map<κ, α>`: a partial function from keys to values. -/
@[ext]
structure Map (κ α : Type) where
  find : κ → Option α

/-- The empty map, as left by the default constructor. -/
def Map.empty {κ α : Type} : Map κ α := ⟨fun _ => none⟩

/-- The `std::map::erase` of a key: the key is unbound afterwards. -/
def Map.erase {κ α : Type} [DecidableEq κ] (m : Map κ α) (k : κ) : Map κ α :=
  ⟨fun j => if j = k then none else m.find j⟩

/-- The `std::map::insert` of a pair: binds `k` only when `k` is unbound; the
Boolean is the `.second` of the C++ result (true when the insertion took place). -/
def Map.insert {κ α : Type} [DecidableEq κ] (m : Map κ α) (k : κ) (v : α) : Map κ α × Bool :=
  match m.find k with
  | some _ => (m, false)
  | none => (⟨fun j => if j = k then some v else m.find j⟩, true)

/-- The `std::map::emplace`: constructs the value in place only when `k` is
unbound; the Boolean is the `.second` of the C++ result. -/
def Map.emplace {κ α : Type} [DecidableEq κ] (m : Map κ α) (k : κ) (v : α) : Map κ α × Bool :=
  match m.find k with
  | some _ => (m, false)
  | none => (⟨fun j => if j = k then some v else m.find j⟩, true)

/-- The map after the value bound to `k` has been mutated in place by `f`
through the reference `m.at(k)`; an unbound key stays unbound. -/
def Map.modify {κ α : Type} [DecidableEq κ] (m : Map κ α) (k : κ) (f : α → α) : Map κ α :=
  ⟨fun j => if j = k then (m.find j).map f else m.find j⟩

/-! ## Wire-level types -/

/-- An `ObjectId`: two octets. -/
abbrev ObjectId := Nat × Nat

/-- A `ClientKey`: four octets. -/
abbrev ClientKey := Nat × Nat × Nat × Nat

/-- An `XrceCookie`: four octets. -/
abbrev XrceCookie := Nat × Nat × Nat × Nat

/-- An `XrceVersion`: two octets, major first (`xrce_version()[0]`). -/
abbrev XrceVersion := Nat × Nat

/-- A `SessionId`: one octet. -/
abbrev SessionId := Nat

/-- A `RequestId`: two octets. -/
abbrev RequestId := Nat × Nat

/-- Modelled from the spec: the macro `XRCE_COOKIE` is defined in a header that
is not among the sources; the spec gives it as the four octets 0x58, 0x52, 0x43,
0x45. -/
def XRCE_COOKIE : XrceCookie := (0x58, 0x52, 0x43, 0x45)

/-- Modelled from the spec: the macro `XRCE_VERSION_MAJOR` is defined in a
header that is not among the sources; the spec gives it as 1. -/
def XRCE_VERSION_MAJOR : Nat := 1

/-- The status codes of `dds::xrce::StatusValue`. -/
inductive StatusValue
  | STATUS_OK
  | STATUS_OK_MATCHED
  | STATUS_ERR_DDS_ERROR
  | STATUS_ERR_MISMATCH
  | STATUS_ERR_ALREADY_EXISTS
  | STATUS_ERR_DENIED
  | STATUS_ERR_UNKNOWN_REFERENCE
  | STATUS_ERR_INVALID_DATA
  | STATUS_ERR_INCOMPATIBLE
  | STATUS_ERR_RESOURCES
  deriving DecidableEq, Repr

/-- A `dds::xrce::ResultStatus`, reduced to the field that Root.cpp and
ProxyClient.cpp write, `status`. Its default constructor is not among the
sources, so a default-constructed value is a parameter (`dflt`) of the methods
that declare one. -/
structure ResultStatus where
  status : StatusValue
  deriving DecidableEq, Repr

/-- The setter `ResultStatus::status(value)`. -/
def ResultStatus.set_status (_r : ResultStatus) (value : StatusValue) : ResultStatus :=
  ⟨value⟩

/-- A `CLIENT_Representation`, with the fields `Agent::create_client` reads. -/
structure CLIENT_Representation where
  xrce_cookie : XrceCookie
  xrce_version : XrceVersion
  client_key : ClientKey
  session_id : SessionId
  deriving DecidableEq, Repr

/-- A `CREATE_CLIENT_Payload`. -/
structure CREATE_CLIENT_Payload where
  request_id : RequestId
  object_id : ObjectId
  client_representation : CLIENT_Representation
  deriving DecidableEq, Repr

/-- The representation union carried by a Topic, DataWriter or DataReader
request: its discriminator `_d()` with the string or octets it selects;
`other d` is a discriminator outside the three named formats. -/
inductive Representation
  | REPRESENTATION_BY_REFERENCE (object_reference : String)
  | REPRESENTATION_AS_XML_STRING (xml : String)
  | REPRESENTATION_IN_BINARY (octets : List Nat)
  | other (d : Nat)
  deriving DecidableEq, Repr

/-- The `ObjectVariant` union of a CREATE request: its discriminator `_d()`
with the fields `ProxyClient::create` reads from the selected member;
`other d` is a discriminator outside the named kinds. -/
inductive ObjectVariant
  | OBJK_PUBLISHER (participant_id : ObjectId)
  | OBJK_SUBSCRIBER (participant_id : ObjectId)
  | OBJK_PARTICIPANT
  | OBJK_DATAWRITER (publisher_id : ObjectId) (representation : Representation)
  | OBJK_DATAREADER (subscriber_id : ObjectId) (representation : Representation)
  | OBJK_TOPIC (participant_id : ObjectId) (representation : Representation)
  | OBJK_APPLICATION
  | OBJK_QOSPROFILE
  | OBJK_TYPE
  | other (d : Nat)
  deriving DecidableEq, Repr

/-- A `CreationMode`: the `reuse` and `replace` flags of a CREATE submessage. -/
structure CreationMode where
  reuse : Bool
  replace : Bool
  deriving DecidableEq, Repr

/-- A `CREATE_Payload`. -/
structure CREATE_Payload where
  request_id : RequestId
  object_id : ObjectId
  object_representation : ObjectVariant
  deriving DecidableEq, Repr

/-! ## Proxy objects -/

/-- The dynamic type of an object owned by the registry: the concrete class
behind the `XRCEObject` base pointer. -/
inductive ObjectClass
  | XRCEParticipant
  | Topic
  | Publisher
  | Subscriber
  | DataWriter
  | DataReader
  deriving DecidableEq, Repr

/-- An object behind a `std::unique_ptr<XRCEObject>`: its dynamic type, the id
its constructor received and, for an object whose constructor received a
reference to another registry object (`Publisher(id, *participant_it->second)`),
the registry key under which that object was found. -/
structure XRCEObject where
  cls : ObjectClass
  id : ObjectId
  parent : Option ObjectId
  deriving DecidableEq, Repr

/-- The pointer form `dynamic_cast<T*>(p)`: the object when its dynamic type is
`target`, the null pointer (`none`) otherwise. -/
def dynamic_cast (target : ObjectClass) (o : XRCEObject) : Option XRCEObject :=
  if o.cls = target then some o else none

/-- The ways a method can leave defined behaviour or throw. -/
inductive Fault
  | null_dereference
  | bad_cast
  | dangling_reference
  deriving DecidableEq, Repr

/-- The members of the DDS-facing proxy classes that `ProxyClient::create`
calls and whose classes are not among the sources. Each is an arbitrary function:
the theorems hold for every behaviour of these collaborators.

* `participant_init id`: the result of `XRCEParticipant(id).init()`;
* `get_participant o`: the object designated by the reference that
  `Publisher::get_participant()` or `Subscriber::get_participant()` returns for
  `o`, `none` when that reference no longer designates a live object;
* `create_writer p id xml`, `create_reader p id xml`, `create_topic p id xml`:
  the pointer returned by the member of participant `p`, `none` for null. -/
structure Middleware where
  participant_init : ObjectId → Bool
  get_participant : XRCEObject → Option XRCEObject
  create_writer : XRCEObject → ObjectId → String → Option XRCEObject
  create_reader : XRCEObject → ObjectId → String → Option XRCEObject
  create_topic : XRCEObject → ObjectId → String → Option XRCEObject

/-! ## Sessions -/

/-- A `ProxyClient`: one session. `S` is the type of `StreamsManager`, whose
class is not among the sources. -/
structure ProxyClient (S : Type) where
  representation_ : CLIENT_Representation
  objects_ : Map ObjectId XRCEObject
  client_key_ : ClientKey
  session_id_ : SessionId
  streams_manager_ : S

/-- The constructor `ProxyClient::ProxyClient(client, client_key, session_id)`:
`objects_()` is the empty map and `streams_manager_()` the default-constructed
stream manager, passed as `fresh`. -/
def ProxyClient.new {S : Type} (fresh : S) (client : CLIENT_Representation)
    (client_key : ClientKey) (session_id : SessionId) : ProxyClient S :=
  ⟨client, Map.empty, client_key, session_id, fresh⟩

/-- The getter `ProxyClient::get_session_id`. -/
def ProxyClient.get_session_id {S : Type} (c : ProxyClient S) : SessionId :=
  c.session_id_

/-- The session with `objects_` replaced, every other member kept. -/
def ProxyClient.with_objects {S : Type} (c : ProxyClient S)
    (objects : Map ObjectId XRCEObject) : ProxyClient S :=
  ⟨c.representation_, objects, c.client_key_, c.session_id_, c.streams_manager_⟩

/-- The method `Agent::create_client` (Root.cpp, lines 67-120) on the session
map `clients_`; `dflt` is the default-constructed `ResultStatus` and `fresh` the
default-constructed `StreamsManager`. -/
def Agent.create_client {S : Type} (fresh : S) (dflt : ResultStatus)
    (clients_ : Map ClientKey (ProxyClient S)) (payload : CREATE_CLIENT_Payload) :
    ResultStatus × Map ClientKey (ProxyClient S) :=
  let result_status := dflt.set_status .STATUS_OK
  if payload.client_representation.xrce_cookie = XRCE_COOKIE then
    if payload.client_representation.xrce_version.1 = XRCE_VERSION_MAJOR then
      let client_key := payload.client_representation.client_key
      let session_id := payload.client_representation.session_id
      match clients_.find client_key with
      | none =>
        let r := clients_.emplace client_key
          (ProxyClient.new fresh payload.client_representation client_key session_id)
        if !r.2 then (result_status.set_status .STATUS_ERR_RESOURCES, r.1)
        else (result_status, r.1)
      | some client =>
        if session_id ≠ client.get_session_id then
          let erased := clients_.erase client_key
          let r := erased.emplace client_key
            (ProxyClient.new fresh payload.client_representation client_key session_id)
          if !r.2 then (result_status.set_status .STATUS_ERR_RESOURCES, r.1)
          else (result_status, r.1)
        else (result_status, clients_)
    else (result_status.set_status .STATUS_ERR_INCOMPATIBLE, clients_)
  else (result_status.set_status .STATUS_ERR_INVALID_DATA, clients_)

/-! ## The object registry of a session -/

/-- The method `ProxyClient::delete_object(const ObjectId&)` (ProxyClient.cpp,
lines 355-365): erases the entry found under `id`, and only that entry. -/
def ProxyClient.delete_object {S : Type} (c : ProxyClient S) (id : ObjectId) :
    Bool × ProxyClient S :=
  match c.objects_.find id with
  | some _ => (true, c.with_objects (c.objects_.erase id))
  | none => (false, c)

/-- The method `ProxyClient::get_object` (ProxyClient.cpp, lines 367-377):
`none` is the null pointer. -/
def ProxyClient.get_object {S : Type} (c : ProxyClient S) (object_id : ObjectId) :
    Option XRCEObject :=
  match c.objects_.find object_id with
  | some object => some object
  | none => none

/-- The tail shared by the DataWriter and DataReader cases of
`ProxyClient::create` (lines 165-175 and 205-212): when the factory returned a
non-null object and the second `dynamic_cast` of the owner to `target` is not
null, the object is inserted under `id` and the result is the `.second` of the
insertion; otherwise the result is false and nothing is inserted. -/
def ProxyClient.insert_created {S : Type} (c : ProxyClient S) (id : ObjectId)
    (owner : XRCEObject) (target : ObjectClass) (created : Option XRCEObject) :
    Bool × ProxyClient S :=
  match created with
  | none => (false, c)
  | some object =>
    match dynamic_cast target owner with
    | none => (false, c)
    | some _ =>
      let r := c.objects_.insert id object
      (r.2, c.with_objects r.1)

/-- The method `ProxyClient::create(const ObjectId&, const ObjectVariant&)`
(ProxyClient.cpp, lines 77-268). The result is the returned Boolean with the
session afterwards, or the fault at which the call left defined behaviour:
`publisher->get_participant()` on the null result of
`dynamic_cast<Publisher*>` (line 154, and line 193 for a Subscriber), or the
`dynamic_cast<XRCEParticipant&>` of the same lines on an object that is not a
live participant. -/
def ProxyClient.create {S : Type} (dds : Middleware) (c : ProxyClient S) (id : ObjectId)
    (representation : ObjectVariant) : Except Fault (Bool × ProxyClient S) :=
  match representation with
  | .OBJK_PUBLISHER participant_id =>
    match c.objects_.find participant_id with
    | some _ =>
      match c.objects_.find id with
      | none =>
        let r := c.objects_.insert id (XRCEObject.mk .Publisher id (some participant_id))
        .ok (r.2, c.with_objects r.1)
      | some _ => .ok (false, c)
    | none => .ok (false, c)
  | .OBJK_SUBSCRIBER participant_id =>
    match c.objects_.find participant_id with
    | some _ =>
      match c.objects_.find id with
      | none =>
        let r := c.objects_.insert id (XRCEObject.mk .Subscriber id (some participant_id))
        .ok (r.2, c.with_objects r.1)
      | some _ => .ok (false, c)
    | none => .ok (false, c)
  | .OBJK_PARTICIPANT =>
    if dds.participant_init id then
      let r := c.objects_.insert id (XRCEObject.mk .XRCEParticipant id none)
      .ok (r.2, c.with_objects r.1)
    else .ok (false, c)
  | .OBJK_DATAWRITER publisher_id repr =>
    match c.objects_.find publisher_id, c.objects_.find id with
    | some publisher_object, none =>
      match repr with
      | .REPRESENTATION_AS_XML_STRING xml =>
        match dynamic_cast .Publisher publisher_object with
        | none => .error .null_dereference
        | some publisher =>
          match dds.get_participant publisher with
          | none => .error .dangling_reference
          | some referenced =>
            match dynamic_cast .XRCEParticipant referenced with
            | none => .error .bad_cast
            | some participant =>
              .ok (c.insert_created id publisher_object .Publisher
                (dds.create_writer participant id xml))
      | .REPRESENTATION_IN_BINARY _ =>
        .ok (c.insert_created id publisher_object .Publisher none)
      | _ => .ok (false, c)
    | _, _ => .ok (false, c)
  | .OBJK_DATAREADER subscriber_id repr =>
    match c.objects_.find subscriber_id, c.objects_.find id with
    | some subscriber_object, none =>
      match repr with
      | .REPRESENTATION_AS_XML_STRING xml =>
        match dynamic_cast .Subscriber subscriber_object with
        | none => .error .null_dereference
        | some subscriber =>
          match dds.get_participant subscriber with
          | none => .error .dangling_reference
          | some referenced =>
            match dynamic_cast .XRCEParticipant referenced with
            | none => .error .bad_cast
            | some participant =>
              .ok (c.insert_created id subscriber_object .Subscriber
                (dds.create_reader participant id xml))
      | .REPRESENTATION_IN_BINARY _ =>
        .ok (c.insert_created id subscriber_object .Subscriber none)
      | _ => .ok (false, c)
    | _, _ => .ok (false, c)
  | .OBJK_TOPIC participant_id repr =>
    match c.objects_.find participant_id, c.objects_.find id with
    | some participant_object, none =>
      match repr with
      | .REPRESENTATION_AS_XML_STRING xml =>
        match dynamic_cast .XRCEParticipant participant_object with
        | some participant =>
          match dds.create_topic participant id xml with
          | some topic =>
            let r := c.objects_.insert id topic
            .ok (r.2, c.with_objects r.1)
          | none => .ok (false, c)
        | none => .ok (false, c)
      | .REPRESENTATION_BY_REFERENCE _ => .ok (false, c)
      | .REPRESENTATION_IN_BINARY _ => .ok (false, c)
      | .other _ => .ok (false, c)
    | _, _ => .ok (false, c)
  | .OBJK_APPLICATION => .ok (false, c)
  | .OBJK_QOSPROFILE => .ok (false, c)
  | .OBJK_TYPE => .ok (false, c)
  | .other _ => .ok (false, c)

/-- The status a Boolean result of `ProxyClient::create` is turned into by
`ProxyClient::create(const CreationMode&, const CREATE_Payload&)` (lines 280-287
and 301-309). -/
def ProxyClient.status_of_create {S : Type} (result_status : ResultStatus)
    (r : Except Fault (Bool × ProxyClient S)) : Except Fault (ResultStatus × ProxyClient S) :=
  match r with
  | .error f => .error f
  | .ok (true, c) => .ok (result_status.set_status .STATUS_OK, c)
  | .ok (false, c) => .ok (result_status.set_status .STATUS_ERR_DDS_ERROR, c)

/-- The method `ProxyClient::create(const CreationMode&, const CREATE_Payload&)`
(ProxyClient.cpp, lines 270-325); `dflt` is the default-constructed
`ResultStatus` the method starts from. Both branches under `reuse` are empty in
the source (they hold only a comment), so they return `dflt` untouched. -/
def ProxyClient.create_with_mode {S : Type} (dds : Middleware) (dflt : ResultStatus)
    (c : ProxyClient S) (creation_mode : CreationMode) (create_payload : CREATE_Payload) :
    Except Fault (ResultStatus × ProxyClient S) :=
  let result_status := dflt
  match c.objects_.find create_payload.object_id with
  | none =>
    ProxyClient.status_of_create result_status
      (c.create dds create_payload.object_id create_payload.object_representation)
  | some _ =>
    if !creation_mode.reuse then
      if !creation_mode.replace then
        .ok (result_status.set_status .STATUS_ERR_ALREADY_EXISTS, c)
      else
        let deleted := c.delete_object create_payload.object_id
        ProxyClient.status_of_create result_status
          (deleted.2.create dds create_payload.object_id create_payload.object_representation)
    else
      if !creation_mode.replace then .ok (result_status, c)
      else .ok (result_status, c)

/-- What a returning call of `ProxyClient::create` on `id` may do to the session
`c`: either it returns false and the session is the one it received, or it
returns true, `id` was unbound before and is bound to `object` afterwards, every
other id keeps its binding and every other member of the session its value. -/
def ProxyClient.CreateEffect {S : Type} (c : ProxyClient S) (id : ObjectId)
    (r : Bool × ProxyClient S) : Prop :=
  (r.1 = false ∧ r.2 = c) ∨
  (r.1 = true ∧ c.objects_.find id = none ∧ (∃ object, r.2.objects_.find id = some object) ∧
    (∀ j, j ≠ id → r.2.objects_.find j = c.objects_.find j) ∧
    r.2 = c.with_objects r.2.objects_)

/-! ## Messages, payloads and the collaborators of the handlers -/

/-- A `StreamId`: one octet. -/
abbrev StreamId := Nat

/-- A `MessageHeader`. -/
structure MessageHeader where
  session_id : SessionId
  stream_id : StreamId
  sequence_nr : Nat
  client_key : ClientKey
  deriving DecidableEq, Repr

/-- A `SubmessageHeader`. -/
structure SubmessageHeader where
  submessage_id : Nat
  flags : Nat
  submessage_length : Nat
  deriving DecidableEq, Repr

/-- The `related_request()` member of a STATUS payload. -/
structure RelatedObjectRequest where
  request_id : RequestId
  object_id : ObjectId
  deriving DecidableEq, Repr

/-- A `STATUS_Payload`, with the members the handlers set. -/
structure STATUS_Payload where
  related_request : RelatedObjectRequest
  result : ResultStatus
  deriving DecidableEq, Repr

/-- A `DELETE_Payload`. -/
structure DELETE_Payload where
  request_id : RequestId
  object_id : ObjectId
  deriving DecidableEq, Repr

/-- A `WRITE_DATA_Payload_Data`. -/
structure WRITE_DATA_Payload_Data where
  request_id : RequestId
  object_id : ObjectId
  data : List Nat
  deriving DecidableEq, Repr

/-- A `READ_DATA_Payload`, with the members the handlers read. -/
structure READ_DATA_Payload where
  request_id : RequestId
  object_id : ObjectId
  deriving DecidableEq, Repr

/-- A `DATA_Payload_Data`. -/
structure DATA_Payload_Data where
  request_id : RequestId
  object_id : ObjectId
  serialized_data : List Nat
  deriving DecidableEq, Repr

/-- A `HEARTBEAT_Payload`. -/
structure HEARTBEAT_Payload where
  first_unacked_seq_nr : Nat
  last_unacked_seq_nr : Nat
  deriving DecidableEq, Repr

/-- An `ACKNACK_Payload`; `nack_bitmap` is the two-octet array, `.1` being
`nack_bitmap.at(0)` and `.2` being `nack_bitmap.at(1)`. -/
structure ACKNACK_Payload where
  first_unacked_seq_num : Nat
  nack_bitmap : Nat × Nat
  deriving DecidableEq, Repr

/-- An `XrceMessage`: a buffer and a length. -/
structure XrceMessage where
  buf : List Nat
  len : Nat
  deriving DecidableEq, Repr

/-- A `Message` of the reply queue: the octets of its buffer up to its real size. -/
structure Message where
  octets : List Nat
  deriving DecidableEq, Repr

/-- The constructor `Message(buf, len)`. -/
def Message.of_buffer (buf : List Nat) (len : Nat) : Message :=
  ⟨buf.take len⟩

/-- Modelled from the spec: the constant `FLAG_REUSE` is defined in a header that
is not among the sources; the spec gives REUSE as bit 1 of the flags. -/
def FLAG_REUSE : Nat := 0x02

/-- Modelled from the spec: the constant `FLAG_REPLACE` is defined in a header
that is not among the sources; the spec gives REPLACE as bit 2 of the flags. -/
def FLAG_REPLACE : Nat := 0x04

/-- Modelled from the spec: the constant `FORMAT_DATA_F` is defined in a header
that is not among the sources; the spec gives the DATA format as 0 in the
format bits of the flags. -/
def FORMAT_DATA_F : Nat := 0x00

/-- The serialisation done with an `XRCEFactory`, whose class is not among the
sources: each member is the `Message` obtained by `header(h)` followed by the
submessage call and `set_real_size(get_total_size())`. Each is an arbitrary
function. -/
structure XRCEFactory where
  status : MessageHeader → STATUS_Payload → Message
  data : MessageHeader → DATA_Payload_Data → Message
  heartbeat : MessageHeader → HEARTBEAT_Payload → Message
  acknack : MessageHeader → ACKNACK_Payload → Message

/-- The members of `StreamsManager` that the handlers of Root.cpp and
`ProxyClient::on_read_data` call; the class is not among the sources. The
members named `get_` read the state, the others return the state they leave.
A sequence number argument is a 16-bit value. Each is an arbitrary function. -/
structure StreamsManagerOps (S : Type) where
  get_output_message : S → StreamId → Nat → XrceMessage
  update_from_acknack : S → StreamId → Nat → Nat × Nat → S
  update_from_heartbeat : S → StreamId → Nat → Nat → S
  get_first_unacked_seq_num : S → StreamId → Nat
  get_nack_bitmap : S → StreamId → Nat × Nat
  get_ack_num : S → StreamId → Nat
  store_output_message : S → StreamId → List Nat → S
  get_first_unacked_seq_nr : S → StreamId → Nat
  get_last_unacked_seq_nr : S → StreamId → Nat

/-- The members of `DataWriter` and `DataReader` that `ProxyClient::write` and
`ProxyClient::read` call; the classes are not among the sources. Each is an
arbitrary function. -/
structure DataEndpoints where
  write : XRCEObject → WRITE_DATA_Payload_Data → Bool
  read : XRCEObject → READ_DATA_Payload → StreamId → Int

/-! ## The Agent and its submessage handlers -/

/-- The state of the `Agent` that the handlers touch: the session map and the
queue of messages waiting for the reply thread, oldest first. -/
structure Agent (S : Type) where
  clients_ : Map ClientKey (ProxyClient S)
  messages_ : List Message

/-- The `std::map::erase` of a key with its return value, the number of
elements removed. -/
def Map.erase_count {κ α : Type} [DecidableEq κ] (m : Map κ α) (k : κ) : Nat × Map κ α :=
  match m.find k with
  | some _ => (1, m.erase k)
  | none => (0, m)

/-- The method `Agent::delete_client` (Root.cpp, lines 122-135). -/
def Agent.delete_client {S : Type} (dflt : ResultStatus)
    (clients_ : Map ClientKey (ProxyClient S)) (client_key : ClientKey) :
    ResultStatus × Map ClientKey (ProxyClient S) :=
  let result_status := dflt
  let erased := clients_.erase_count client_key
  if 0 = erased.1 then (result_status.set_status .STATUS_ERR_INVALID_DATA, erased.2)
  else (result_status.set_status .STATUS_OK, erased.2)

/-- The method `Agent::add_reply(const Message&)` (Root.cpp, lines 173-181):
the message is pushed on the queue. -/
def Agent.add_reply {S : Type} (a : Agent S) (message : Message) : Agent S :=
  ⟨a.clients_, a.messages_ ++ [message]⟩

/-- The method `Agent::add_reply(const MessageHeader&, const STATUS_Payload&)`
(Root.cpp, lines 184-198). -/
def Agent.add_reply_status {S : Type} (factory : XRCEFactory) (a : Agent S)
    (header : MessageHeader) (status_reply : STATUS_Payload) : Agent S :=
  a.add_reply (factory.status header status_reply)

/-- The agent after the session that a handler holds by reference
(`ProxyClient& client`, the value bound to `client_key`) has become `client`. -/
def Agent.with_client {S : Type} (a : Agent S) (client_key : ClientKey)
    (client : ProxyClient S) : Agent S :=
  ⟨a.clients_.modify client_key (fun _ => client), a.messages_⟩

/-- The session with `streams_manager_` replaced, every other member kept. -/
def ProxyClient.with_streams {S : Type} (c : ProxyClient S) (streams : S) : ProxyClient S :=
  ⟨c.representation_, c.objects_, c.client_key_, c.session_id_, streams⟩

/-- The method `ProxyClient::delete_object(const DELETE_Payload&)`
(ProxyClient.cpp, lines 340-353). -/
def ProxyClient.delete_object_payload {S : Type} (dflt : ResultStatus) (c : ProxyClient S)
    (delete_payload : DELETE_Payload) : ResultStatus × ProxyClient S :=
  let result_status := dflt
  let deleted := c.delete_object delete_payload.object_id
  if deleted.1 then (result_status.set_status .STATUS_OK, deleted.2)
  else (result_status.set_status .STATUS_ERR_UNKNOWN_REFERENCE, deleted.2)

/-- The method `ProxyClient::write` (ProxyClient.cpp, lines 379-402). -/
def ProxyClient.write {S : Type} (endpoints : DataEndpoints) (dflt : ResultStatus)
    (c : ProxyClient S) (object_id : ObjectId) (data_payload : WRITE_DATA_Payload_Data) :
    ResultStatus :=
  let result_status := dflt
  match c.objects_.find object_id with
  | none => result_status.set_status .STATUS_ERR_UNKNOWN_REFERENCE
  | some object =>
    match dynamic_cast .DataWriter object with
    | some writer =>
      if endpoints.write writer data_payload then result_status.set_status .STATUS_OK
      else result_status.set_status .STATUS_ERR_DDS_ERROR
    | none => result_status.set_status .STATUS_ERR_DDS_ERROR

/-- The method `ProxyClient::read` (ProxyClient.cpp, lines 404-428). -/
def ProxyClient.read {S : Type} (endpoints : DataEndpoints) (dflt : ResultStatus)
    (c : ProxyClient S) (object_id : ObjectId) (data_payload : READ_DATA_Payload)
    (stream_id : StreamId) : ResultStatus :=
  let result_status := dflt
  match c.objects_.find object_id with
  | none => result_status.set_status .STATUS_ERR_UNKNOWN_REFERENCE
  | some object =>
    match dynamic_cast .DataReader object with
    | some reader =>
      if endpoints.read reader data_payload stream_id = 0 then
        result_status.set_status .STATUS_OK
      else result_status.set_status .STATUS_ERR_DDS_ERROR
    | none => result_status.set_status .STATUS_ERR_DDS_ERROR

/-- The method `ProxyClient::on_read_data` (ProxyClient.cpp, lines 430-480),
on the session and on the queue of the agent returned by `root()`. -/
def ProxyClient.on_read_data {S : Type} (factory : XRCEFactory) (ops : StreamsManagerOps S)
    (c : ProxyClient S) (a : Agent S) (stream_id : StreamId) (object_id : ObjectId)
    (request_id : RequestId) (buffer : List Nat) : ProxyClient S × Agent S :=
  let seq_num := ops.get_ack_num c.streams_manager_ stream_id
  let message_header := MessageHeader.mk c.session_id_ stream_id seq_num c.client_key_
  let data_payload := DATA_Payload_Data.mk request_id object_id buffer
  let data_message := factory.data message_header data_payload
  let streams := ops.store_output_message c.streams_manager_ stream_id data_message.octets
  let a1 := a.add_reply data_message
  let heartbeat_header := MessageHeader.mk c.session_id_ 0x00 stream_id c.client_key_
  let heartbeat_payload := HEARTBEAT_Payload.mk
    (ops.get_first_unacked_seq_nr streams stream_id)
    (ops.get_last_unacked_seq_nr streams stream_id)
  let heartbeat_message := factory.heartbeat heartbeat_header heartbeat_payload
  (c.with_streams streams, a1.add_reply heartbeat_message)

/-- The method `Agent::process_create_client` (Root.cpp, lines 360-375);
`payload` is the result of `deserializer.deserialize(payload)`, `none` when it
fails. -/
def Agent.process_create_client {S : Type} (factory : XRCEFactory) (fresh : S)
    (dflt : ResultStatus) (a : Agent S) (header : MessageHeader)
    (payload : Option CREATE_CLIENT_Payload) : Agent S :=
  match payload with
  | some payload =>
    let created := Agent.create_client fresh dflt a.clients_ payload
    let status := STATUS_Payload.mk ⟨payload.request_id, payload.object_id⟩ created.1
    (Agent.mk created.2 a.messages_).add_reply_status factory header status
  | none => a

/-- The method `Agent::process_create` (Root.cpp, lines 377-406); `client` is
the session the handler received by reference, bound to `header.client_key`. -/
def Agent.process_create {S : Type} (factory : XRCEFactory) (dds : Middleware)
    (dflt : ResultStatus) (a : Agent S) (header : MessageHeader)
    (sub_header : SubmessageHeader) (payload : Option CREATE_Payload)
    (client : ProxyClient S) : Except Fault (Agent S) :=
  let reuse := (sub_header.flags &&& FLAG_REUSE) == FLAG_REUSE
  let replace := (sub_header.flags &&& FLAG_REPLACE) == FLAG_REPLACE
  let creation_mode := CreationMode.mk reuse replace
  match payload with
  | some payload =>
    let status_header := MessageHeader.mk header.session_id 0x00 0 header.client_key
    match client.create_with_mode dds dflt creation_mode payload with
    | .error f => .error f
    | .ok r =>
      let status := STATUS_Payload.mk ⟨payload.request_id, payload.object_id⟩ r.1
      .ok ((a.with_client header.client_key r.2).add_reply_status factory status_header status)
  | none => .ok a

/-- The method `Agent::process_delete` (Root.cpp, lines 408-441);
`objectid_client` is the value of the macro `OBJECTID_CLIENT`, which is defined
in a header that is not among the sources. -/
def Agent.process_delete {S : Type} (factory : XRCEFactory) (dflt : ResultStatus)
    (objectid_client : ObjectId) (a : Agent S) (header : MessageHeader)
    (payload : Option DELETE_Payload) (client : ProxyClient S) : Agent S :=
  match payload with
  | some payload =>
    let status_header := MessageHeader.mk header.session_id 0x00 0 header.client_key
    if payload.object_id = objectid_client then
      let deleted := Agent.delete_client dflt a.clients_ header.client_key
      let status := STATUS_Payload.mk ⟨payload.request_id, payload.object_id⟩ deleted.1
      (Agent.mk deleted.2 a.messages_).add_reply_status factory status_header status
    else
      let deleted := client.delete_object_payload dflt payload
      let status := STATUS_Payload.mk ⟨payload.request_id, payload.object_id⟩ deleted.1
      (a.with_client header.client_key deleted.2).add_reply_status factory status_header status
  | none => a

/-- The method `Agent::process_write_data` (Root.cpp, lines 443-465): the
status payload is built and then dropped at the end of its block. -/
def Agent.process_write_data {S : Type} (endpoints : DataEndpoints) (dflt : ResultStatus)
    (a : Agent S) (_header : MessageHeader) (sub_header : SubmessageHeader)
    (payload : Option WRITE_DATA_Payload_Data) (client : ProxyClient S) : Agent S :=
  let flags := sub_header.flags &&& 0x0E
  if flags = FORMAT_DATA_F then
    match payload with
    | some payload =>
      let _status := STATUS_Payload.mk ⟨payload.request_id, payload.object_id⟩
        (client.write endpoints dflt payload.object_id payload)
      a
    | none => a
  else a

/-- The method `Agent::process_read_data` (Root.cpp, lines 467-489). -/
def Agent.process_read_data {S : Type} (factory : XRCEFactory) (endpoints : DataEndpoints)
    (dflt : ResultStatus) (a : Agent S) (header : MessageHeader)
    (payload : Option READ_DATA_Payload) (client : ProxyClient S) : Agent S :=
  match payload with
  | some payload =>
    let status_header := MessageHeader.mk header.session_id 0x00 0 header.client_key
    let status := STATUS_Payload.mk ⟨payload.request_id, payload.object_id⟩
      (client.read endpoints dflt payload.object_id payload header.stream_id)
    a.add_reply_status factory status_header status
  | none => a

/-- One retransmission of `Agent::process_acknack` (Root.cpp, lines 506-511 and
515-520): the stored message of sequence number `seq` is fetched from the
output stream and pushed on the queue when its length is not 0. -/
def Agent.resend {S : Type} (ops : StreamsManagerOps S) (client : ProxyClient S)
    (stream_id : StreamId) (a : Agent S) (seq : Nat) : Agent S :=
  let message := ops.get_output_message client.streams_manager_ stream_id (seq % 65536)
  if message.len ≠ 0 then a.add_reply (Message.of_buffer message.buf message.len) else a

/-- The body of the loop of `Agent::process_acknack` for the index `i`
(Root.cpp, lines 501-522). -/
def Agent.acknack_step {S : Type} (ops : StreamsManagerOps S) (client : ProxyClient S)
    (header : MessageHeader) (first_message : Nat) (nack_bitmap : Nat × Nat)
    (a : Agent S) (i : Nat) : Agent S :=
  let mask := (0x01 <<< i) % 256
  let a1 :=
    if (nack_bitmap.2 &&& mask) = mask then
      Agent.resend ops client (header.sequence_nr % 256) a (first_message + i)
    else a
  if (nack_bitmap.1 &&& mask) = mask then
    Agent.resend ops client (header.sequence_nr % 256) a1 (first_message + i + 8)
  else a1

/-- The method `Agent::process_acknack` (Root.cpp, lines 491-532): the loop over
`i = 0 .. 7`, then the update of the output stream. -/
def Agent.process_acknack {S : Type} (ops : StreamsManagerOps S) (a : Agent S)
    (header : MessageHeader) (payload : Option ACKNACK_Payload) (client : ProxyClient S) :
    Agent S :=
  match payload with
  | some payload =>
    let first_message := payload.first_unacked_seq_num
    let nack_bitmap := payload.nack_bitmap
    let resent := (List.range 8).foldl
      (Agent.acknack_step ops client header first_message nack_bitmap) a
    resent.with_client header.client_key
      (client.with_streams (ops.update_from_acknack client.streams_manager_
        (header.sequence_nr % 256) first_message nack_bitmap))
  | none => a

/-- The method `Agent::process_heartbeat` (Root.cpp, lines 534-569). -/
def Agent.process_heartbeat {S : Type} (factory : XRCEFactory) (ops : StreamsManagerOps S)
    (a : Agent S) (header : MessageHeader) (payload : Option HEARTBEAT_Payload)
    (client : ProxyClient S) : Agent S :=
  match payload with
  | some payload =>
    let stream_id := header.sequence_nr % 256
    let streams := ops.update_from_heartbeat client.streams_manager_
      (header.sequence_nr % 256) payload.first_unacked_seq_nr payload.last_unacked_seq_nr
    let acknack_header :=
      MessageHeader.mk header.session_id 0x00 header.stream_id header.client_key
    let acknack_payload := ACKNACK_Payload.mk
      (ops.get_first_unacked_seq_num streams stream_id)
      (ops.get_nack_bitmap streams stream_id)
    (a.with_client header.client_key (client.with_streams streams)).add_reply
      (factory.acknack acknack_header acknack_payload)
  | none => a

/-! ## The NACK window, in the words of the spec -/

/-- Bit `k` of the 16-entry window of a NACK bitmap as the spec numbers it:
bit `k` of `bitmap[1]` for `k < 8`, bit `k - 8` of `bitmap[0]` for `k ≥ 8`. -/
def nack_window_bit (nack_bitmap : Nat × Nat) (k : Nat) : Bool :=
  if k < 8 then nack_bitmap.2.testBit k else nack_bitmap.1.testBit (k - 8)

/-- The retransmission the spec asks for at offset `k` of an ACKNACK: the stored
message of sequence number `(first + k) mod 2^16` of the output stream, when
bit `k` of the window is set and the history returns a message that is not
empty; none otherwise. -/
def retransmission {S : Type} (ops : StreamsManagerOps S) (streams : S)
    (stream_id : StreamId) (first : Nat) (nack_bitmap : Nat × Nat) (k : Nat) :
    Option Message :=
  if nack_window_bit nack_bitmap k = true ∧
      (ops.get_output_message streams stream_id ((first + k) % 65536)).len ≠ 0 then
    some (Message.of_buffer
      (ops.get_output_message streams stream_id ((first + k) % 65536)).buf
      (ops.get_output_message streams stream_id ((first + k) % 65536)).len)
  else none

/-! ## The dispatcher -/

/-- Modelled from the spec: the constant `SESSIONID_NONE_WITHOUT_CLIENT_KEY` is
defined in a header that is not among the sources; the spec gives the class
none-without-key as 0x00. -/
def SESSIONID_NONE_WITHOUT_CLIENT_KEY : SessionId := 0x00

/-- Modelled from the spec: the constant `SESSIONID_NONE_WITH_CLIENT_KEY` is
defined in a header that is not among the sources; the spec gives the class
none-with-key as 0x01. -/
def SESSIONID_NONE_WITH_CLIENT_KEY : SessionId := 0x01

/-- One submessage as the deserializer yields it: its kind (the
`submessage_id()` of its header), its header where a handler reads it, and the
result of the `deserialize(payload)` its handler calls, `none` when that fails.
`other id` is any id without a case of its own in `process_message`. -/
inductive Submessage
  | CREATE_CLIENT (payload : Option CREATE_CLIENT_Payload)
  | CREATE (sub_header : SubmessageHeader) (payload : Option CREATE_Payload)
  | GET_INFO
  | DELETE (payload : Option DELETE_Payload)
  | WRITE_DATA (sub_header : SubmessageHeader) (payload : Option WRITE_DATA_Payload_Data)
  | READ_DATA (payload : Option READ_DATA_Payload)
  | HEARTBEAT (payload : Option HEARTBEAT_Payload)
  | ACKNACK (payload : Option ACKNACK_Payload)
  | other (submessage_id : Nat)
  deriving DecidableEq, Repr

/-- The decoding done with a `Serializer`, whose class is not among the sources.
`header` is `deserialize(header)` on the octets of a message, with the octets
left after the header; `submessages` is the sequence of submessages that the
loop of submessage headers reads from those octets. Each is an arbitrary
function. -/
structure Serializer where
  header : List Nat → Option (MessageHeader × List Nat)
  submessages : List Nat → List Submessage

/-- The members of `StreamsManager` that `Agent::handle_input_message` calls on
the input side; the class is not among the sources. The three tests read the
state; `get_next_message` returns the message with the state it leaves. Each is
an arbitrary function. -/
structure InputStreamOps (S : Type) where
  is_valid_message : S → StreamId → Nat → Bool
  is_next_message : S → StreamId → Nat → Bool
  update_stream : S → StreamId → Nat → S
  message_available : S → StreamId → Bool
  get_next_message : S → StreamId → XrceMessage × S
  store_input_message : S → StreamId → Nat → List Nat → S

/-- Everything `Agent::handle_input_message` and the handlers take from classes
and headers that are not among the sources, in one record. -/
structure Collaborators (S : Type) where
  factory : XRCEFactory
  dds : Middleware
  endpoints : DataEndpoints
  ops : StreamsManagerOps S
  input : InputStreamOps S
  serializer : Serializer
  fresh : S
  dflt : ResultStatus
  objectid_client : ObjectId

/-- One pass of the loop of `Agent::process_message` (Root.cpp, lines 316-341):
the handler of the submessage. The session is the one the dispatcher holds by
reference, bound to `header.client_key`; when a DELETE of OBJECTID_CLIENT has
erased it earlier in the message the reference dangles, and a handler that uses
the session ends in a fault, while one that does not (a payload that fails to
decode, a further DELETE of OBJECTID_CLIENT, an id without handler) goes on. -/
def Agent.process_submessage {S : Type} (env : Collaborators S) (a : Agent S)
    (header : MessageHeader) (sub : Submessage) : Except Fault (Agent S) :=
  match a.clients_.find header.client_key with
  | some client =>
    match sub with
    | .CREATE sub_header payload =>
      Agent.process_create env.factory env.dds env.dflt a header sub_header payload client
    | .DELETE payload =>
      .ok (Agent.process_delete env.factory env.dflt env.objectid_client a header payload
        client)
    | .WRITE_DATA sub_header payload =>
      .ok (Agent.process_write_data env.endpoints env.dflt a header sub_header payload client)
    | .READ_DATA payload =>
      .ok (Agent.process_read_data env.factory env.endpoints env.dflt a header payload client)
    | .HEARTBEAT payload =>
      .ok (Agent.process_heartbeat env.factory env.ops a header payload client)
    | .ACKNACK payload => .ok (Agent.process_acknack env.ops a header payload client)
    | .GET_INFO => .ok a
    | .CREATE_CLIENT _ => .ok a
    | .other _ => .ok a
  | none =>
    match sub with
    | .CREATE _ (some _) => .error .dangling_reference
    | .DELETE (some payload) =>
      if payload.object_id = env.objectid_client then
        let deleted := Agent.delete_client env.dflt a.clients_ header.client_key
        .ok ((Agent.mk deleted.2 a.messages_).add_reply_status env.factory
          ⟨header.session_id, 0x00, 0, header.client_key⟩
          ⟨⟨payload.request_id, payload.object_id⟩, deleted.1⟩)
      else .error .dangling_reference
    | .WRITE_DATA sub_header (some _) =>
      if sub_header.flags &&& 0x0E = FORMAT_DATA_F then .error .dangling_reference
      else .ok a
    | .READ_DATA (some _) => .error .dangling_reference
    | .HEARTBEAT (some _) => .error .dangling_reference
    | .ACKNACK (some _) => .error .dangling_reference
    | _ => .ok a

/-- The method `Agent::process_message` (Root.cpp, lines 302-358) on the
submessages the deserializer yields, in order. -/
def Agent.process_message {S : Type} (env : Collaborators S) (header : MessageHeader) :
    Agent S → List Submessage → Except Fault (Agent S)
  | a, [] => .ok a
  | a, sub :: rest =>
    match Agent.process_submessage env a header sub with
    | .error f => .error f
    | .ok a1 => Agent.process_message env header a1 rest

/-- What the dispatcher does with a message, as a log: it hands a batch of
submessages to the handlers (`process_message`), it advances an input stream
with a sequence number (`update_stream`), or it stores the message
(`store_input_message`). -/
inductive DispatchEvent
  | processed (submessages : List Submessage)
  | advanced (stream_id : StreamId) (seq_num : Nat)
  | stored (stream_id : StreamId) (seq_num : Nat)
  deriving DecidableEq, Repr

/-- How a call of the dispatcher ends: it returns with the agent in some state,
it leaves defined behaviour, or the model runs out of the passes it was given
for the loop that drains the stored messages. -/
inductive Outcome (S : Type)
  | returned (a : Agent S)
  | faulted (f : Fault)
  | out_of_fuel

/-- The log of a call of the dispatcher and the way the call ended. -/
structure Dispatched (S : Type) where
  events : List DispatchEvent
  outcome : Outcome S

/-- The events `first` followed by the run `later`. -/
def Dispatched.after {S : Type} (first : List DispatchEvent) (later : Dispatched S) :
    Dispatched S :=
  ⟨first ++ later.events, later.outcome⟩

/-- The loop that drains the stored messages in `Agent::handle_input_message`
(Root.cpp, lines 270-280), with `fuel` passes allowed; `seq_num` is the value
of the 16-bit local before the loop test. The stream manager is reached through
the reference taken before the first `process_message`: when the session has
been erased that reference dangles. -/
def Agent.drain {S : Type} (env : Collaborators S) (header : MessageHeader) :
    (fuel : Nat) → Agent S → (seq_num : Nat) → Dispatched S
  | fuel, a, seq_num =>
    match a.clients_.find header.client_key with
    | none => ⟨[], .faulted .dangling_reference⟩
    | some client =>
      if env.input.message_available client.streams_manager_ header.stream_id then
        match fuel with
        | 0 => ⟨[], .out_of_fuel⟩
        | fuel + 1 =>
          let next := env.input.get_next_message client.streams_manager_ header.stream_id
          let a1 := a.with_client header.client_key (client.with_streams next.2)
          let batch := env.serializer.submessages (next.1.buf.take next.1.len)
          match Agent.process_message env header a1 batch with
          | .error f => ⟨[.processed batch], .faulted f⟩
          | .ok a2 =>
            let seq_num1 := (seq_num + 1) % 65536
            match a2.clients_.find header.client_key with
            | none => ⟨[.processed batch], .faulted .dangling_reference⟩
            | some client2 =>
              Dispatched.after [.processed batch, .advanced header.stream_id seq_num1]
                (Agent.drain env header fuel
                  (a2.with_client header.client_key
                    (client2.with_streams
                      (env.input.update_stream client2.streams_manager_ header.stream_id
                        seq_num1)))
                  seq_num1)
      else ⟨[], .returned a⟩

/-- The method `Agent::handle_input_message` (Root.cpp, lines 232-300) on the
octets of the input message, with `fuel` passes allowed for the draining loop. -/
def Agent.handle_input_message {S : Type} (env : Collaborators S) (fuel : Nat) (a : Agent S)
    (input_message : XrceMessage) : Dispatched S :=
  match env.serializer.header (input_message.buf.take input_message.len) with
  | none => ⟨[], .returned a⟩
  | some (header, rest) =>
    if header.session_id = SESSIONID_NONE_WITHOUT_CLIENT_KEY ∨
        header.session_id = SESSIONID_NONE_WITH_CLIENT_KEY then
      match (env.serializer.submessages rest).head? with
      | some (.CREATE_CLIENT payload) =>
        ⟨[], .returned
          (Agent.process_create_client env.factory env.fresh env.dflt a header payload)⟩
      | _ => ⟨[], .returned a⟩
    else
      match a.clients_.find header.client_key with
      | none => ⟨[], .returned a⟩
      | some client =>
        let stream_id := header.stream_id
        let seq_num := header.sequence_nr % 65536
        if env.input.is_valid_message client.streams_manager_ stream_id seq_num then
          if env.input.is_next_message client.streams_manager_ stream_id seq_num then
            let batch := env.serializer.submessages rest
            match Agent.process_message env header a batch with
            | .error f => ⟨[.processed batch], .faulted f⟩
            | .ok a1 =>
              match a1.clients_.find header.client_key with
              | none => ⟨[.processed batch], .faulted .dangling_reference⟩
              | some client1 =>
                Dispatched.after [.processed batch, .advanced stream_id seq_num]
                  (Agent.drain env header fuel
                    (a1.with_client header.client_key
                      (client1.with_streams
                        (env.input.update_stream client1.streams_manager_ stream_id seq_num)))
                    seq_num)
          else
            ⟨[.stored stream_id seq_num], .returned
              (a.with_client header.client_key
                (client.with_streams
                  (env.input.store_input_message client.streams_manager_ stream_id seq_num
                    rest)))⟩
        else ⟨[], .returned a⟩

/-- The log the spec asks of an in-order delivery that starts at sequence number
`seq_num`: each batch handed to the handlers is followed by the advance of the
stream with the next value of `seq_num, seq_num + 1, seq_num + 2, ...` taken
modulo 2^16, one value for each batch. -/
def advance_log (stream_id : StreamId) : (seq_num : Nat) → List (List Submessage) →
    List DispatchEvent
  | _, [] => []
  | seq_num, batch :: rest =>
    .processed batch :: .advanced stream_id (seq_num % 65536) ::
      advance_log stream_id (seq_num + 1) rest

/-- The log of a dispatch follows the in-order pattern from `seq_num`: it is the
`advance_log` of some batches, or that log followed by one more batch handed to
the handlers in a call that did not return (it ended in a fault after that
batch). -/
def InOrderLog {S : Type} (stream_id : StreamId) (seq_num : Nat) (d : Dispatched S) : Prop :=
  ∃ batches,
    d.events = advance_log stream_id seq_num batches ∨
    ((∃ batch, d.events = advance_log stream_id seq_num batches ++ [.processed batch]) ∧
      ∀ a, d.outcome ≠ .returned a)

/-! ## The TCP transport -/

/-- An `IPv4EndPoint`: an address and a port. -/
abbrev IPv4EndPoint := Nat × Nat

/-- The states of a `TCPInputBuffer`. `TCP_BUFFER_EMPTY` is the one the source
names; the type is declared in a header that is not among the sources and the
other three states are those the spec lists (SizeRead, PayloadReading,
Complete). -/
inductive TCPInputBufferState
  | TCP_BUFFER_EMPTY
  | SizeRead
  | PayloadReading
  | Complete
  deriving DecidableEq, Repr

/-- A `TCPInputBuffer`: its state, the size of the message being read and the
octets read so far. -/
structure TCPInputBuffer where
  state : TCPInputBufferState
  msg_size : Nat
  buffer : List Nat
  deriving DecidableEq, Repr

/-- The method `TCPv4Agent::init_input_buffer` (lines 398-402). -/
def TCPv4Agent.init_input_buffer (buffer : TCPInputBuffer) : TCPInputBuffer :=
  ⟨.TCP_BUFFER_EMPTY, 0, buffer.buffer⟩

/-- A `TCPv4ConnectionWindows`, one slot of the pool: the descriptor its
`poll_fd` points to (`none` for `INVALID_SOCKET`), its endpoint, its id, its
active flag and its input buffer. -/
structure TCPv4ConnectionWindows where
  fd : Option Nat
  endpoint : IPv4EndPoint
  id : Nat
  active : Bool
  input_buffer : TCPInputBuffer
  deriving DecidableEq, Repr

/-- The connection state of a `TCPv4Agent`: the array of slots (indexed by
position), the set of active ids, the list of free ids (front first) and the
map from endpoints to slot ids. -/
structure TCPv4Agent where
  connections_ : Nat → TCPv4ConnectionWindows
  active_connections_ : Finset Nat
  free_connections_ : List Nat
  endpoint_to_connection_map_ : Map IPv4EndPoint Nat

/-- The array `connections_` with the slot at position `i` replaced. -/
def TCPv4Agent.set_connection (s : TCPv4Agent) (i : Nat)
    (connection : TCPv4ConnectionWindows) : TCPv4Agent :=
  ⟨fun j => if j = i then connection else s.connections_ j, s.active_connections_,
    s.free_connections_, s.endpoint_to_connection_map_⟩

/-- The state left by the constructor `TCPv4Agent::TCPv4Agent` (lines 26-47):
every slot value-initialised (`blank`), no active id, no free id, no binding. -/
def TCPv4Agent.new (blank : TCPv4ConnectionWindows) : TCPv4Agent :=
  ⟨fun _ => blank, ∅, [], Map.empty⟩

/-- One pass of the loop that sets the connections up in `TCPv4Agent::init`
(lines 94-103), for the index `i`. -/
def TCPv4Agent.init_step (s : TCPv4Agent) (i : Nat) : TCPv4Agent :=
  let connection := s.connections_ i
  let s1 := s.set_connection i
    ⟨none, connection.endpoint, i, false,
      TCPv4Agent.init_input_buffer connection.input_buffer⟩
  ⟨s1.connections_, s1.active_connections_,
    s1.free_connections_ ++ [(s1.connections_ i).id], s1.endpoint_to_connection_map_⟩

/-- The results of the socket calls of `TCPv4Agent::init`: the descriptor
returned by the first `socket` call (line 69), whether the listener socket is
valid, and whether `bind`, `listen`, `connect` and `getsockname` succeed. -/
structure InitCalls where
  first_socket : Option Nat
  listener_ok : Bool
  bind_ok : Bool
  listen_ok : Bool
  connect_ok : Bool
  getsockname_ok : Bool
  deriving DecidableEq, Repr

/-- The method `TCPv4Agent::init` (lines 64-161) on the connection state, for a
pool of `n` slots (`poll_fds_.size()`): the returned Boolean and the state. The
slots are set up only when the listener socket is valid and `bind` succeeds. -/
def TCPv4Agent.init (n : Nat) (calls : InitCalls) (s : TCPv4Agent) : Bool × TCPv4Agent :=
  let connection := s.connections_ 0
  let s0 := s.set_connection 0
    ⟨calls.first_socket, connection.endpoint, connection.id, connection.active,
      connection.input_buffer⟩
  if calls.listener_ok then
    if calls.bind_ok then
      let s1 := (List.range n).foldl TCPv4Agent.init_step s0
      if calls.listen_ok then
        if calls.connect_ok then
          if calls.getsockname_ok then (true, s1) else (false, s1)
        else (false, s1)
      else (false, s1)
    else (false, s0)
  else (false, s0)

/-- The method `TCPv4Agent::open_connection` (lines 345-366); `fd` is the
accepted socket and `endpoint` the endpoint built from `sockaddr`. -/
def TCPv4Agent.open_connection (s : TCPv4Agent) (fd : Nat) (endpoint : IPv4EndPoint) :
    Bool × TCPv4Agent :=
  match s.free_connections_ with
  | [] => (false, s)
  | id :: rest =>
    let connection := s.connections_ id
    let opened : TCPv4ConnectionWindows :=
      ⟨some fd, endpoint, connection.id, true,
        TCPv4Agent.init_input_buffer connection.input_buffer⟩
    (true,
      ⟨fun j => if j = id then opened else s.connections_ j,
        insert id s.active_connections_,
        rest,
        ⟨fun e => if e = opened.endpoint then some opened.id
          else s.endpoint_to_connection_map_.find e⟩⟩)

/-- The method `TCPv4Agent::close_connection` (lines 368-396) on the slot at
position `i`; `close_ok` tells whether `closesocket` returns 0. -/
def TCPv4Agent.close_connection (s : TCPv4Agent) (i : Nat) (close_ok : Bool) :
    Bool × TCPv4Agent :=
  let connection := s.connections_ i
  if connection.id ∈ s.active_connections_ then
    if close_ok then
      let closed : TCPv4ConnectionWindows :=
        ⟨none, connection.endpoint, connection.id, false, connection.input_buffer⟩
      (true,
        ⟨fun j => if j = i then closed else s.connections_ j,
          s.active_connections_.erase connection.id,
          s.free_connections_ ++ [connection.id],
          s.endpoint_to_connection_map_.erase connection.endpoint⟩)
    else (false, s)
  else (false, s)

/-- The method `TCPv4Agent::connection_available` (lines 472-476). -/
def TCPv4Agent.connection_available (s : TCPv4Agent) : Bool :=
  !s.free_connections_.isEmpty

/-- What one call of `send` on the socket does: it accepts up to `n` of the
octets offered, or fails with `SOCKET_ERROR`. -/
inductive SendResult
  | accepted (n : Nat)
  | socket_error
  deriving DecidableEq, Repr

/-- The method `TCPv4Agent::send_data` (lines 510-532): the returned count, the
value of `errcode` after the call and the octets the socket accepted. `socket`
is what the `send` call does and `uninit` the value `errcode` holds when the
method does not write it (the connection is not active). -/
def TCPv4Agent.send_data (connection : TCPv4ConnectionWindows) (socket : SendResult)
    (uninit : Nat) (buffer : List Nat) (len : Nat) : Nat × Nat × List Nat :=
  if connection.active then
    match socket with
    | .accepted n => (min n len, 0, buffer.take (min n len))
    | .socket_error => (0, 1, [])
  else (0, uninit, [])

/-- The constant `max_attemps` (line 24). -/
def max_attemps : Nat := 16

/-- The loop that sends the message size in `TCPv4Agent::send_message` (lines
266-284), with `attempts` passes left: `call` numbers the calls of `send`,
`bytes_sent` is the 16-bit counter and `wire` the octets accepted so far. The
result is `size_sent`, the next call number and the octets accepted. -/
def TCPv4Agent.send_size (connection : TCPv4ConnectionWindows) (socket : Nat → SendResult)
    (uninit : Nat → Nat) (msg_size_buf : List Nat) :
    (attempts : Nat) → (call : Nat) → (bytes_sent : Nat) → (wire : List Nat) →
      Bool × Nat × List Nat
  | 0, call, _, wire => (false, call, wire)
  | attempts + 1, call, bytes_sent, wire =>
    let sent := TCPv4Agent.send_data connection (socket call) (uninit call) msg_size_buf 2
    if 0 < sent.1 then
      let bytes_sent1 := (bytes_sent + sent.1) % 65536
      if bytes_sent1 = 2 then (true, call + 1, wire ++ sent.2.2)
      else TCPv4Agent.send_size connection socket uninit msg_size_buf attempts (call + 1)
        bytes_sent1 (wire ++ sent.2.2)
    else if 0 < sent.2.1 then (false, call + 1, wire ++ sent.2.2)
    else TCPv4Agent.send_size connection socket uninit msg_size_buf attempts (call + 1)
      bytes_sent (wire ++ sent.2.2)

/-- The loop that sends the payload in `TCPv4Agent::send_message` (lines
292-314), with `attempts` passes left. The result is `payload_sent`, the next
call number and the octets accepted. -/
def TCPv4Agent.send_payload (connection : TCPv4ConnectionWindows) (socket : Nat → SendResult)
    (uninit : Nat → Nat) (message : List Nat) :
    (attempts : Nat) → (call : Nat) → (bytes_sent : Nat) → (wire : List Nat) →
      Bool × Nat × List Nat
  | 0, call, _, wire => (false, call, wire)
  | attempts + 1, call, bytes_sent, wire =>
    let sent := TCPv4Agent.send_data connection (socket call) (uninit call)
      (message.drop bytes_sent) (message.length - bytes_sent)
    if 0 < sent.1 then
      let bytes_sent1 := (bytes_sent + sent.1) % 65536
      if bytes_sent1 = message.length % 65536 then (true, call + 1, wire ++ sent.2.2)
      else TCPv4Agent.send_payload connection socket uninit message attempts (call + 1)
        bytes_sent1 (wire ++ sent.2.2)
    else if 0 < sent.2.1 then (false, call + 1, wire ++ sent.2.2)
    else TCPv4Agent.send_payload connection socket uninit message attempts (call + 1)
      bytes_sent (wire ++ sent.2.2)

/-- The two loops of `TCPv4Agent::send_message` in sequence (lines 259-315):
the size is sent first, the payload only when the size loop reports success.
The result is `payload_sent`, the next call number and the octets accepted. -/
def TCPv4Agent.send_frame (connection : TCPv4ConnectionWindows) (socket : Nat → SendResult)
    (uninit : Nat → Nat) (message : List Nat) : Bool × Nat × List Nat :=
  let msg_size_buf :=
    [(0x00FF &&& message.length) % 256, ((0xFF00 &&& message.length) >>> 8) % 256]
  let size := TCPv4Agent.send_size connection socket uninit msg_size_buf max_attemps 0 0 []
  if size.1 then
    TCPv4Agent.send_payload connection socket uninit message max_attemps size.2.1 0 size.2.2
  else (false, size.2.1, size.2.2)

/-- The method `TCPv4Agent::send_message` (lines 246-338): the returned Boolean,
the connection state afterwards and the octets the socket accepted, in order.
`message` is the buffer of the output packet, its length being `get_len()`. -/
def TCPv4Agent.send_message (s : TCPv4Agent) (socket : Nat → SendResult)
    (uninit : Nat → Nat) (close_ok : Bool) (destination : IPv4EndPoint)
    (message : List Nat) : Bool × TCPv4Agent × List Nat :=
  match s.endpoint_to_connection_map_.find destination with
  | none => (false, s, [])
  | some id =>
    let frame := TCPv4Agent.send_frame (s.connections_ id) socket uninit message
    if frame.1 then (true, s, frame.2.2)
    else (false, (s.close_connection id close_ok).2, frame.2.2)

/-- The count a call of `send_data` returns on an active connection when `len`
octets are offered: what the socket accepts of them, 0 on `SOCKET_ERROR` (lines
518-529). -/
def SendResult.taken : SendResult → Nat → Nat
  | .accepted n, len => min n len
  | .socket_error, _ => 0

/-- The value of the 16-bit counter `bytes_sent` after `j` passes of a sending
loop of `send_message` on an active connection, as long as no pass has left the
loop: the first `send` of the loop is call number `start` of the socket, and a
pass that finds the counter at `b` offers `offer b` octets and adds the count
returned when it is positive (lines 271-274 and 300-303). -/
def TCPv4Agent.bytes_sent_after (socket : Nat → SendResult) (offer : Nat → Nat)
    (start : Nat) : Nat → Nat
  | 0 => 0
  | j + 1 =>
    if 0 < (socket (start + j)).taken
        (offer (TCPv4Agent.bytes_sent_after socket offer start j)) then
      (TCPv4Agent.bytes_sent_after socket offer start j +
        (socket (start + j)).taken
          (offer (TCPv4Agent.bytes_sent_after socket offer start j))) % 65536
    else TCPv4Agent.bytes_sent_after socket offer start j

/-- Pass `j` of a sending loop meets the completion test of the loop: its `send`
returns a positive count and brings `bytes_sent` to `target` (lines 271-275 and
300-304). -/
def TCPv4Agent.CompletesAt (socket : Nat → SendResult) (offer : Nat → Nat)
    (start target j : Nat) : Prop :=
  0 < (socket (start + j)).taken (offer (TCPv4Agent.bytes_sent_after socket offer start j)) ∧
  TCPv4Agent.bytes_sent_after socket offer start (j + 1) = target

/-- What the claim calls sent completely, for one sending loop, read on the
script of the socket: the loop completes at its pass `k`, one of its
`max_attemps` passes, no `send` up to that pass has failed with `SOCKET_ERROR`,
and no earlier pass has met the completion test. -/
def TCPv4Agent.SentAt (socket : Nat → SendResult) (offer : Nat → Nat)
    (start target k : Nat) : Prop :=
  k < max_attemps ∧
  (∀ j, j ≤ k → socket (start + j) ≠ .socket_error) ∧
  (∀ j, j < k → ¬ TCPv4Agent.CompletesAt socket offer start target j) ∧
  TCPv4Agent.CompletesAt socket offer start target k

/-- The length prefix and the payload of a message of `len` octets are both sent
completely: the size loop, which offers the two octets of the prefix at every
pass and waits for the counter to be 2, completes at some pass `p` (call `p` of
the socket), and the payload loop, which starts with the next call, offers what
it counts as left and waits for the counter to be the 16-bit length, completes
at some pass `k`. -/
def TCPv4Agent.MessageSent (socket : Nat → SendResult) (len : Nat) : Prop :=
  ∃ p k, TCPv4Agent.SentAt socket (fun _ => 2) 0 2 p ∧
    TCPv4Agent.SentAt socket (fun b => len - b) (p + 1) (len % 65536) k

/-- The states reached from a successful set-up of the `n` slots by `init`
through calls of `open_connection` and of `close_connection` on a slot of the
array. -/
inductive TCPv4Agent.Reachable (n : Nat) : TCPv4Agent → Prop
  | init (blank : TCPv4ConnectionWindows) (calls : InitCalls)
      (hlistener : calls.listener_ok = true) (hbind : calls.bind_ok = true) :
      TCPv4Agent.Reachable n (TCPv4Agent.init n calls (TCPv4Agent.new blank)).2
  | open_connection (s : TCPv4Agent) (fd : Nat) (endpoint : IPv4EndPoint)
      (h : TCPv4Agent.Reachable n s) :
      TCPv4Agent.Reachable n (s.open_connection fd endpoint).2
  | close_connection (s : TCPv4Agent) (i : Nat) (close_ok : Bool) (hi : i < n)
      (h : TCPv4Agent.Reachable n s) :
      TCPv4Agent.Reachable n (s.close_connection i close_ok).2

/-- The invariant of the connection pool, in the words of the claim: the active
set and the free list are disjoint, the free list holds no id twice, an id is
in one of them exactly when it is a slot id, a slot is marked active exactly
when its id is in the active set, and every value of the endpoint map is an
active id. -/
def TCPv4Agent.PoolInvariant (n : Nat) (s : TCPv4Agent) : Prop :=
  (∀ id, id ∈ s.active_connections_ → id ∉ s.free_connections_) ∧
  s.free_connections_.Nodup ∧
  (∀ id, id < n ↔ (id ∈ s.active_connections_ ∨ id ∈ s.free_connections_)) ∧
  (∀ i, i < n →
    ((s.connections_ i).active = true ↔ (s.connections_ i).id ∈ s.active_connections_)) ∧
  (∀ e id, s.endpoint_to_connection_map_.find e = some id → id ∈ s.active_connections_)

/-- The pool invariant together with the two facts its preservation rests on:
the slot at position `i` has id `i`, and an endpoint bound to an id is the
endpoint of that slot. -/
def TCPv4Agent.Consistent (n : Nat) (s : TCPv4Agent) : Prop :=
  TCPv4Agent.PoolInvariant n s ∧
  (∀ i, i < n → (s.connections_ i).id = i) ∧
  (∀ e id, s.endpoint_to_connection_map_.find e = some id →
    (s.connections_ id).endpoint = e)

/-! ## Concrete values used to run the definitions -/

/-- A middleware whose every call succeeds: a participant initialises, the
reference held by a publisher or subscriber designates a live participant, and
each factory returns an object of the requested class. -/
def sampleDds : Middleware :=
  Middleware.mk (fun _ => true)
    (fun o => o.parent.map (fun p => XRCEObject.mk .XRCEParticipant p none))
    (fun p id _ => some (XRCEObject.mk .DataWriter id (some p.id)))
    (fun p id _ => some (XRCEObject.mk .DataReader id (some p.id)))
    (fun p id _ => some (XRCEObject.mk .Topic id (some p.id)))

/-- The handshake of scenario S1: cookie `XRCE`, version 1.0, key AABBCCDD,
session 0x81. -/
def sampleHandshake : CREATE_CLIENT_Payload :=
  ⟨(0, 1), (0, 0), ⟨(0x58, 0x52, 0x43, 0x45), (1, 0), (0xAA, 0xBB, 0xCC, 0xDD), 0x81⟩⟩

/-- The session the S1 handshake creates, with `Unit` for the stream manager. -/
def sampleSession : ProxyClient Unit :=
  ProxyClient.new () sampleHandshake.client_representation (0xAA, 0xBB, 0xCC, 0xDD) 0x81

/-- A registry holding a participant under (0, 1) and a publisher of that
participant under (0, 2). -/
def sampleRegistry : Map ObjectId XRCEObject :=
  ⟨fun j =>
    if j = (0, 1) then some (XRCEObject.mk .XRCEParticipant (0, 1) none)
    else if j = (0, 2) then some (XRCEObject.mk .Publisher (0, 2) (some (0, 1)))
    else none⟩

/-- The sample session owning `sampleRegistry`. -/
def samplePopulated : ProxyClient Unit :=
  sampleSession.with_objects sampleRegistry

/-- The code a status is given by `sampleFactory`. -/
def sampleStatusCode : StatusValue → Nat
  | .STATUS_OK => 0x00
  | .STATUS_OK_MATCHED => 0x01
  | .STATUS_ERR_DDS_ERROR => 0x80
  | .STATUS_ERR_MISMATCH => 0x81
  | .STATUS_ERR_ALREADY_EXISTS => 0x82
  | .STATUS_ERR_DENIED => 0x83
  | .STATUS_ERR_UNKNOWN_REFERENCE => 0x84
  | .STATUS_ERR_INVALID_DATA => 0x85
  | .STATUS_ERR_INCOMPATIBLE => 0x86
  | .STATUS_ERR_RESOURCES => 0x87

/-- The octets `sampleFactory` writes for a header: session id, stream id, the
two octets of the sequence number (low first), the four octets of the key. -/
def sampleHeaderOctets (h : MessageHeader) : List Nat :=
  [h.session_id, h.stream_id, h.sequence_nr % 256, h.sequence_nr / 256,
    h.client_key.1, h.client_key.2.1, h.client_key.2.2.1, h.client_key.2.2.2]

/-- A factory that writes the header, then one octet naming the submessage
(5 for STATUS, 9 for DATA, 10 for ACKNACK, 11 for HEARTBEAT), then the payload. -/
def sampleFactory : XRCEFactory :=
  XRCEFactory.mk
    (fun h p => ⟨sampleHeaderOctets h ++
      [5, p.related_request.request_id.1, p.related_request.request_id.2,
        p.related_request.object_id.1, p.related_request.object_id.2,
        sampleStatusCode p.result.status]⟩)
    (fun h p => ⟨sampleHeaderOctets h ++
      [9, p.request_id.1, p.request_id.2, p.object_id.1, p.object_id.2] ++ p.serialized_data⟩)
    (fun h p => ⟨sampleHeaderOctets h ++
      [11, p.first_unacked_seq_nr, p.last_unacked_seq_nr]⟩)
    (fun h p => ⟨sampleHeaderOctets h ++
      [10, p.first_unacked_seq_num, p.nack_bitmap.1, p.nack_bitmap.2]⟩)

/-- A small stream state used to run the handlers: the messages stored for
output and the heartbeats and acknacks received, each with its stream. -/
structure SampleStreams where
  stored : List (StreamId × List Nat)
  heartbeats : List (StreamId × Nat × Nat)
  acknacks : List (StreamId × Nat × (Nat × Nat))
  deriving DecidableEq, Repr

/-- Stream manager members over `SampleStreams`. The output history answers with
the two octets (stream, sequence number) for the sequence numbers 10 to 19 and
with the empty message elsewhere; the next outbound sequence number of a stream
is the number of messages stored for it; the unacked numbers reported after a
heartbeat are those of the last heartbeat of the stream. -/
def sampleOps : StreamsManagerOps SampleStreams :=
  StreamsManagerOps.mk
    (fun _ stream seq => if 10 ≤ seq ∧ seq ≤ 19 then ⟨[stream, seq], 2⟩ else ⟨[], 0⟩)
    (fun s stream first bitmap => ⟨s.stored, s.heartbeats, s.acknacks ++ [(stream, first, bitmap)]⟩)
    (fun s stream first last => ⟨s.stored, s.heartbeats ++ [(stream, first, last)], s.acknacks⟩)
    (fun s stream =>
      match (s.heartbeats.filter (fun e => e.1 = stream)).getLast? with
      | some e => e.2.1
      | none => 0)
    (fun s stream =>
      match (s.heartbeats.filter (fun e => e.1 = stream)).getLast? with
      | some _ => (0, 1)
      | none => (0, 0))
    (fun s stream => (s.stored.filter (fun e => e.1 = stream)).length)
    (fun s stream octets => ⟨s.stored ++ [(stream, octets)], s.heartbeats, s.acknacks⟩)
    (fun _ _ => 0)
    (fun s stream => (s.stored.filter (fun e => e.1 = stream)).length - 1)

/-- Data endpoints whose every write and read succeeds. -/
def sampleEndpoints : DataEndpoints :=
  DataEndpoints.mk (fun _ _ => true) (fun _ _ _ => 0)

/-- The key of the S1 handshake. -/
def sampleKey : ClientKey := (0xAA, 0xBB, 0xCC, 0xDD)

/-- An agent whose only session is `samplePopulated`, bound to `sampleKey`, and
whose queue is empty. -/
def sampleAgent : Agent Unit :=
  ⟨(Map.empty.emplace sampleKey samplePopulated).1, []⟩

/-- The S1 session over `SampleStreams`, with nothing stored or received. -/
def sampleStreamSession : ProxyClient SampleStreams :=
  ProxyClient.new ⟨[], [], []⟩ sampleHandshake.client_representation sampleKey 0x81

/-- An agent whose only session is `sampleStreamSession` and whose queue is
empty. -/
def sampleStreamAgent : Agent SampleStreams :=
  ⟨(Map.empty.emplace sampleKey sampleStreamSession).1, []⟩

/-- A slot as the constructor leaves it. -/
def sampleBlank : TCPv4ConnectionWindows :=
  ⟨none, (0, 0), 0, false, ⟨.TCP_BUFFER_EMPTY, 0, []⟩⟩

/-- Socket calls of `init` that all succeed. -/
def sampleInitCalls : InitCalls :=
  ⟨some 3, true, true, true, true, true⟩

/-- A pool of four slots after `init`. -/
def samplePool : TCPv4Agent :=
  (TCPv4Agent.init 4 sampleInitCalls (TCPv4Agent.new sampleBlank)).2

/-- The sample pool after the connection of the endpoint (10, 2019) on the
socket 7: slot 0 is active and bound to that endpoint. -/
def sampleConnected : TCPv4Agent :=
  (samplePool.open_connection 7 (10, 2019)).2

/-- A socket that accepts one octet at each of its first two calls and
everything it is offered afterwards. -/
def sampleSlowSocket : Nat → SendResult :=
  fun call => if call < 2 then .accepted 1 else .accepted 65535

/-- A socket that fails at every call. -/
def sampleDeadSocket : Nat → SendResult :=
  fun _ => .socket_error

/-- A socket that never fails and never accepts an octet. -/
def sampleStalledSocket : Nat → SendResult :=
  fun _ => .accepted 0

/-- A stream state with an input side: the sequence number expected next, the
messages stored out of order with their sequence number, and the output side of
`SampleStreams`. One input stream is kept, whatever the stream id. -/
structure SampleInputStreams where
  expected : Nat
  buffered : List (Nat × List Nat)
  output : SampleStreams
  deriving DecidableEq, Repr

/-- The members of `sampleOps`, acting on the output side of
`SampleInputStreams`. -/
def sampleDispatchOps : StreamsManagerOps SampleInputStreams :=
  StreamsManagerOps.mk
    (fun s stream seq => sampleOps.get_output_message s.output stream seq)
    (fun s stream first bitmap =>
      ⟨s.expected, s.buffered, sampleOps.update_from_acknack s.output stream first bitmap⟩)
    (fun s stream first last =>
      ⟨s.expected, s.buffered, sampleOps.update_from_heartbeat s.output stream first last⟩)
    (fun s stream => sampleOps.get_first_unacked_seq_num s.output stream)
    (fun s stream => sampleOps.get_nack_bitmap s.output stream)
    (fun s stream => sampleOps.get_ack_num s.output stream)
    (fun s stream octets =>
      ⟨s.expected, s.buffered, sampleOps.store_output_message s.output stream octets⟩)
    (fun s stream => sampleOps.get_first_unacked_seq_nr s.output stream)
    (fun s stream => sampleOps.get_last_unacked_seq_nr s.output stream)

/-- An input side in the manner of the spec: a sequence number is valid when it
is not below the expected one and next when it equals it; an advance sets the
expected number to the successor; a message is available when one is stored
under the expected number, and taking it removes it. -/
def sampleInputOps : InputStreamOps SampleInputStreams :=
  InputStreamOps.mk
    (fun s _ seq => decide (s.expected ≤ seq))
    (fun s _ seq => decide (seq = s.expected))
    (fun s _ seq => ⟨seq + 1, s.buffered, s.output⟩)
    (fun s _ => (s.buffered.lookup s.expected).isSome)
    (fun s _ =>
      match s.buffered.lookup s.expected with
      | some octets =>
        (⟨octets, octets.length⟩,
          ⟨s.expected, s.buffered.filter (fun e => e.1 ≠ s.expected), s.output⟩)
      | none => (⟨[], 0⟩, s))
    (fun s _ seq octets => ⟨s.expected, s.buffered ++ [(seq, octets)], s.output⟩)

/-- The submessages the sample serializer reads: groups of five octets, the
first being the submessage id; id 3 is a DELETE whose payload is the request id
and the object id, any other id has no handler. -/
def sampleSubmessages : List Nat → List Submessage
  | id :: r1 :: r2 :: o1 :: o2 :: rest =>
    (if id = 3 then Submessage.DELETE (some ⟨(r1, r2), (o1, o2)⟩) else Submessage.other id) ::
      sampleSubmessages rest
  | _ => []

/-- A serializer whose header is the eight octets `sampleFactory` writes. -/
def sampleSerializer : Serializer :=
  Serializer.mk
    (fun octets =>
      match octets with
      | session :: stream :: low :: high :: k1 :: k2 :: k3 :: k4 :: rest =>
        some (⟨session, stream, low + 256 * high, (k1, k2, k3, k4)⟩, rest)
      | _ => none)
    sampleSubmessages

/-- The collaborators used to run the dispatcher; (0xFF, 0xFF) stands for
OBJECTID_CLIENT. -/
def sampleEnv : Collaborators SampleInputStreams :=
  ⟨sampleFactory, sampleDds, sampleEndpoints, sampleDispatchOps, sampleInputOps,
    sampleSerializer, ⟨0, [], ⟨[], [], []⟩⟩, ⟨.STATUS_OK⟩, (0xFF, 0xFF)⟩

/-- An agent whose only session, bound to `sampleKey`, owns the sample registry,
expects sequence number 0 and has the message of sequence number 1 stored: a
DELETE of the publisher (0, 2). Its queue is empty. -/
def sampleDispatchAgent : Agent SampleInputStreams :=
  ⟨(Map.empty.emplace sampleKey
    (⟨sampleHandshake.client_representation, sampleRegistry, sampleKey, 0x81,
      ⟨0, [(1, [3, 0, 6, 0, 2])], ⟨[], [], []⟩⟩⟩ : ProxyClient SampleInputStreams)).1, []⟩

/-- The octets of a message for the session 0x81 of `sampleKey` on stream 0x80
with sequence number `seq`, followed by `body`. -/
def sampleInput (seq : Nat) (body : List Nat) : XrceMessage :=
  ⟨[0x81, 0x80, seq, 0, 0xAA, 0xBB, 0xCC, 0xDD] ++ body, 8 + body.length⟩

/-! ## Lemmas on the containers -/

theorem Map.find_erase_self {κ α : Type} [DecidableEq κ] (m : Map κ α) (k : κ) :
    (m.erase k).find k = none := by
  simp [Map.erase]

theorem Map.find_erase_ne {κ α : Type} [DecidableEq κ] (m : Map κ α) (k j : κ) (h : j ≠ k) :
    (m.erase k).find j = m.find j := by
  simp [Map.erase, h]

theorem Map.insert_of_find_none {κ α : Type} [DecidableEq κ] (m : Map κ α) (k : κ) (v : α)
    (h : m.find k = none) :
    (m.insert k v).2 = true ∧ (m.insert k v).1.find k = some v ∧
      ∀ j, j ≠ k → (m.insert k v).1.find j = m.find j := by
  refine ⟨by simp [Map.insert, h], by simp [Map.insert, h], ?_⟩
  intro j hj
  simp [Map.insert, h, hj]

theorem Map.insert_of_find_some {κ α : Type} [DecidableEq κ] (m : Map κ α) (k : κ) (v w : α)
    (h : m.find k = some w) : m.insert k v = (m, false) := by
  simp only [Map.insert, h]

theorem Map.emplace_of_find_none {κ α : Type} [DecidableEq κ] (m : Map κ α) (k : κ) (v : α)
    (h : m.find k = none) :
    (m.emplace k v).2 = true ∧ (m.emplace k v).1.find k = some v ∧
      ∀ j, j ≠ k → (m.emplace k v).1.find j = m.find j := by
  refine ⟨by simp [Map.emplace, h], by simp [Map.emplace, h], ?_⟩
  intro j hj
  simp [Map.emplace, h, hj]

theorem ProxyClient.with_objects_self {S : Type} (c : ProxyClient S) :
    c.with_objects c.objects_ = c := rfl

/-! ## Agent::create_client -/

/-- A valid handshake whose key is unbound: the result of the call, the new
binding of the key and the bindings of the other keys. -/
theorem create_client_unbound_key {S : Type} (fresh : S) (dflt : ResultStatus)
    (clients_ : Map ClientKey (ProxyClient S)) (payload : CREATE_CLIENT_Payload)
    (hcookie : payload.client_representation.xrce_cookie = XRCE_COOKIE)
    (hversion : payload.client_representation.xrce_version.1 = XRCE_VERSION_MAJOR)
    (hnew : clients_.find payload.client_representation.client_key = none) :
    (Agent.create_client fresh dflt clients_ payload).1.status = .STATUS_OK ∧
    (Agent.create_client fresh dflt clients_ payload).2.find
        payload.client_representation.client_key =
      some (ProxyClient.new fresh payload.client_representation
        payload.client_representation.client_key payload.client_representation.session_id) ∧
    ((Agent.create_client fresh dflt clients_ payload).2.find
        payload.client_representation.client_key).map ProxyClient.get_session_id =
      some payload.client_representation.session_id ∧
    ∀ k, k ≠ payload.client_representation.client_key →
      (Agent.create_client fresh dflt clients_ payload).2.find k = clients_.find k := by
  obtain ⟨he1, he2, he3⟩ := Map.emplace_of_find_none clients_
    payload.client_representation.client_key
    (ProxyClient.new fresh payload.client_representation
      payload.client_representation.client_key payload.client_representation.session_id) hnew
  have hrun : Agent.create_client fresh dflt clients_ payload =
      (⟨.STATUS_OK⟩, (clients_.emplace payload.client_representation.client_key
        (ProxyClient.new fresh payload.client_representation
          payload.client_representation.client_key
          payload.client_representation.session_id)).1) := by
    simp only [Agent.create_client, hcookie, hversion, hnew, if_true, he1, Bool.not_true,
      Bool.false_eq_true, if_false, ResultStatus.set_status]
  rw [hrun]
  refine ⟨rfl, he2, ?_, he3⟩
  rw [he2]
  rfl

/-- C1: a CREATE_CLIENT payload with the right cookie and major version, whose
client key has no session yet, is answered STATUS_OK; afterwards the session map
binds that key to one session, freshly constructed from the payload and carrying
the payload's session id, and the binding of every other key is unchanged. -/
theorem create_client_new_key {S : Type} (fresh : S) (dflt : ResultStatus)
    (clients_ : Map ClientKey (ProxyClient S)) (payload : CREATE_CLIENT_Payload)
    (hcookie : payload.client_representation.xrce_cookie = XRCE_COOKIE)
    (hversion : payload.client_representation.xrce_version.1 = XRCE_VERSION_MAJOR)
    (hnew : clients_.find payload.client_representation.client_key = none) :
    (Agent.create_client fresh dflt clients_ payload).1.status = .STATUS_OK ∧
    (Agent.create_client fresh dflt clients_ payload).2.find
        payload.client_representation.client_key =
      some (ProxyClient.new fresh payload.client_representation
        payload.client_representation.client_key payload.client_representation.session_id) ∧
    ((Agent.create_client fresh dflt clients_ payload).2.find
        payload.client_representation.client_key).map ProxyClient.get_session_id =
      some payload.client_representation.session_id ∧
    ∀ k, k ≠ payload.client_representation.client_key →
      (Agent.create_client fresh dflt clients_ payload).2.find k = clients_.find k :=
  create_client_unbound_key fresh dflt clients_ payload hcookie hversion hnew

/-- C1, run on scenario S1: the empty session map and the handshake with key
AABBCCDD and session 0x81. -/
theorem create_client_new_key_witness :
    (Agent.create_client () ⟨.STATUS_ERR_DENIED⟩ Map.empty sampleHandshake).1.status
        = .STATUS_OK ∧
    ((Agent.create_client () ⟨.STATUS_ERR_DENIED⟩ Map.empty sampleHandshake).2.find
        (0xAA, 0xBB, 0xCC, 0xDD)).map ProxyClient.get_session_id = some 0x81 :=
  have h := create_client_new_key () ⟨.STATUS_ERR_DENIED⟩ Map.empty sampleHandshake rfl rfl rfl
  ⟨h.1, h.2.2.1⟩

/-- C2: a CREATE_CLIENT payload with a wrong cookie is answered
STATUS_ERR_INVALID_DATA whatever its version, one with the right cookie and a
wrong major version is answered STATUS_ERR_INCOMPATIBLE, and in both cases the
session map returned is the one received: no session is created, replaced or
removed. -/
theorem create_client_bad_handshake {S : Type} (fresh : S) (dflt : ResultStatus)
    (clients_ : Map ClientKey (ProxyClient S)) (payload : CREATE_CLIENT_Payload) :
    (payload.client_representation.xrce_cookie ≠ XRCE_COOKIE →
      Agent.create_client fresh dflt clients_ payload
        = (⟨.STATUS_ERR_INVALID_DATA⟩, clients_)) ∧
    (payload.client_representation.xrce_cookie = XRCE_COOKIE →
      payload.client_representation.xrce_version.1 ≠ XRCE_VERSION_MAJOR →
      Agent.create_client fresh dflt clients_ payload
        = (⟨.STATUS_ERR_INCOMPATIBLE⟩, clients_)) := by
  constructor
  · intro hc
    simp [Agent.create_client, hc, ResultStatus.set_status]
  · intro hc hv
    simp [Agent.create_client, hc, hv, ResultStatus.set_status]

/-- C2, run on scenario S2 (cookie `XRC!`) and on a handshake of version 2.0,
both against a session map that already holds the S1 session. -/
theorem create_client_bad_handshake_witness :
    Agent.create_client () ⟨.STATUS_OK⟩ (Map.mk (fun _ => some sampleSession))
        ⟨(0, 1), (0, 0), ⟨(0x58, 0x52, 0x43, 0x21), (1, 0), (0xAA, 0xBB, 0xCC, 0xDD), 0x81⟩⟩
      = (⟨.STATUS_ERR_INVALID_DATA⟩, Map.mk (fun _ => some sampleSession)) ∧
    Agent.create_client () ⟨.STATUS_OK⟩ (Map.mk (fun _ => some sampleSession))
        ⟨(0, 1), (0, 0), ⟨(0x58, 0x52, 0x43, 0x45), (2, 0), (0xAA, 0xBB, 0xCC, 0xDD), 0x82⟩⟩
      = (⟨.STATUS_ERR_INCOMPATIBLE⟩, Map.mk (fun _ => some sampleSession)) :=
  ⟨(create_client_bad_handshake () ⟨.STATUS_OK⟩ (Map.mk (fun _ => some sampleSession))
      ⟨(0, 1), (0, 0), ⟨(0x58, 0x52, 0x43, 0x21), (1, 0), (0xAA, 0xBB, 0xCC, 0xDD), 0x81⟩⟩).1
      (by decide),
   (create_client_bad_handshake () ⟨.STATUS_OK⟩ (Map.mk (fun _ => some sampleSession))
      ⟨(0, 1), (0, 0), ⟨(0x58, 0x52, 0x43, 0x45), (2, 0), (0xAA, 0xBB, 0xCC, 0xDD), 0x82⟩⟩).2
      (by decide) (by decide)⟩

/-- A valid handshake arriving while its key is bound to a session with another
session id: the old session is erased and a fresh one emplaced. -/
theorem create_client_other_session {S : Type} (fresh : S) (dflt : ResultStatus)
    (clients_ : Map ClientKey (ProxyClient S)) (payload : CREATE_CLIENT_Payload)
    (old : ProxyClient S)
    (hcookie : payload.client_representation.xrce_cookie = XRCE_COOKIE)
    (hversion : payload.client_representation.xrce_version.1 = XRCE_VERSION_MAJOR)
    (hold : clients_.find payload.client_representation.client_key = some old)
    (hsid : payload.client_representation.session_id ≠ old.session_id_) :
    (Agent.create_client fresh dflt clients_ payload).1 = ⟨.STATUS_OK⟩ ∧
    (Agent.create_client fresh dflt clients_ payload).2.find
        payload.client_representation.client_key =
      some (ProxyClient.new fresh payload.client_representation
        payload.client_representation.client_key payload.client_representation.session_id) ∧
    ∀ k, k ≠ payload.client_representation.client_key →
      (Agent.create_client fresh dflt clients_ payload).2.find k = clients_.find k := by
  obtain ⟨he1, he2, he3⟩ := Map.emplace_of_find_none
    (clients_.erase payload.client_representation.client_key)
    payload.client_representation.client_key
    (ProxyClient.new fresh payload.client_representation
      payload.client_representation.client_key payload.client_representation.session_id)
    (Map.find_erase_self _ _)
  have hrun : Agent.create_client fresh dflt clients_ payload =
      (⟨.STATUS_OK⟩, ((clients_.erase payload.client_representation.client_key).emplace
        payload.client_representation.client_key
        (ProxyClient.new fresh payload.client_representation
          payload.client_representation.client_key
          payload.client_representation.session_id)).1) := by
    simp only [Agent.create_client, hcookie, hversion, hold, if_true, he1, Bool.not_true,
      Bool.false_eq_true, if_false, ResultStatus.set_status, ProxyClient.get_session_id,
      ne_eq, hsid, not_false_eq_true]
  rw [hrun]
  refine ⟨rfl, he2, ?_⟩
  intro k hk
  rw [he3 k hk, Map.find_erase_ne _ _ _ hk]

/-- A valid handshake always returns STATUS_OK and leaves its key bound to a
session carrying the handshake's session id; other keys keep their binding. -/
theorem create_client_valid {S : Type} (fresh : S) (dflt : ResultStatus)
    (clients_ : Map ClientKey (ProxyClient S)) (payload : CREATE_CLIENT_Payload)
    (hcookie : payload.client_representation.xrce_cookie = XRCE_COOKIE)
    (hversion : payload.client_representation.xrce_version.1 = XRCE_VERSION_MAJOR) :
    (Agent.create_client fresh dflt clients_ payload).1 = ⟨.STATUS_OK⟩ ∧
    (∃ c, (Agent.create_client fresh dflt clients_ payload).2.find
        payload.client_representation.client_key = some c ∧
      c.session_id_ = payload.client_representation.session_id) ∧
    ∀ k, k ≠ payload.client_representation.client_key →
      (Agent.create_client fresh dflt clients_ payload).2.find k = clients_.find k := by
  cases hfind : clients_.find payload.client_representation.client_key with
  | none =>
    obtain ⟨h1, h2, _, h4⟩ := create_client_unbound_key fresh dflt clients_ payload hcookie hversion hfind
    refine ⟨?_, ⟨_, h2, rfl⟩, h4⟩
    cases hr : (Agent.create_client fresh dflt clients_ payload).1
    rw [hr] at h1
    simpa using h1
  | some old =>
    by_cases hsid : payload.client_representation.session_id = old.session_id_
    · have hrun : Agent.create_client fresh dflt clients_ payload = (⟨.STATUS_OK⟩, clients_) := by
        simp only [Agent.create_client, hcookie, hversion, hfind, if_true,
          ResultStatus.set_status, ProxyClient.get_session_id, ne_eq, hsid,
          not_true_eq_false, if_false]
      rw [hrun]
      exact ⟨rfl, ⟨old, hfind, hsid.symm⟩, fun _ _ => rfl⟩
    · obtain ⟨h1, h2, h3⟩ := create_client_other_session fresh dflt clients_ payload old
        hcookie hversion hfind hsid
      exact ⟨h1, ⟨_, h2, rfl⟩, h3⟩

/-- C3: two valid CREATE_CLIENT payloads with the same client key and different
session ids, applied one after the other to any session map, with the first
session given any object registry `held` and any stream state `streams` in
between, leave that key bound to one session: it carries the second payload's
session id, its object registry is the empty map and its stream state is the
freshly constructed one. Both handshakes are answered STATUS_OK and the other
keys keep their sessions. -/
theorem create_client_replaces_session {S : Type} (fresh : S) (dflt : ResultStatus)
    (clients_ : Map ClientKey (ProxyClient S)) (p1 p2 : CREATE_CLIENT_Payload)
    (held : Map ObjectId XRCEObject) (streams : S)
    (h1cookie : p1.client_representation.xrce_cookie = XRCE_COOKIE)
    (h1version : p1.client_representation.xrce_version.1 = XRCE_VERSION_MAJOR)
    (h2cookie : p2.client_representation.xrce_cookie = XRCE_COOKIE)
    (h2version : p2.client_representation.xrce_version.1 = XRCE_VERSION_MAJOR)
    (hkey : p1.client_representation.client_key = p2.client_representation.client_key)
    (hsid : p1.client_representation.session_id ≠ p2.client_representation.session_id) :
    (Agent.create_client fresh dflt clients_ p1).1.status = .STATUS_OK ∧
    (Agent.create_client fresh dflt
      ((Agent.create_client fresh dflt clients_ p1).2.modify p1.client_representation.client_key
        (fun c => ⟨c.representation_, held, c.client_key_, c.session_id_, streams⟩))
      p2).1.status = .STATUS_OK ∧
    (∃ c, (Agent.create_client fresh dflt
        ((Agent.create_client fresh dflt clients_ p1).2.modify
          p1.client_representation.client_key
          (fun c => ⟨c.representation_, held, c.client_key_, c.session_id_, streams⟩))
        p2).2.find p2.client_representation.client_key = some c ∧
      c.session_id_ = p2.client_representation.session_id ∧
      c.objects_ = Map.empty ∧ c.streams_manager_ = fresh ∧
      c.client_key_ = p2.client_representation.client_key) ∧
    ∀ k, k ≠ p2.client_representation.client_key →
      (Agent.create_client fresh dflt
        ((Agent.create_client fresh dflt clients_ p1).2.modify
          p1.client_representation.client_key
          (fun c => ⟨c.representation_, held, c.client_key_, c.session_id_, streams⟩))
        p2).2.find k = clients_.find k := by
  obtain ⟨hs1, ⟨c1, hc1, hc1sid⟩, hother1⟩ :=
    create_client_valid fresh dflt clients_ p1 h1cookie h1version
  have hmid : ((Agent.create_client fresh dflt clients_ p1).2.modify
      p1.client_representation.client_key
      (fun c => ⟨c.representation_, held, c.client_key_, c.session_id_, streams⟩)).find
      p2.client_representation.client_key
      = some ⟨c1.representation_, held, c1.client_key_, c1.session_id_, streams⟩ := by
    simp [Map.modify, ← hkey, hc1]
  have hne : p2.client_representation.session_id ≠
      (⟨c1.representation_, held, c1.client_key_, c1.session_id_, streams⟩ :
        ProxyClient S).session_id_ := by
    simpa [hc1sid] using hsid.symm
  obtain ⟨hs2, hfind2, hother2⟩ := create_client_other_session fresh dflt _ p2 _
    h2cookie h2version hmid hne
  refine ⟨by rw [hs1], by rw [hs2], ⟨_, hfind2, rfl, rfl, rfl, rfl⟩, ?_⟩
  intro k hk
  rw [hother2 k hk]
  have hk1 : k ≠ p1.client_representation.client_key := by rw [hkey]; exact hk
  simp only [Map.modify, hk1, if_false]
  exact hother1 k hk1

/-- C3, run on the S1 handshake followed by the same handshake with session
0x82, the first session having been given `sampleRegistry` in between. -/
theorem create_client_replaces_session_witness :
    ∃ c, (Agent.create_client () ⟨.STATUS_OK⟩
        ((Agent.create_client () ⟨.STATUS_OK⟩ Map.empty sampleHandshake).2.modify
          (0xAA, 0xBB, 0xCC, 0xDD)
          (fun c => ⟨c.representation_, sampleRegistry, c.client_key_, c.session_id_, ()⟩))
        ⟨(0, 2), (0, 0), ⟨(0x58, 0x52, 0x43, 0x45), (1, 0), (0xAA, 0xBB, 0xCC, 0xDD), 0x82⟩⟩).2.find
          (0xAA, 0xBB, 0xCC, 0xDD) = some c ∧
      c.session_id_ = 0x82 ∧ c.objects_ = Map.empty ∧ c.streams_manager_ = () ∧
      c.client_key_ = (0xAA, 0xBB, 0xCC, 0xDD) :=
  (create_client_replaces_session () ⟨.STATUS_OK⟩ Map.empty sampleHandshake
    ⟨(0, 2), (0, 0), ⟨(0x58, 0x52, 0x43, 0x45), (1, 0), (0xAA, 0xBB, 0xCC, 0xDD), 0x82⟩⟩
    sampleRegistry () rfl rfl rfl rfl rfl (by decide)).2.2.1

theorem ProxyClient.get_object_eq {S : Type} (c : ProxyClient S) (object_id : ObjectId) :
    c.get_object object_id = c.objects_.find object_id := by
  unfold ProxyClient.get_object
  cases c.objects_.find object_id <;> rfl

/-! ## ProxyClient::create on an id -/

theorem ProxyClient.insert_effect {S : Type} (c : ProxyClient S) (id : ObjectId)
    (object : XRCEObject) :
    c.CreateEffect id ((c.objects_.insert id object).2,
      c.with_objects (c.objects_.insert id object).1) := by
  cases hfind : c.objects_.find id with
  | some w =>
    left
    rw [Map.insert_of_find_some _ _ _ _ hfind]
    exact ⟨rfl, rfl⟩
  | none =>
    right
    obtain ⟨h1, h2, h3⟩ := Map.insert_of_find_none c.objects_ id object hfind
    exact ⟨h1, hfind, ⟨object, h2⟩, h3, rfl⟩

theorem ProxyClient.insert_created_effect {S : Type} (c : ProxyClient S) (id : ObjectId)
    (owner : XRCEObject) (target : ObjectClass) (created : Option XRCEObject) :
    c.CreateEffect id (c.insert_created id owner target created) := by
  unfold ProxyClient.insert_created
  split
  · exact Or.inl ⟨rfl, rfl⟩
  · split
    · exact Or.inl ⟨rfl, rfl⟩
    · exact ProxyClient.insert_effect c id _

/-- Whenever `ProxyClient::create` returns, its effect on the session is the one
`CreateEffect` describes. -/
theorem ProxyClient.create_effect {S : Type} (dds : Middleware) (c : ProxyClient S)
    (id : ObjectId) (representation : ObjectVariant) (r : Bool × ProxyClient S)
    (h : c.create dds id representation = .ok r) : c.CreateEffect id r := by
  unfold ProxyClient.create at h
  repeat' split at h
  all_goals first
    | (cases h; exact Or.inl ⟨rfl, rfl⟩)
    | (cases h; exact ProxyClient.insert_effect c id _)
    | (cases h; exact ProxyClient.insert_created_effect c id _ _ _)
    | cases h

theorem ProxyClient.status_of_create_returns {S : Type} (dflt : ResultStatus)
    (r : Except Fault (Bool × ProxyClient S)) (status : ResultStatus) (c : ProxyClient S)
    (h : ProxyClient.status_of_create dflt r = .ok (status, c)) :
    (r = .ok (true, c) ∧ status = ⟨.STATUS_OK⟩) ∨
    (r = .ok (false, c) ∧ status = ⟨.STATUS_ERR_DDS_ERROR⟩) := by
  unfold ProxyClient.status_of_create at h
  split at h
  · cases h
  · cases h
    exact Or.inl ⟨rfl, rfl⟩
  · cases h
    exact Or.inr ⟨rfl, rfl⟩

/-! ## ProxyClient::create with a creation mode -/

/-- C4: a CREATE whose object id is already bound in the registry, with
reuse = false and replace = false, is answered STATUS_ERR_ALREADY_EXISTS and the
session returned is the one received: the existing object is kept and nothing
is added. -/
theorem create_existing_plain_mode {S : Type} (dds : Middleware) (dflt : ResultStatus)
    (c : ProxyClient S) (creation_mode : CreationMode) (create_payload : CREATE_Payload)
    (hexists : c.get_object create_payload.object_id ≠ none)
    (hreuse : creation_mode.reuse = false) (hreplace : creation_mode.replace = false) :
    c.create_with_mode dds dflt creation_mode create_payload
      = .ok (⟨.STATUS_ERR_ALREADY_EXISTS⟩, c) := by
  rw [ProxyClient.get_object_eq] at hexists
  cases hfind : c.objects_.find create_payload.object_id with
  | none => exact absurd hfind hexists
  | some o =>
    simp [ProxyClient.create_with_mode, hfind, hreuse, hreplace, ResultStatus.set_status]

/-- C4, run on the sample registry: a second CREATE of the publisher (0, 2). -/
theorem create_existing_plain_mode_witness :
    samplePopulated.get_object (0, 2) ≠ none ∧
    samplePopulated.create_with_mode sampleDds ⟨.STATUS_OK⟩ ⟨false, false⟩
        ⟨(0, 9), (0, 2), .OBJK_PUBLISHER (0, 1)⟩
      = .ok (⟨.STATUS_ERR_ALREADY_EXISTS⟩, samplePopulated) :=
  ⟨by decide,
   create_existing_plain_mode sampleDds ⟨.STATUS_OK⟩ samplePopulated ⟨false, false⟩
     ⟨(0, 9), (0, 2), .OBJK_PUBLISHER (0, 1)⟩ (by decide) rfl rfl⟩

/-- Replace mode on a bound id, when the creation step returns: the status is
STATUS_OK exactly when the id is bound afterwards and STATUS_ERR_DDS_ERROR
exactly when it is not; in the second case the session is the one left by the
delete, so the old object is not restored; every other id keeps its binding. -/
theorem create_replace_when_returns {S : Type} (dds : Middleware) (dflt : ResultStatus)
    (c : ProxyClient S) (creation_mode : CreationMode) (create_payload : CREATE_Payload)
    (status : ResultStatus) (after : ProxyClient S)
    (hexists : c.get_object create_payload.object_id ≠ none)
    (hreuse : creation_mode.reuse = false) (hreplace : creation_mode.replace = true)
    (hreturns : c.create_with_mode dds dflt creation_mode create_payload
      = .ok (status, after)) :
    (status.status = .STATUS_OK ∨ status.status = .STATUS_ERR_DDS_ERROR) ∧
    (status.status = .STATUS_OK ↔ after.get_object create_payload.object_id ≠ none) ∧
    (status.status = .STATUS_ERR_DDS_ERROR ↔
      after = (c.delete_object create_payload.object_id).2) ∧
    (status.status = .STATUS_ERR_DDS_ERROR →
      after.get_object create_payload.object_id = none) ∧
    ∀ j, j ≠ create_payload.object_id → after.get_object j = c.get_object j := by
  simp only [ProxyClient.get_object_eq] at hexists ⊢
  cases hfind : c.objects_.find create_payload.object_id with
  | none => exact absurd hfind hexists
  | some o =>
    have hdel : c.delete_object create_payload.object_id
        = (true, c.with_objects (c.objects_.erase create_payload.object_id)) := by
      simp [ProxyClient.delete_object, hfind]
    simp only [ProxyClient.create_with_mode, hfind, hreuse, hreplace, Bool.not_false,
      Bool.not_true, if_true, Bool.false_eq_true, if_false, hdel] at hreturns
    rw [hdel]
    have hself : (c.with_objects (c.objects_.erase create_payload.object_id)).objects_.find
        create_payload.object_id = none := Map.find_erase_self _ _
    have hne : ∀ j, j ≠ create_payload.object_id →
        (c.with_objects (c.objects_.erase create_payload.object_id)).objects_.find j
          = c.objects_.find j := fun j hj => Map.find_erase_ne _ _ _ hj
    rcases ProxyClient.status_of_create_returns _ _ _ _ hreturns with ⟨hr, hs⟩ | ⟨hr, hs⟩
    · rcases ProxyClient.create_effect dds _ _ _ _ hr with
        ⟨hb, _⟩ | ⟨_, _, ⟨w, hw⟩, hoth, _⟩
      · simp at hb
      · simp only at hw hoth
        subst hs
        refine ⟨Or.inl rfl, Iff.intro (fun _ => by rw [hw]; simp) (fun _ => rfl),
          Iff.intro (fun hbad => by simp at hbad) (fun heq => ?_),
          fun hbad => by simp at hbad, fun j hj => ?_⟩
        · rw [heq] at hw
          simp only at hw
          rw [hself] at hw
          simp at hw
        · rw [hoth j hj, hne j hj]
    · rcases ProxyClient.create_effect dds _ _ _ _ hr with ⟨_, hsame⟩ | ⟨hb, _⟩
      · simp only at hsame
        subst hs
        subst hsame
        refine ⟨Or.inr rfl, Iff.intro (fun hbad => by simp at hbad) (fun hbad => ?_),
          Iff.intro (fun _ => rfl) (fun _ => rfl), fun _ => hself, fun j hj => hne j hj⟩
        exact absurd hself hbad
      · simp at hb

/-- C5: replace mode can end without any status. Against the sample registry,
a CREATE with reuse = false and replace = true on the bound id (0, 2) that
asks for a DataWriter whose publisher_id (0, 1) names the participant deletes
(0, 2) and then, in the creation step, calls `get_participant` through the null
result of `dynamic_cast<Publisher*>`. -/
theorem create_replace_null_dereference :
    samplePopulated.get_object (0, 2) = some ⟨.Publisher, (0, 2), some (0, 1)⟩ ∧
    samplePopulated.get_object (0, 1) = some ⟨.XRCEParticipant, (0, 1), none⟩ ∧
    (samplePopulated.delete_object (0, 2)).2.create sampleDds (0, 2)
        (.OBJK_DATAWRITER (0, 1) (.REPRESENTATION_AS_XML_STRING "w"))
      = .error .null_dereference ∧
    samplePopulated.create_with_mode sampleDds ⟨.STATUS_OK⟩ ⟨false, true⟩
        ⟨(0, 9), (0, 2), .OBJK_DATAWRITER (0, 1) (.REPRESENTATION_AS_XML_STRING "w")⟩
      = .error .null_dereference :=
  ⟨rfl, rfl, rfl, rfl⟩

/-- C6: both branches under reuse = true are empty. Whatever the
default-constructed status `dflt` is, a CREATE with reuse = true on the bound id
(0, 2) returns `dflt` and the session it received: for replace = true and a
request that asks for a participant where a publisher is registered (nothing is
deleted or recreated), for replace = false and that same request, and for
replace = false and the request the publisher was created from. The three
statuses are equal, so they are not STATUS_ERR_MISMATCH for the second and
STATUS_OK_MATCHED for the third. -/
theorem create_reuse_branches_empty (dflt : ResultStatus) :
    samplePopulated.create_with_mode sampleDds dflt ⟨true, true⟩
        ⟨(0, 9), (0, 2), .OBJK_PARTICIPANT⟩ = .ok (dflt, samplePopulated) ∧
    samplePopulated.create_with_mode sampleDds dflt ⟨true, false⟩
        ⟨(0, 9), (0, 2), .OBJK_PARTICIPANT⟩ = .ok (dflt, samplePopulated) ∧
    samplePopulated.create_with_mode sampleDds dflt ⟨true, false⟩
        ⟨(0, 9), (0, 2), .OBJK_PUBLISHER (0, 1)⟩ = .ok (dflt, samplePopulated) ∧
    samplePopulated.get_object (0, 2) = some ⟨.Publisher, (0, 2), some (0, 1)⟩ :=
  ⟨rfl, rfl, rfl, rfl⟩

/-- With reuse = true on a bound id the request is not looked at: the result is
the default-constructed status and the session received. -/
theorem create_reuse_ignores_request {S : Type} (dds : Middleware) (dflt : ResultStatus)
    (c : ProxyClient S) (creation_mode : CreationMode) (create_payload : CREATE_Payload)
    (hexists : c.get_object create_payload.object_id ≠ none)
    (hreuse : creation_mode.reuse = true) :
    c.create_with_mode dds dflt creation_mode create_payload = .ok (dflt, c) := by
  rw [ProxyClient.get_object_eq] at hexists
  cases hfind : c.objects_.find create_payload.object_id with
  | none => exact absurd hfind hexists
  | some o => simp [ProxyClient.create_with_mode, hfind, hreuse]

/-- An unbound id, when the creation step returns: the status is STATUS_OK
exactly when the id is bound afterwards and STATUS_ERR_DDS_ERROR otherwise; in
the failing case the session is unchanged; every other id keeps its binding. -/
theorem create_unbound_when_returns {S : Type} (dds : Middleware) (dflt : ResultStatus)
    (c : ProxyClient S) (creation_mode : CreationMode) (create_payload : CREATE_Payload)
    (status : ResultStatus) (after : ProxyClient S)
    (hunbound : c.get_object create_payload.object_id = none)
    (hreturns : c.create_with_mode dds dflt creation_mode create_payload
      = .ok (status, after)) :
    (status.status = .STATUS_OK ∨ status.status = .STATUS_ERR_DDS_ERROR) ∧
    (status.status = .STATUS_OK ↔ after.get_object create_payload.object_id ≠ none) ∧
    (status.status = .STATUS_ERR_DDS_ERROR → after = c) ∧
    ∀ j, j ≠ create_payload.object_id → after.get_object j = c.get_object j := by
  simp only [ProxyClient.get_object_eq] at hunbound ⊢
  simp only [ProxyClient.create_with_mode, hunbound] at hreturns
  rcases ProxyClient.status_of_create_returns _ _ _ _ hreturns with ⟨hr, hs⟩ | ⟨hr, hs⟩
  · rcases ProxyClient.create_effect dds _ _ _ _ hr with
      ⟨hb, _⟩ | ⟨_, _, ⟨w, hw⟩, hoth, _⟩
    · simp at hb
    · simp only at hw hoth
      subst hs
      exact ⟨Or.inl rfl, Iff.intro (fun _ => by rw [hw]; simp) (fun _ => rfl),
        fun hbad => by simp at hbad, hoth⟩
  · rcases ProxyClient.create_effect dds _ _ _ _ hr with ⟨_, hsame⟩ | ⟨hb, _⟩
    · simp only at hsame
      subst hs
      subst hsame
      exact ⟨Or.inr rfl, Iff.intro (fun hbad => by simp at hbad)
        (fun hbad => absurd hunbound hbad), fun _ => rfl, fun _ _ => rfl⟩
    · simp at hb

/-- C7: a CREATE on an unbound id can end without any status. Against the sample
registry, a CREATE on the unbound id (0, 3) that asks for a DataWriter whose
publisher_id (0, 1) names the participant ends, for each of the four creation
modes, in the call of `get_participant` through the null result of
`dynamic_cast<Publisher*>`: neither STATUS_OK nor STATUS_ERR_DDS_ERROR is
returned. -/
theorem create_unbound_null_dereference (creation_mode : CreationMode) :
    samplePopulated.get_object (0, 3) = none ∧
    samplePopulated.create_with_mode sampleDds ⟨.STATUS_OK⟩ creation_mode
        ⟨(0, 9), (0, 3), .OBJK_DATAWRITER (0, 1) (.REPRESENTATION_AS_XML_STRING "w")⟩
      = .error .null_dereference :=
  ⟨rfl, rfl⟩

/-! ## ProxyClient::delete_object and the objects created under a participant -/

/-- C8, as the code has it: `ProxyClient::delete_object` on an id unbinds that
id and nothing else. Afterwards a lookup of the id finds nothing, and a lookup
of every other id, the ids of the objects created under a deleted participant
included, finds what it found before. -/
theorem delete_object_unbinds_only_that_id {S : Type} (c : ProxyClient S) (id : ObjectId) :
    (c.delete_object id).2.get_object id = none ∧
    ∀ j, j ≠ id → (c.delete_object id).2.get_object j = c.get_object j := by
  simp only [ProxyClient.get_object_eq]
  unfold ProxyClient.delete_object
  cases hfind : c.objects_.find id with
  | none => exact ⟨hfind, fun _ _ => rfl⟩
  | some o => exact ⟨Map.find_erase_self _ _, fun j hj => Map.find_erase_ne _ _ _ hj⟩

/-- C8, run on the sample registry: after the delete of the publisher (0, 2)
that id is unbound and the participant (0, 1) is still found. -/
theorem delete_object_unbinds_only_that_id_witness :
    (samplePopulated.delete_object (0, 2)).2.get_object (0, 2) = none ∧
    (samplePopulated.delete_object (0, 2)).2.get_object (0, 1)
      = samplePopulated.get_object (0, 1) :=
  ⟨(delete_object_unbinds_only_that_id samplePopulated (0, 2)).1,
   (delete_object_unbinds_only_that_id samplePopulated (0, 2)).2 (0, 1) (by decide)⟩

/-- C8 fails as stated: in a session where a participant (0, 1), a publisher
(0, 2) of that participant and a DataWriter (0, 3) of that publisher have been
created in this order, the delete of the participant succeeds and the lookups
of (0, 2) and (0, 3) still find the publisher and the DataWriter. -/
theorem delete_participant_keeps_descendants :
    ∃ c1 c2 c3 : ProxyClient Unit,
      sampleSession.create sampleDds (0, 1) .OBJK_PARTICIPANT = .ok (true, c1) ∧
      c1.create sampleDds (0, 2) (.OBJK_PUBLISHER (0, 1)) = .ok (true, c2) ∧
      c2.create sampleDds (0, 3)
        (.OBJK_DATAWRITER (0, 2) (.REPRESENTATION_AS_XML_STRING "w")) = .ok (true, c3) ∧
      (c3.delete_object (0, 1)).1 = true ∧
      (c3.delete_object (0, 1)).2.get_object (0, 1) = none ∧
      (c3.delete_object (0, 1)).2.get_object (0, 2)
        = some ⟨.Publisher, (0, 2), some (0, 1)⟩ ∧
      (c3.delete_object (0, 1)).2.get_object (0, 3)
        = some ⟨.DataWriter, (0, 3), some (0, 1)⟩ :=
  ⟨_, _, _, rfl, rfl, rfl, rfl, rfl, rfl, rfl⟩

/-! ## The owner named by a creation request -/

/-- A Publisher or a Subscriber whose participant_id is unbound is not created:
the call returns false and the session is unchanged. -/
theorem create_publisher_unbound_participant {S : Type} (dds : Middleware)
    (c : ProxyClient S) (id participant_id : ObjectId)
    (habsent : c.get_object participant_id = none) :
    c.create dds id (.OBJK_PUBLISHER participant_id) = .ok (false, c) ∧
    c.create dds id (.OBJK_SUBSCRIBER participant_id) = .ok (false, c) := by
  rw [ProxyClient.get_object_eq] at habsent
  simp [ProxyClient.create, habsent]

/-- The class of the object found under participant_id is not looked at: a
Publisher or a Subscriber is created under any bound id, provided its own id is
unbound. -/
theorem create_publisher_under_any_object {S : Type} (dds : Middleware)
    (c : ProxyClient S) (id participant_id : ObjectId) (owner : XRCEObject)
    (howner : c.get_object participant_id = some owner)
    (hunbound : c.get_object id = none) :
    (∃ after, c.create dds id (.OBJK_PUBLISHER participant_id) = .ok (true, after) ∧
      after.get_object id = some ⟨.Publisher, id, some participant_id⟩) ∧
    (∃ after, c.create dds id (.OBJK_SUBSCRIBER participant_id) = .ok (true, after) ∧
      after.get_object id = some ⟨.Subscriber, id, some participant_id⟩) := by
  simp only [ProxyClient.get_object_eq] at howner hunbound ⊢
  constructor
  · obtain ⟨h1, h2, _⟩ := Map.insert_of_find_none c.objects_ id
      ⟨.Publisher, id, some participant_id⟩ hunbound
    refine ⟨c.with_objects (c.objects_.insert id
      ⟨.Publisher, id, some participant_id⟩).1, ?_, h2⟩
    simp only [ProxyClient.create, howner, hunbound, h1]
  · obtain ⟨h1, h2, _⟩ := Map.insert_of_find_none c.objects_ id
      ⟨.Subscriber, id, some participant_id⟩ hunbound
    refine ⟨c.with_objects (c.objects_.insert id
      ⟨.Subscriber, id, some participant_id⟩).1, ?_, h2⟩
    simp only [ProxyClient.create, howner, hunbound, h1]

/-- C9: a Publisher and a Subscriber are created under an object that is not a
participant. Against the sample registry, where (0, 2) is a publisher, the
creation of a Publisher (0, 3) and of a Subscriber (0, 4) with participant_id
(0, 2) returns true and registers the new object. -/
theorem create_publisher_under_publisher :
    samplePopulated.get_object (0, 2) = some ⟨.Publisher, (0, 2), some (0, 1)⟩ ∧
    (∃ after, samplePopulated.create sampleDds (0, 3) (.OBJK_PUBLISHER (0, 2))
        = .ok (true, after) ∧
      after.get_object (0, 3) = some ⟨.Publisher, (0, 3), some (0, 2)⟩) ∧
    (∃ after, samplePopulated.create sampleDds (0, 4) (.OBJK_SUBSCRIBER (0, 2))
        = .ok (true, after) ∧
      after.get_object (0, 4) = some ⟨.Subscriber, (0, 4), some (0, 2)⟩) :=
  ⟨rfl, ⟨_, rfl, rfl⟩, ⟨_, rfl, rfl⟩⟩

/-- A DataWriter or a DataReader whose publisher_id or subscriber_id is unbound
is not created: the call returns false and the session is unchanged. -/
theorem create_endpoint_unbound_owner {S : Type} (dds : Middleware)
    (c : ProxyClient S) (id owner_id : ObjectId) (repr : Representation)
    (habsent : c.get_object owner_id = none) :
    c.create dds id (.OBJK_DATAWRITER owner_id repr) = .ok (false, c) ∧
    c.create dds id (.OBJK_DATAREADER owner_id repr) = .ok (false, c) := by
  rw [ProxyClient.get_object_eq] at habsent
  simp [ProxyClient.create, habsent]

/-- A DataWriter or a DataReader requested as an XML string, on an unbound id,
under a bound owner of another class than Publisher or Subscriber: the call
dereferences the null result of the down-cast, for every middleware. -/
theorem create_endpoint_wrong_owner {S : Type} (dds : Middleware)
    (c : ProxyClient S) (id owner_id : ObjectId) (owner : XRCEObject) (xml : String)
    (howner : c.get_object owner_id = some owner) (hunbound : c.get_object id = none) :
    (owner.cls ≠ .Publisher →
      c.create dds id (.OBJK_DATAWRITER owner_id (.REPRESENTATION_AS_XML_STRING xml))
        = .error .null_dereference) ∧
    (owner.cls ≠ .Subscriber →
      c.create dds id (.OBJK_DATAREADER owner_id (.REPRESENTATION_AS_XML_STRING xml))
        = .error .null_dereference) := by
  simp only [ProxyClient.get_object_eq] at howner hunbound
  constructor <;> intro hcls <;>
    simp [ProxyClient.create, howner, hunbound, dynamic_cast, hcls]

/-- The only requests on which `ProxyClient::create` can leave defined
behaviour are those for a DataWriter or a DataReader given as an XML string;
every other request returns. -/
theorem create_fault_only_for_xml_endpoint {S : Type} (dds : Middleware)
    (c : ProxyClient S) (id : ObjectId) (representation : ObjectVariant) (f : Fault)
    (h : c.create dds id representation = .error f) :
    ∃ owner_id xml,
      representation = .OBJK_DATAWRITER owner_id (.REPRESENTATION_AS_XML_STRING xml) ∨
      representation = .OBJK_DATAREADER owner_id (.REPRESENTATION_AS_XML_STRING xml) := by
  unfold ProxyClient.create at h
  repeat' split at h
  all_goals first
    | exact ⟨_, _, Or.inl rfl⟩
    | exact ⟨_, _, Or.inr rfl⟩
    | cases h

/-- C10: the creation of a DataWriter whose publisher_id names an object of
another class is not a defined failure. Against the sample registry, a
DataWriter (0, 3) with publisher_id (0, 1), a participant, and a DataReader
(0, 3) with subscriber_id (0, 2), a publisher, both requested as an XML string,
end in `get_participant` called through the null result of the down-cast;
no Boolean is returned. -/
theorem create_endpoint_null_dereference :
    samplePopulated.create sampleDds (0, 3)
        (.OBJK_DATAWRITER (0, 1) (.REPRESENTATION_AS_XML_STRING "w"))
      = .error .null_dereference ∧
    samplePopulated.create sampleDds (0, 3)
        (.OBJK_DATAREADER (0, 2) (.REPRESENTATION_AS_XML_STRING "r"))
      = .error .null_dereference :=
  ⟨rfl, rfl⟩

/-! ## The handlers of CREATE, DELETE, CREATE_CLIENT, READ_DATA and WRITE_DATA -/

theorem Agent.delete_client_bound {S : Type} (dflt : ResultStatus)
    (clients_ : Map ClientKey (ProxyClient S)) (client_key : ClientKey) (client : ProxyClient S)
    (h : clients_.find client_key = some client) :
    Agent.delete_client dflt clients_ client_key = (⟨.STATUS_OK⟩, clients_.erase client_key) := by
  simp [Agent.delete_client, Map.erase_count, h, ResultStatus.set_status]

/-- C11: a DELETE whose payload decodes and names OBJECTID_CLIENT, handled for a
session bound to the header's client key, unbinds that key in the session map
(the session goes with its object registry), leaves the binding of every other
key unchanged and pushes one message on the queue: the STATUS reply with result
STATUS_OK, on stream 0x00, relating to the request. -/
theorem process_delete_client {S : Type} (factory : XRCEFactory) (dflt : ResultStatus)
    (objectid_client : ObjectId) (a : Agent S) (header : MessageHeader)
    (payload : DELETE_Payload) (client : ProxyClient S)
    (hclient : payload.object_id = objectid_client)
    (hbound : a.clients_.find header.client_key = some client) :
    (Agent.process_delete factory dflt objectid_client a header (some payload)
      client).clients_.find header.client_key = none ∧
    (∀ k, k ≠ header.client_key →
      (Agent.process_delete factory dflt objectid_client a header (some payload)
        client).clients_.find k = a.clients_.find k) ∧
    (Agent.process_delete factory dflt objectid_client a header (some payload)
      client).messages_ = a.messages_ ++
        [factory.status ⟨header.session_id, 0x00, 0, header.client_key⟩
          ⟨⟨payload.request_id, payload.object_id⟩, ⟨.STATUS_OK⟩⟩] := by
  have hrun : Agent.process_delete factory dflt objectid_client a header (some payload) client
      = ⟨a.clients_.erase header.client_key, a.messages_ ++
        [factory.status ⟨header.session_id, 0x00, 0, header.client_key⟩
          ⟨⟨payload.request_id, payload.object_id⟩, ⟨.STATUS_OK⟩⟩]⟩ := by
    simp only [Agent.process_delete, hclient, if_true,
      Agent.delete_client_bound dflt a.clients_ header.client_key client hbound,
      Agent.add_reply_status, Agent.add_reply]
  rw [hrun]
  exact ⟨Map.find_erase_self _ _, fun k hk => Map.find_erase_ne _ _ _ hk, rfl⟩

/-- C11, run on the sample agent: the DELETE of (0xFF, 0xFF), taken as
OBJECTID_CLIENT, from the session bound to `sampleKey`. -/
theorem process_delete_client_witness :
    (Agent.process_delete sampleFactory ⟨.STATUS_OK⟩ (0xFF, 0xFF) sampleAgent
      ⟨0x81, 0x80, 3, sampleKey⟩ (some ⟨(0, 5), (0xFF, 0xFF)⟩)
      samplePopulated).clients_.find sampleKey = none ∧
    (Agent.process_delete sampleFactory ⟨.STATUS_OK⟩ (0xFF, 0xFF) sampleAgent
      ⟨0x81, 0x80, 3, sampleKey⟩ (some ⟨(0, 5), (0xFF, 0xFF)⟩)
      samplePopulated).messages_ =
        [sampleFactory.status ⟨0x81, 0x00, 0, sampleKey⟩
          ⟨⟨(0, 5), (0xFF, 0xFF)⟩, ⟨.STATUS_OK⟩⟩] :=
  have h := process_delete_client sampleFactory ⟨.STATUS_OK⟩ (0xFF, 0xFF) sampleAgent
    ⟨0x81, 0x80, 3, sampleKey⟩ ⟨(0, 5), (0xFF, 0xFF)⟩ samplePopulated rfl rfl
  ⟨h.1, h.2.2⟩

/-- The reply to a CREATE or DELETE whose payload decodes. When the create
operation returns a status, `process_create` pushes exactly one message on the
queue, the STATUS with header (request session id, stream 0x00, sequence
number 0, request client key), related request (request id, object id) of the
payload, and that status as result; when the create operation ends in a fault
so does the handler. `process_delete` always pushes exactly one such STATUS,
whose result is the status returned by `delete_client` for OBJECTID_CLIENT and
by `delete_object` for any other id. -/
theorem control_reply_on_stream_zero {S : Type} (factory : XRCEFactory) (dds : Middleware)
    (dflt : ResultStatus) (objectid_client : ObjectId) (a : Agent S) (header : MessageHeader)
    (sub_header : SubmessageHeader) (create_payload : CREATE_Payload)
    (delete_payload : DELETE_Payload) (client : ProxyClient S) :
    (∀ status after,
      client.create_with_mode dds dflt
        ⟨(sub_header.flags &&& FLAG_REUSE) == FLAG_REUSE,
          (sub_header.flags &&& FLAG_REPLACE) == FLAG_REPLACE⟩ create_payload
        = .ok (status, after) →
      ∃ a1, Agent.process_create factory dds dflt a header sub_header (some create_payload)
          client = .ok a1 ∧
        a1.messages_ = a.messages_ ++
          [factory.status ⟨header.session_id, 0x00, 0, header.client_key⟩
            ⟨⟨create_payload.request_id, create_payload.object_id⟩, status⟩]) ∧
    (∀ f,
      client.create_with_mode dds dflt
        ⟨(sub_header.flags &&& FLAG_REUSE) == FLAG_REUSE,
          (sub_header.flags &&& FLAG_REPLACE) == FLAG_REPLACE⟩ create_payload
        = .error f →
      Agent.process_create factory dds dflt a header sub_header (some create_payload)
        client = .error f) ∧
    (Agent.process_delete factory dflt objectid_client a header (some delete_payload)
      client).messages_ = a.messages_ ++
        [factory.status ⟨header.session_id, 0x00, 0, header.client_key⟩
          ⟨⟨delete_payload.request_id, delete_payload.object_id⟩,
            if delete_payload.object_id = objectid_client then
              (Agent.delete_client dflt a.clients_ header.client_key).1
            else (client.delete_object_payload dflt delete_payload).1⟩] := by
  refine ⟨?_, ?_, ?_⟩
  · intro status after h
    refine ⟨(a.with_client header.client_key after).add_reply_status factory
      ⟨header.session_id, 0x00, 0, header.client_key⟩
      ⟨⟨create_payload.request_id, create_payload.object_id⟩, status⟩, ?_, rfl⟩
    simp only [Agent.process_create, h]
  · intro f h
    simp only [Agent.process_create, h]
  · unfold Agent.process_delete
    by_cases hc : delete_payload.object_id = objectid_client
    · simp only [hc, if_true, Agent.add_reply_status, Agent.add_reply]
    · simp only [hc, if_false, Agent.add_reply_status, Agent.add_reply, Agent.with_client]

/-- The handler of CREATE run on the sample agent: the CREATE of a publisher on
the unbound id (0, 3) is answered STATUS_OK. -/
theorem control_reply_on_stream_zero_witness :
    ∃ a1, Agent.process_create sampleFactory sampleDds ⟨.STATUS_OK⟩ sampleAgent
        ⟨0x81, 0x80, 3, sampleKey⟩ ⟨1, 0, 8⟩ (some ⟨(0, 9), (0, 3), .OBJK_PUBLISHER (0, 1)⟩)
        samplePopulated = .ok a1 ∧
      a1.messages_ = sampleAgent.messages_ ++
        [sampleFactory.status ⟨0x81, 0x00, 0, sampleKey⟩ ⟨⟨(0, 9), (0, 3)⟩, ⟨.STATUS_OK⟩⟩] :=
  (control_reply_on_stream_zero sampleFactory sampleDds ⟨.STATUS_OK⟩ (0xFF, 0xFF) sampleAgent
    ⟨0x81, 0x80, 3, sampleKey⟩ ⟨1, 0, 8⟩ ⟨(0, 9), (0, 3), .OBJK_PUBLISHER (0, 1)⟩
    ⟨(0, 5), (0, 2)⟩ samplePopulated).1 ⟨.STATUS_OK⟩
    (samplePopulated.with_objects (samplePopulated.objects_.insert (0, 3)
      ⟨.Publisher, (0, 3), some (0, 1)⟩).1) rfl

/-- C12, at an input where the code leaves the rule: a CREATE whose payload
decodes and asks for a DataWriter on the unbound id (0, 3), as an XML string,
under publisher_id (0, 1), which the sample registry binds to a participant.
`process_create` calls the create operation of the session, which calls
`get_participant` through the null result of the down-cast (ProxyClient.cpp,
line 154) and returns no status; the handler never reaches `add_reply` (Root.cpp,
line 400), so no STATUS is pushed on the queue, whatever the flags of the
submessage header. -/
theorem process_create_null_dereference_no_reply (flags : Nat) :
    Agent.process_create sampleFactory sampleDds ⟨.STATUS_OK⟩ sampleAgent
        ⟨0x81, 0x80, 3, sampleKey⟩ ⟨1, flags, 8⟩
        (some ⟨(0, 9), (0, 3), .OBJK_DATAWRITER (0, 1) (.REPRESENTATION_AS_XML_STRING "w")⟩)
        samplePopulated
      = .error .null_dereference := by
  simp only [Agent.process_create]
  cases (flags &&& FLAG_REUSE) == FLAG_REUSE <;>
    cases (flags &&& FLAG_REPLACE) == FLAG_REPLACE <;> rfl

/-- C13, as the code has it: a handshake whose CREATE_CLIENT payload decodes
pushes exactly one message on the queue, the STATUS built on the header of the
handshake itself, unchanged: the reply carries the session id, the stream id,
the sequence number and the client key of the handshake, so it travels on
stream 0x00 when the handshake does. It relates to the request id and object id
of the payload, its result is the status returned by `create_client`, and the
session map is the one `create_client` leaves. -/
theorem handshake_reply_echoes_header {S : Type} (factory : XRCEFactory) (fresh : S)
    (dflt : ResultStatus) (a : Agent S) (header : MessageHeader)
    (payload : CREATE_CLIENT_Payload) :
    (Agent.process_create_client factory fresh dflt a header (some payload)).messages_
      = a.messages_ ++
        [factory.status header
          ⟨⟨payload.request_id, payload.object_id⟩,
            (Agent.create_client fresh dflt a.clients_ payload).1⟩] ∧
    (Agent.process_create_client factory fresh dflt a header (some payload)).clients_
      = (Agent.create_client fresh dflt a.clients_ payload).2 :=
  ⟨rfl, rfl⟩

/-- C13 fails as stated: the S1 handshake sent with stream id 0x80 and sequence
number 7 in its header is answered by a STATUS whose header names stream 0x80,
not stream 0x00. -/
theorem handshake_reply_off_stream_zero :
    (Agent.process_create_client sampleFactory () ⟨.STATUS_OK⟩ ⟨Map.empty, []⟩
      ⟨0x00, 0x80, 7, sampleKey⟩ (some sampleHandshake)).messages_
      = [sampleFactory.status ⟨0x00, 0x80, 7, sampleKey⟩
          ⟨⟨(0, 1), (0, 0)⟩, ⟨.STATUS_OK⟩⟩] ∧
    ¬ ∃ h p, h.stream_id = 0x00 ∧
      (Agent.process_create_client sampleFactory () ⟨.STATUS_OK⟩ ⟨Map.empty, []⟩
        ⟨0x00, 0x80, 7, sampleKey⟩ (some sampleHandshake)).messages_
        = [sampleFactory.status h p] := by
  have hrun : (Agent.process_create_client sampleFactory () ⟨.STATUS_OK⟩ ⟨Map.empty, []⟩
      ⟨0x00, 0x80, 7, sampleKey⟩ (some sampleHandshake)).messages_
      = [sampleFactory.status ⟨0x00, 0x80, 7, sampleKey⟩
          ⟨⟨(0, 1), (0, 0)⟩, ⟨.STATUS_OK⟩⟩] := rfl
  refine ⟨hrun, ?_⟩
  rintro ⟨h, p, hzero, heq⟩
  rw [hrun] at heq
  simp only [sampleFactory, sampleHeaderOctets, List.cons.injEq, Message.mk.injEq,
    List.cons_append, List.nil_append] at heq
  have hstream := heq.1.2.1
  rw [hzero] at hstream
  exact absurd hstream (by decide)

/-- C14, as the code has it: a CREATE, DELETE or READ_DATA whose payload fails
to decode leaves the agent as it was; no reply is pushed on the queue and no
session changes (the handler only writes to the error stream). -/
theorem undecodable_payload_changes_nothing {S : Type} (factory : XRCEFactory)
    (dds : Middleware) (endpoints : DataEndpoints) (dflt : ResultStatus)
    (objectid_client : ObjectId) (a : Agent S) (header : MessageHeader)
    (sub_header : SubmessageHeader) (client : ProxyClient S) :
    Agent.process_create factory dds dflt a header sub_header none client = .ok a ∧
    Agent.process_delete factory dflt objectid_client a header none client = a ∧
    Agent.process_read_data factory endpoints dflt a header none client = a :=
  ⟨rfl, rfl, rfl⟩

/-- C14 fails as stated: on the sample agent, whose queue is empty, a CREATE, a
DELETE and a READ_DATA with an undecodable payload all leave the queue empty. -/
theorem undecodable_payload_gets_no_reply :
    (Agent.process_create sampleFactory sampleDds ⟨.STATUS_OK⟩ sampleAgent
      ⟨0x81, 0x80, 3, sampleKey⟩ ⟨1, 0, 8⟩ none samplePopulated).map Agent.messages_
      = .ok [] ∧
    (Agent.process_delete sampleFactory ⟨.STATUS_OK⟩ (0xFF, 0xFF) sampleAgent
      ⟨0x81, 0x80, 3, sampleKey⟩ none samplePopulated).messages_ = [] ∧
    (Agent.process_read_data sampleFactory sampleEndpoints ⟨.STATUS_OK⟩ sampleAgent
      ⟨0x81, 0x80, 3, sampleKey⟩ none samplePopulated).messages_ = [] :=
  ⟨rfl, rfl, rfl⟩

/-- The handler of WRITE_DATA returns the agent it received, whatever the
submessage: nothing is pushed on the queue. -/
theorem process_write_data_pushes_nothing {S : Type} (endpoints : DataEndpoints)
    (dflt : ResultStatus) (a : Agent S) (header : MessageHeader)
    (sub_header : SubmessageHeader) (payload : Option WRITE_DATA_Payload_Data)
    (client : ProxyClient S) :
    Agent.process_write_data endpoints dflt a header sub_header payload client = a := by
  cases payload <;> simp [Agent.process_write_data]

/-- C15: the status of a write is not sent. A WRITE_DATA in DATA format arrives
on the reliable stream 0x80 for a session in which (0, 3) is a DataWriter; its
payload decodes and the write returns STATUS_OK, yet the queue, empty before,
is empty after the handler. -/
theorem write_data_status_not_sent :
    (samplePopulated.with_objects (samplePopulated.objects_.insert (0, 3)
      ⟨.DataWriter, (0, 3), some (0, 1)⟩).1).write sampleEndpoints ⟨.STATUS_ERR_DENIED⟩
      (0, 3) ⟨(0, 9), (0, 3), [1, 2, 3]⟩ = ⟨.STATUS_OK⟩ ∧
    (Agent.process_write_data sampleEndpoints ⟨.STATUS_ERR_DENIED⟩ sampleAgent
      ⟨0x81, 0x80, 0, sampleKey⟩ ⟨7, 0, 12⟩ (some ⟨(0, 9), (0, 3), [1, 2, 3]⟩)
      (samplePopulated.with_objects (samplePopulated.objects_.insert (0, 3)
        ⟨.DataWriter, (0, 3), some (0, 1)⟩).1)).messages_ = [] :=
  ⟨rfl, rfl⟩

/-! ## The handler of ACKNACK -/

theorem mask_of_index (i : Nat) (hi : i < 8) : (0x01 <<< i) % 256 = 2 ^ i := by
  rw [Nat.one_shiftLeft]
  apply Nat.mod_eq_of_lt
  calc 2 ^ i < 2 ^ 8 := Nat.pow_lt_pow_right (by decide) hi
    _ = 256 := by norm_num

theorem and_two_pow_eq_iff_testBit (b i : Nat) :
    b &&& 2 ^ i = 2 ^ i ↔ b.testBit i = true := by
  constructor
  · intro h
    have h2 := congrArg (fun n => n.testBit i) h
    simpa [Nat.testBit_and, Nat.testBit_two_pow_self] using h2
  · intro h
    apply Nat.eq_of_testBit_eq
    intro j
    rw [Nat.testBit_and, Nat.testBit_two_pow]
    by_cases hj : i = j
    · subst hj
      simp [h]
    · simp [hj]

/-- One pass of the loop pushes the retransmission of offset `i`, then that of
offset `i + 8`, and touches nothing else. -/
theorem Agent.acknack_step_effect {S : Type} (ops : StreamsManagerOps S)
    (client : ProxyClient S) (header : MessageHeader) (first : Nat)
    (nack_bitmap : Nat × Nat) (a : Agent S) (i : Nat) (hi : i < 8) :
    (Agent.acknack_step ops client header first nack_bitmap a i).messages_
      = a.messages_ ++
        ((retransmission ops client.streams_manager_ (header.sequence_nr % 256) first
            nack_bitmap i).toList ++
          (retransmission ops client.streams_manager_ (header.sequence_nr % 256) first
            nack_bitmap (i + 8)).toList) ∧
    (Agent.acknack_step ops client header first nack_bitmap a i).clients_ = a.clients_ := by
  have hlow : nack_window_bit nack_bitmap i = nack_bitmap.2.testBit i := by
    simp [nack_window_bit, hi]
  have hhigh : nack_window_bit nack_bitmap (i + 8) = nack_bitmap.1.testBit i := by
    simp [nack_window_bit]
  simp only [Agent.acknack_step, mask_of_index i hi, and_two_pow_eq_iff_testBit,
    retransmission, hlow, hhigh, Agent.resend, Agent.add_reply, Nat.add_assoc]
  by_cases h1 : nack_bitmap.2.testBit i = true <;>
    by_cases h2 : nack_bitmap.1.testBit i = true <;>
    by_cases h3 : (ops.get_output_message client.streams_manager_ (header.sequence_nr % 256)
      ((first + i) % 65536)).len = 0 <;>
    by_cases h4 : (ops.get_output_message client.streams_manager_ (header.sequence_nr % 256)
      ((first + (i + 8)) % 65536)).len = 0 <;>
    simp [h1, h2, h3, h4]

/-- The loop over a list of indices below 8 pushes, index after index, the pair
of retransmissions of each index. -/
theorem Agent.acknack_loop_effect {S : Type} (ops : StreamsManagerOps S)
    (client : ProxyClient S) (header : MessageHeader) (first : Nat)
    (nack_bitmap : Nat × Nat) (l : List Nat) (hl : ∀ i ∈ l, i < 8) (a : Agent S) :
    (l.foldl (Agent.acknack_step ops client header first nack_bitmap) a).messages_
      = a.messages_ ++ l.flatMap (fun i =>
        (retransmission ops client.streams_manager_ (header.sequence_nr % 256) first
            nack_bitmap i).toList ++
          (retransmission ops client.streams_manager_ (header.sequence_nr % 256) first
            nack_bitmap (i + 8)).toList) ∧
    (l.foldl (Agent.acknack_step ops client header first nack_bitmap) a).clients_
      = a.clients_ := by
  induction l generalizing a with
  | nil => simp
  | cons i rest ih =>
    have hi : i < 8 := hl i (List.mem_cons_self _ _)
    have hrest : ∀ j ∈ rest, j < 8 := fun j hj => hl j (List.mem_cons_of_mem _ hj)
    obtain ⟨hm, hc⟩ := Agent.acknack_step_effect ops client header first nack_bitmap a i hi
    obtain ⟨ihm, ihc⟩ := ih hrest
      (Agent.acknack_step ops client header first nack_bitmap a i)
    rw [List.foldl_cons, ihm, ihc, hm, hc, List.flatMap_cons, List.append_assoc]
    exact ⟨rfl, rfl⟩

/-- The messages `process_acknack` pushes, in the order it pushes them. -/
theorem Agent.process_acknack_messages {S : Type} (ops : StreamsManagerOps S) (a : Agent S)
    (header : MessageHeader) (payload : ACKNACK_Payload) (client : ProxyClient S) :
    (Agent.process_acknack ops a header (some payload) client).messages_
      = a.messages_ ++ (List.range 8).flatMap (fun i =>
        (retransmission ops client.streams_manager_ (header.sequence_nr % 256)
            payload.first_unacked_seq_num payload.nack_bitmap i).toList ++
          (retransmission ops client.streams_manager_ (header.sequence_nr % 256)
            payload.first_unacked_seq_num payload.nack_bitmap (i + 8)).toList) := by
  have h := (Agent.acknack_loop_effect ops client header payload.first_unacked_seq_num
    payload.nack_bitmap (List.range 8) (fun i hi => List.mem_range.mp hi) a).1
  simp only [Agent.process_acknack, Agent.with_client]
  exact h

/-- C16: for an ACKNACK whose payload decodes, the messages pushed on the queue
are, up to their order, one message for each offset k of 0..15 whose window bit
is set (bit k of bitmap[1] for k < 8, bit k - 8 of bitmap[0] for k ≥ 8) and for
which the output history of the named stream returns a message that is not
empty for the sequence number (first_unacked + k) mod 2^16, that message being
the one pushed; nothing is pushed for the other offsets and nothing else is
pushed. -/
theorem acknack_retransmits_each_selected_once {S : Type} (ops : StreamsManagerOps S)
    (a : Agent S) (header : MessageHeader) (payload : ACKNACK_Payload)
    (client : ProxyClient S) :
    ∃ resent,
      (Agent.process_acknack ops a header (some payload) client).messages_
        = a.messages_ ++ resent ∧
      resent.Perm ((List.range 16).filterMap
        (retransmission ops client.streams_manager_ (header.sequence_nr % 256)
          payload.first_unacked_seq_num payload.nack_bitmap)) := by
  refine ⟨_, Agent.process_acknack_messages ops a header payload client, ?_⟩
  have hsplit : List.range 16 = List.range 8 ++ (List.range 8).map (fun x => 8 + x) :=
    List.range_add 8 8
  rw [hsplit, List.filterMap_append, List.filterMap_eq_flatMap_toList,
    List.filterMap_eq_flatMap_toList, List.flatMap_map]
  have hcomm : (fun x => (retransmission ops client.streams_manager_
      (header.sequence_nr % 256) payload.first_unacked_seq_num payload.nack_bitmap
      (8 + x)).toList) = (fun x => (retransmission ops client.streams_manager_
      (header.sequence_nr % 256) payload.first_unacked_seq_num payload.nack_bitmap
      (x + 8)).toList) := by
    funext x
    rw [Nat.add_comm]
  rw [hcomm]
  exact (List.flatMap_append_perm _ _ _).symm

/-- C17, as the code has it: the retransmissions of an ACKNACK are pushed in the
order of the loop, offset i then offset i + 8 for i = 0 .. 7, that is in the
order 0, 8, 1, 9, 2, 10, 3, 11, 4, 12, 5, 13, 6, 14, 7, 15 of the offsets from
first_unacked. When bitmap[0] is 0, so that only offsets below 8 are selected,
this is the increasing order of the offsets. -/
theorem acknack_retransmission_order {S : Type} (ops : StreamsManagerOps S)
    (a : Agent S) (header : MessageHeader) (payload : ACKNACK_Payload)
    (client : ProxyClient S) :
    (Agent.process_acknack ops a header (some payload) client).messages_
      = a.messages_ ++
        ([0, 8, 1, 9, 2, 10, 3, 11, 4, 12, 5, 13, 6, 14, 7, 15] : List Nat).filterMap
          (retransmission ops client.streams_manager_ (header.sequence_nr % 256)
            payload.first_unacked_seq_num payload.nack_bitmap) ∧
    (payload.nack_bitmap.1 = 0 →
      (Agent.process_acknack ops a header (some payload) client).messages_
        = a.messages_ ++ (List.range 16).filterMap
          (retransmission ops client.streams_manager_ (header.sequence_nr % 256)
            payload.first_unacked_seq_num payload.nack_bitmap)) := by
  have hrange8 : List.range 8 = [0, 1, 2, 3, 4, 5, 6, 7] := by decide
  have hrange16 : List.range 16
      = [0, 1, 2, 3, 4, 5, 6, 7, 8, 9, 10, 11, 12, 13, 14, 15] := by decide
  have hmsgs := Agent.process_acknack_messages ops a header payload client
  rw [hrange8] at hmsgs
  constructor
  · rw [hmsgs, List.filterMap_eq_flatMap_toList]
    simp only [List.flatMap_cons, List.flatMap_nil, List.append_assoc, List.append_nil,
      Nat.reduceAdd]
  · intro hzero
    have hhigh : ∀ k, 8 ≤ k → retransmission ops client.streams_manager_
        (header.sequence_nr % 256) payload.first_unacked_seq_num payload.nack_bitmap k
          = none := by
      intro k hk
      have hbit : nack_window_bit payload.nack_bitmap k = false := by
        simp [nack_window_bit, Nat.not_lt.mpr hk, hzero]
      simp [retransmission, hbit]
    rw [hmsgs, hrange16, List.filterMap_eq_flatMap_toList]
    simp only [List.flatMap_cons, List.flatMap_nil, List.append_assoc, List.append_nil,
      Nat.reduceAdd, hhigh 8 (by decide), hhigh 9 (by decide), hhigh 10 (by decide),
      hhigh 11 (by decide), hhigh 12 (by decide), hhigh 13 (by decide),
      hhigh 14 (by decide), hhigh 15 (by decide), Option.toList_none, List.nil_append]

/-- C17, run on scenario S6: first_unacked 10 and bitmap[1] = 0b00000101 against
the sample history give the stored messages of seqs 10 and 12, in that order. -/
theorem acknack_retransmission_order_witness :
    (Agent.process_acknack sampleOps sampleStreamAgent ⟨0x81, 0x00, 0x80, sampleKey⟩
      (some ⟨10, (0, 5)⟩) sampleStreamSession).messages_
      = [⟨[0x80, 10]⟩, ⟨[0x80, 12]⟩] := by
  have h := (acknack_retransmission_order sampleOps sampleStreamAgent
    ⟨0x81, 0x00, 0x80, sampleKey⟩ ⟨10, (0, 5)⟩ sampleStreamSession).2 rfl
  rw [h]
  decide

/-- C17 fails as stated: with first_unacked 10, bit 1 of bitmap[1] (offset 1,
seq 11) and bit 0 of bitmap[0] (offset 8, seq 18) set, both messages are in the
sample history and the one of seq 18 is pushed before the one of seq 11. -/
theorem acknack_high_octet_first :
    (Agent.process_acknack sampleOps sampleStreamAgent ⟨0x81, 0x00, 0x80, sampleKey⟩
      (some ⟨10, (1, 2)⟩) sampleStreamSession).messages_
      = [⟨[0x80, 18]⟩, ⟨[0x80, 11]⟩] := by
  decide

/-! ## The handler of HEARTBEAT -/

/-- C18: a HEARTBEAT whose payload (first, last) decodes updates the input stream
named by the header (the octet in its sequence_nr field) with (first, last) and
pushes exactly one message on the queue, an ACKNACK whose header has stream id
0x00 and the session id and client key of the request, and whose
first_unacked_seq_num and nack_bitmap are what the stream manager reports for
that same stream in the state left by the update; the session keeps that
state. -/
theorem heartbeat_answered_after_update {S : Type} (factory : XRCEFactory)
    (ops : StreamsManagerOps S) (a : Agent S) (header : MessageHeader)
    (payload : HEARTBEAT_Payload) (client : ProxyClient S) :
    ∃ acknack_header acknack_payload,
      (Agent.process_heartbeat factory ops a header (some payload) client).messages_
        = a.messages_ ++ [factory.acknack acknack_header acknack_payload] ∧
      acknack_header.stream_id = 0x00 ∧
      acknack_header.session_id = header.session_id ∧
      acknack_header.client_key = header.client_key ∧
      acknack_payload.first_unacked_seq_num
        = ops.get_first_unacked_seq_num
          (ops.update_from_heartbeat client.streams_manager_ (header.sequence_nr % 256)
            payload.first_unacked_seq_nr payload.last_unacked_seq_nr)
          (header.sequence_nr % 256) ∧
      acknack_payload.nack_bitmap
        = ops.get_nack_bitmap
          (ops.update_from_heartbeat client.streams_manager_ (header.sequence_nr % 256)
            payload.first_unacked_seq_nr payload.last_unacked_seq_nr)
          (header.sequence_nr % 256) ∧
      (Agent.process_heartbeat factory ops a header (some payload) client).clients_
        = a.clients_.modify header.client_key (fun _ =>
          client.with_streams
            (ops.update_from_heartbeat client.streams_manager_ (header.sequence_nr % 256)
              payload.first_unacked_seq_nr payload.last_unacked_seq_nr)) :=
  ⟨_, _, rfl, rfl, rfl, rfl, rfl, rfl, rfl⟩

/-- The sequence_nr field of the ACKNACK header is filled from the stream_id
field of the HEARTBEAT header. -/
theorem heartbeat_reply_sequence_nr {S : Type} (factory : XRCEFactory)
    (ops : StreamsManagerOps S) (a : Agent S) (header : MessageHeader)
    (payload : HEARTBEAT_Payload) (client : ProxyClient S) :
    ∃ acknack_header acknack_payload,
      (Agent.process_heartbeat factory ops a header (some payload) client).messages_
        = a.messages_ ++ [factory.acknack acknack_header acknack_payload] ∧
      acknack_header.sequence_nr = header.stream_id :=
  ⟨_, _, rfl, rfl⟩

/-- C19: the ACKNACK does not name the stream of the HEARTBEAT. A HEARTBEAT
(first 0, last 4) for stream 0x80, sent on stream 0x00 with 0x80 in the
sequence_nr field of its header, updates the input stream 0x80 of the sample
session, and is answered by an ACKNACK whose header carries 0x00 in its
sequence_nr field. -/
theorem heartbeat_reply_names_stream_zero :
    (Agent.process_heartbeat sampleFactory sampleOps sampleStreamAgent
      ⟨0x81, 0x00, 0x80, sampleKey⟩ (some ⟨0, 4⟩) sampleStreamSession).messages_
      = [sampleFactory.acknack ⟨0x81, 0x00, 0x00, sampleKey⟩ ⟨0, (0, 1)⟩] ∧
    ((Agent.process_heartbeat sampleFactory sampleOps sampleStreamAgent
      ⟨0x81, 0x00, 0x80, sampleKey⟩ (some ⟨0, 4⟩) sampleStreamSession).clients_.find
        sampleKey).map (fun c => c.streams_manager_.heartbeats) = some [(0x80, 0, 4)] ∧
    sampleFactory.acknack ⟨0x81, 0x00, 0x00, sampleKey⟩ ⟨0, (0, 1)⟩
      ≠ sampleFactory.acknack ⟨0x81, 0x00, 0x80, sampleKey⟩ ⟨0, (0, 1)⟩ := by
  refine ⟨rfl, rfl, ?_⟩
  decide

/-! ## ProxyClient::on_read_data -/

/-- C20, as the code has it: every call of `on_read_data` pushes exactly two
messages on the queue, for every stream id. The first is the DATA message,
stamped with the client key and session id of the session, the given stream id
and the sequence number `get_ack_num` reports for that stream. The second is a
HEARTBEAT on stream 0x00 that carries the given stream id in the sequence_nr
field of its header and the unacked range the stream manager reports once the
DATA message is stored; it is pushed for a none or best-effort stream id as it
is for a reliable one. -/
theorem on_read_data_pushes_data_then_heartbeat {S : Type} (factory : XRCEFactory)
    (ops : StreamsManagerOps S) (c : ProxyClient S) (a : Agent S) (stream_id : StreamId)
    (object_id : ObjectId) (request_id : RequestId) (buffer : List Nat) :
    (c.on_read_data factory ops a stream_id object_id request_id buffer).2.messages_
      = a.messages_ ++
        [factory.data
            ⟨c.session_id_, stream_id, ops.get_ack_num c.streams_manager_ stream_id,
              c.client_key_⟩
            ⟨request_id, object_id, buffer⟩,
          factory.heartbeat ⟨c.session_id_, 0x00, stream_id, c.client_key_⟩
            ⟨ops.get_first_unacked_seq_nr
                (c.on_read_data factory ops a stream_id object_id request_id
                  buffer).1.streams_manager_ stream_id,
              ops.get_last_unacked_seq_nr
                (c.on_read_data factory ops a stream_id object_id request_id
                  buffer).1.streams_manager_ stream_id⟩] ∧
    (c.on_read_data factory ops a stream_id object_id request_id buffer).1.streams_manager_
      = ops.store_output_message c.streams_manager_ stream_id
        (factory.data
          ⟨c.session_id_, stream_id, ops.get_ack_num c.streams_manager_ stream_id,
            c.client_key_⟩
          ⟨request_id, object_id, buffer⟩).octets := by
  refine ⟨?_, rfl⟩
  simp [ProxyClient.on_read_data, Agent.add_reply, ProxyClient.with_streams]

/-- C20 fails as stated: a sample delivered on the best-effort stream 0x01 of the
sample session pushes the DATA message and then a HEARTBEAT on stream 0x00. -/
theorem on_read_data_heartbeat_on_best_effort :
    (sampleStreamSession.on_read_data sampleFactory sampleOps sampleStreamAgent 0x01
      (0, 6) (0, 9) [1, 2]).2.messages_
      = [sampleFactory.data ⟨0x81, 0x01, 0, sampleKey⟩ ⟨(0, 9), (0, 6), [1, 2]⟩,
          sampleFactory.heartbeat ⟨0x81, 0x00, 0x01, sampleKey⟩ ⟨0, 0⟩] := by
  decide

/-! ## A repeated handshake and the DELETE of an object -/

/-- C26: a CREATE_CLIENT payload with the right cookie and major version, whose
client key is bound to a session with the same session id, is answered
STATUS_OK and the session map returned is the one received: the session is kept
with its object registry and stream state, no fresh one replaces it. -/
theorem create_client_same_session {S : Type} (fresh : S) (dflt : ResultStatus)
    (clients_ : Map ClientKey (ProxyClient S)) (payload : CREATE_CLIENT_Payload)
    (old : ProxyClient S)
    (hcookie : payload.client_representation.xrce_cookie = XRCE_COOKIE)
    (hversion : payload.client_representation.xrce_version.1 = XRCE_VERSION_MAJOR)
    (hold : clients_.find payload.client_representation.client_key = some old)
    (hsame : payload.client_representation.session_id = old.session_id_) :
    Agent.create_client fresh dflt clients_ payload = (⟨.STATUS_OK⟩, clients_) := by
  simp only [Agent.create_client, hcookie, hversion, hold, if_true,
    ResultStatus.set_status, ProxyClient.get_session_id, ne_eq, hsame,
    not_true_eq_false, if_false]

/-- C26, run on the sample agent: the S1 handshake arrives again while its key
is bound to the session 0x81 that owns the sample registry. -/
theorem create_client_same_session_witness :
    Agent.create_client () ⟨.STATUS_ERR_DENIED⟩ sampleAgent.clients_ sampleHandshake
      = (⟨.STATUS_OK⟩, sampleAgent.clients_) ∧
    (sampleAgent.clients_.find sampleKey).map (fun c => c.get_object (0, 2))
      = some (some ⟨.Publisher, (0, 2), some (0, 1)⟩) :=
  ⟨create_client_same_session () ⟨.STATUS_ERR_DENIED⟩ sampleAgent.clients_ sampleHandshake
    samplePopulated rfl rfl rfl rfl, rfl⟩

/-- C27: `delete_object(DELETE_Payload)` returns STATUS_OK exactly when the id
is registered and STATUS_ERR_UNKNOWN_REFERENCE exactly when it is not. When it
is registered the registry afterwards is the old one without that id: the id is
unbound and every other id keeps its binding. When it is not the session is
unchanged. A second delete of the same id returns STATUS_ERR_UNKNOWN_REFERENCE
in both cases. -/
theorem delete_object_payload_status {S : Type} (dflt : ResultStatus) (c : ProxyClient S)
    (delete_payload : DELETE_Payload) :
    ((c.delete_object_payload dflt delete_payload).1.status = .STATUS_OK ↔
      c.get_object delete_payload.object_id ≠ none) ∧
    ((c.delete_object_payload dflt delete_payload).1.status = .STATUS_ERR_UNKNOWN_REFERENCE ↔
      c.get_object delete_payload.object_id = none) ∧
    (c.delete_object_payload dflt delete_payload).2.get_object delete_payload.object_id
      = none ∧
    (∀ j, j ≠ delete_payload.object_id →
      (c.delete_object_payload dflt delete_payload).2.get_object j = c.get_object j) ∧
    (c.get_object delete_payload.object_id = none →
      (c.delete_object_payload dflt delete_payload).2 = c) ∧
    ((c.delete_object_payload dflt delete_payload).2.delete_object_payload dflt
      delete_payload).1.status = .STATUS_ERR_UNKNOWN_REFERENCE := by
  simp only [ProxyClient.get_object_eq]
  cases hfind : c.objects_.find delete_payload.object_id with
  | none =>
    have hrun : c.delete_object_payload dflt delete_payload
        = (⟨.STATUS_ERR_UNKNOWN_REFERENCE⟩, c) := by
      simp [ProxyClient.delete_object_payload, ProxyClient.delete_object, hfind,
        ResultStatus.set_status]
    rw [hrun]
    simp only [hrun]
    simp [hfind]
  | some o =>
    have hrun : c.delete_object_payload dflt delete_payload
        = (⟨.STATUS_OK⟩, c.with_objects (c.objects_.erase delete_payload.object_id)) := by
      simp [ProxyClient.delete_object_payload, ProxyClient.delete_object, hfind,
        ResultStatus.set_status]
    have hgone : (c.with_objects (c.objects_.erase delete_payload.object_id)).objects_.find
        delete_payload.object_id = none := Map.find_erase_self _ _
    have hagain : (c.with_objects (c.objects_.erase
        delete_payload.object_id)).delete_object_payload dflt delete_payload
        = (⟨.STATUS_ERR_UNKNOWN_REFERENCE⟩,
          c.with_objects (c.objects_.erase delete_payload.object_id)) := by
      simp [ProxyClient.delete_object_payload, ProxyClient.delete_object, hgone,
        ResultStatus.set_status]
    rw [hrun]
    simp only [hagain]
    exact ⟨by simp, by simp, hgone, fun j hj => Map.find_erase_ne _ _ _ hj, by simp, trivial⟩

/-- C27, run on the sample registry: the DELETE of the publisher (0, 2), twice. -/
theorem delete_object_payload_status_witness :
    (samplePopulated.delete_object_payload ⟨.STATUS_ERR_DENIED⟩ ⟨(0, 5), (0, 2)⟩).1
      = ⟨.STATUS_OK⟩ ∧
    ((samplePopulated.delete_object_payload ⟨.STATUS_ERR_DENIED⟩
      ⟨(0, 5), (0, 2)⟩).2.delete_object_payload ⟨.STATUS_ERR_DENIED⟩ ⟨(0, 6), (0, 2)⟩).1
      = ⟨.STATUS_ERR_UNKNOWN_REFERENCE⟩ ∧
    (samplePopulated.delete_object_payload ⟨.STATUS_ERR_DENIED⟩ ⟨(0, 5), (0, 2)⟩).2.get_object
      (0, 1) = samplePopulated.get_object (0, 1) :=
  ⟨rfl, rfl,
   (delete_object_payload_status ⟨.STATUS_ERR_DENIED⟩ samplePopulated ⟨(0, 5), (0, 2)⟩).2.2.2.1
     (0, 1) (by decide)⟩

/-! ## The connection pool of the TCP transport -/

theorem TCPv4Agent.init_loop_effect (s : TCPv4Agent) (k : Nat) :
    ((List.range k).foldl TCPv4Agent.init_step s).free_connections_
      = s.free_connections_ ++ List.range k ∧
    ((List.range k).foldl TCPv4Agent.init_step s).active_connections_
      = s.active_connections_ ∧
    ((List.range k).foldl TCPv4Agent.init_step s).endpoint_to_connection_map_
      = s.endpoint_to_connection_map_ ∧
    (∀ i, i < k →
      (((List.range k).foldl TCPv4Agent.init_step s).connections_ i).id = i ∧
      (((List.range k).foldl TCPv4Agent.init_step s).connections_ i).active = false) := by
  induction k with
  | zero => simp
  | succ k ih =>
    obtain ⟨hfree, hactive, hmap, hslots⟩ := ih
    rw [List.range_succ, List.foldl_append]
    simp only [List.foldl_cons, List.foldl_nil]
    refine ⟨?_, ?_, ?_, ?_⟩
    · simp [TCPv4Agent.init_step, TCPv4Agent.set_connection, hfree, List.append_assoc]
    · simp [TCPv4Agent.init_step, TCPv4Agent.set_connection, hactive]
    · simp [TCPv4Agent.init_step, TCPv4Agent.set_connection, hmap]
    · intro i hi
      by_cases hik : i = k
      · subst hik
        simp [TCPv4Agent.init_step, TCPv4Agent.set_connection]
      · have hlt : i < k := by omega
        simp only [TCPv4Agent.init_step, TCPv4Agent.set_connection, hik, if_false]
        exact hslots i hlt

theorem TCPv4Agent.consistent_init (n : Nat) (blank : TCPv4ConnectionWindows)
    (calls : InitCalls) (hlistener : calls.listener_ok = true)
    (hbind : calls.bind_ok = true) :
    TCPv4Agent.Consistent n (TCPv4Agent.init n calls (TCPv4Agent.new blank)).2 := by
  have hstate : (TCPv4Agent.init n calls (TCPv4Agent.new blank)).2
      = (List.range n).foldl TCPv4Agent.init_step
        ((TCPv4Agent.new blank).set_connection 0
          ⟨calls.first_socket, ((TCPv4Agent.new blank).connections_ 0).endpoint,
            ((TCPv4Agent.new blank).connections_ 0).id,
            ((TCPv4Agent.new blank).connections_ 0).active,
            ((TCPv4Agent.new blank).connections_ 0).input_buffer⟩) := by
    simp only [TCPv4Agent.init, hlistener, hbind, if_true]
    split <;> [split <;> [split <;> rfl; rfl]; rfl]
  rw [hstate]
  obtain ⟨hfree, hactive, hmap, hslots⟩ := TCPv4Agent.init_loop_effect
    ((TCPv4Agent.new blank).set_connection 0
      ⟨calls.first_socket, ((TCPv4Agent.new blank).connections_ 0).endpoint,
        ((TCPv4Agent.new blank).connections_ 0).id,
        ((TCPv4Agent.new blank).connections_ 0).active,
        ((TCPv4Agent.new blank).connections_ 0).input_buffer⟩) n
  have hfree0 : ((TCPv4Agent.new blank).set_connection 0
      ⟨calls.first_socket, ((TCPv4Agent.new blank).connections_ 0).endpoint,
        ((TCPv4Agent.new blank).connections_ 0).id,
        ((TCPv4Agent.new blank).connections_ 0).active,
        ((TCPv4Agent.new blank).connections_ 0).input_buffer⟩).free_connections_ = [] := rfl
  have hactive0 : ((TCPv4Agent.new blank).set_connection 0
      ⟨calls.first_socket, ((TCPv4Agent.new blank).connections_ 0).endpoint,
        ((TCPv4Agent.new blank).connections_ 0).id,
        ((TCPv4Agent.new blank).connections_ 0).active,
        ((TCPv4Agent.new blank).connections_ 0).input_buffer⟩).active_connections_ = ∅ := rfl
  have hmap0 : ((TCPv4Agent.new blank).set_connection 0
      ⟨calls.first_socket, ((TCPv4Agent.new blank).connections_ 0).endpoint,
        ((TCPv4Agent.new blank).connections_ 0).id,
        ((TCPv4Agent.new blank).connections_ 0).active,
        ((TCPv4Agent.new blank).connections_ 0).input_buffer⟩).endpoint_to_connection_map_
      = Map.empty := rfl
  rw [hfree0, List.nil_append] at hfree
  rw [hactive0] at hactive
  rw [hmap0] at hmap
  refine ⟨⟨?_, ?_, ?_, ?_, ?_⟩, ?_, ?_⟩
  · intro id hid
    rw [hactive] at hid
    simp at hid
  · rw [hfree]
    exact List.nodup_range n
  · intro id
    rw [hactive, hfree]
    simp
  · intro i hi
    rw [hactive, (hslots i hi).2]
    simp
  · intro e id hfind
    rw [hmap] at hfind
    simp [Map.empty] at hfind
  · intro i hi
    exact (hslots i hi).1
  · intro e id hfind
    rw [hmap] at hfind
    simp [Map.empty] at hfind

theorem TCPv4Agent.consistent_open (n : Nat) (s : TCPv4Agent) (fd : Nat)
    (endpoint : IPv4EndPoint) (h : TCPv4Agent.Consistent n s) :
    TCPv4Agent.Consistent n (s.open_connection fd endpoint).2 := by
  obtain ⟨⟨hdisj, hnodup, hall, hflag, hmap⟩, hids, hends⟩ := h
  unfold TCPv4Agent.open_connection
  cases hfree : s.free_connections_ with
  | nil => exact ⟨⟨hdisj, hnodup, hall, hflag, hmap⟩, hids, hends⟩
  | cons id rest =>
    rw [hfree] at hdisj hnodup hall
    have hidfree : id ∈ id :: rest := List.mem_cons_self _ _
    have hidn : id < n := (hall id).mpr (Or.inr hidfree)
    have hidnot : id ∉ s.active_connections_ := fun hin => hdisj id hin hidfree
    have hidrest : id ∉ rest := (List.nodup_cons.mp hnodup).1
    have hslot : (s.connections_ id).id = id := hids id hidn
    refine ⟨⟨?_, ?_, ?_, ?_, ?_⟩, ?_, ?_⟩
    · intro x hx
      simp only [Finset.mem_insert] at hx
      rcases hx with hx | hx
      · rw [hx]
        exact hidrest
      · exact fun hin => hdisj x hx (List.mem_cons_of_mem _ hin)
    · exact (List.nodup_cons.mp hnodup).2
    · intro x
      simp only [Finset.mem_insert]
      rw [hall x, List.mem_cons]
      constructor
      · rintro (hx | hx | hx)
        · exact Or.inl (Or.inr hx)
        · exact Or.inl (Or.inl hx)
        · exact Or.inr hx
      · rintro ((hx | hx) | hx)
        · exact Or.inr (Or.inl hx)
        · exact Or.inl hx
        · exact Or.inr (Or.inr hx)
    · intro i hi
      simp only [Finset.mem_insert]
      by_cases hii : i = id
      · subst hii
        simp [hslot]
      · simp only [hii, if_false]
        rw [hflag i hi, hids i hi]
        simp [hii]
    · intro e x hfind
      simp only [Finset.mem_insert]
      simp only at hfind
      by_cases he : e = endpoint
      · simp only [he, if_true, Option.some.injEq] at hfind
        left
        rw [← hfind, hslot]
      · simp only [he, if_false] at hfind
        exact Or.inr (hmap e x hfind)
    · intro i hi
      by_cases hii : i = id
      · subst hii
        simp [hslot]
      · simp only [hii, if_false]
        exact hids i hi
    · intro e x hfind
      simp only at hfind
      by_cases he : e = endpoint
      · simp only [he, if_true, Option.some.injEq] at hfind
        rw [hslot] at hfind
        subst hfind
        simp [he]
      · simp only [he, if_false] at hfind
        have hx : x ≠ id := fun hxid => hidnot (hxid ▸ hmap e x hfind)
        simp only [hx, if_false]
        exact hends e x hfind

theorem TCPv4Agent.consistent_close (n : Nat) (s : TCPv4Agent) (i : Nat) (close_ok : Bool)
    (hi : i < n) (h : TCPv4Agent.Consistent n s) :
    TCPv4Agent.Consistent n (s.close_connection i close_ok).2 := by
  obtain ⟨⟨hdisj, hnodup, hall, hflag, hmap⟩, hids, hends⟩ := h
  unfold TCPv4Agent.close_connection
  have hslot : (s.connections_ i).id = i := hids i hi
  simp only [hslot]
  by_cases hact : i ∈ s.active_connections_
  · cases close_ok with
    | false => simpa [hact] using ⟨⟨hdisj, hnodup, hall, hflag, hmap⟩, hids, hends⟩
    | true =>
      simp only [hact, if_true]
      have hinot : i ∉ s.free_connections_ := hdisj i hact
      refine ⟨⟨?_, ?_, ?_, ?_, ?_⟩, ?_, ?_⟩
      · intro x hx
        simp only [Finset.mem_erase] at hx
        simp only [List.mem_append, List.mem_singleton, not_or]
        exact ⟨hdisj x hx.2, hx.1⟩
      · simp only
        rw [List.nodup_append]
        refine ⟨hnodup, List.nodup_singleton i, ?_⟩
        intro x hx hxi
        rw [List.mem_singleton] at hxi
        exact hinot (hxi ▸ hx)
      · intro x
        simp only [Finset.mem_erase, List.mem_append, List.mem_singleton]
        rw [hall x]
        constructor
        · rintro (hx | hx)
          · by_cases hxi : x = i
            · exact Or.inr (Or.inr hxi)
            · exact Or.inl ⟨hxi, hx⟩
          · exact Or.inr (Or.inl hx)
        · rintro (⟨_, hx⟩ | hx | hx)
          · exact Or.inl hx
          · exact Or.inr hx
          · exact Or.inl (hx ▸ hact)
      · intro j hj
        simp only [Finset.mem_erase]
        by_cases hji : j = i
        · subst hji
          simp
        · simp only [hji, if_false]
          rw [hflag j hj, hids j hj]
          simp [hji]
      · intro e x hfind
        simp only [Finset.mem_erase]
        simp only [Map.erase] at hfind
        by_cases he : e = (s.connections_ i).endpoint
        · simp [he] at hfind
        · simp only [he, if_false] at hfind
          refine ⟨?_, hmap e x hfind⟩
          intro hxi
          apply he
          rw [← hends e x hfind, hxi]
      · intro j hj
        by_cases hji : j = i
        · subst hji
          simp
        · simp only [hji, if_false]
          exact hids j hj
      · intro e x hfind
        simp only [Map.erase] at hfind
        by_cases he : e = (s.connections_ i).endpoint
        · simp [he] at hfind
        · simp only [he, if_false] at hfind
          by_cases hxi : x = i
          · subst hxi
            simp only [if_true]
            exact hends e x hfind
          · simp only [hxi, if_false]
            exact hends e x hfind
  · simpa [hact] using ⟨⟨hdisj, hnodup, hall, hflag, hmap⟩, hids, hends⟩

theorem TCPv4Agent.consistent_of_reachable (n : Nat) (s : TCPv4Agent)
    (h : TCPv4Agent.Reachable n s) : TCPv4Agent.Consistent n s := by
  induction h with
  | init blank calls hlistener hbind =>
    exact TCPv4Agent.consistent_init n blank calls hlistener hbind
  | open_connection s fd endpoint _ ih => exact TCPv4Agent.consistent_open n s fd endpoint ih
  | close_connection s i close_ok hi _ ih =>
    exact TCPv4Agent.consistent_close n s i close_ok hi ih

theorem samplePool_reachable : TCPv4Agent.Reachable 4 samplePool :=
  TCPv4Agent.Reachable.init sampleBlank sampleInitCalls rfl rfl

theorem sampleConnected_reachable : TCPv4Agent.Reachable 4 sampleConnected :=
  TCPv4Agent.Reachable.open_connection samplePool 7 (10, 2019) samplePool_reachable

/-- C28: in every state reached from the set-up of the slots by `init` through
any sequence of `open_connection` and `close_connection` calls, the active set
and the free list are disjoint, the free list holds no id twice, an id is in
one of the two exactly when it is a slot id (so together they hold every slot
id exactly once), a slot is marked active exactly when its id is in the active
set, and every value of the endpoint map is the id of an active slot. -/
theorem pool_invariant_of_reachable (n : Nat) (s : TCPv4Agent)
    (h : TCPv4Agent.Reachable n s) : TCPv4Agent.PoolInvariant n s :=
  (TCPv4Agent.consistent_of_reachable n s h).1

/-- C28, run on the sample pool: four slots, then the endpoint (10, 2019)
connected, that connection closed and the endpoint (11, 2019) connected. -/
theorem pool_invariant_of_reachable_witness :
    TCPv4Agent.PoolInvariant 4
      (((sampleConnected.close_connection 0 true).2).open_connection 8 (11, 2019)).2 :=
  pool_invariant_of_reachable 4 _
    (TCPv4Agent.Reachable.open_connection _ 8 (11, 2019)
      (TCPv4Agent.Reachable.close_connection sampleConnected 0 true (by decide)
        sampleConnected_reachable))

/-- C23: `open_connection` returns false exactly when the free list is empty, and
then leaves the connection state as it is. Otherwise it returns true, takes the
slot whose position is the id at the front of the free list, marks it active,
stores the socket and the endpoint in it, resets its input buffer to the empty
state with msg_size 0, leaves every other slot alone, removes the id from the
front of the free list, inserts it in the active set and binds the endpoint to
the id of that slot, which in every reachable state is the id taken; the other
endpoints keep their binding. -/
theorem open_connection_takes_front_slot (s : TCPv4Agent) (fd : Nat)
    (endpoint : IPv4EndPoint) :
    ((s.open_connection fd endpoint).1 = false ↔ s.free_connections_ = []) ∧
    (s.free_connections_ = [] → (s.open_connection fd endpoint).2 = s) ∧
    (∀ id rest, s.free_connections_ = id :: rest →
      (s.open_connection fd endpoint).1 = true ∧
      ((s.open_connection fd endpoint).2.connections_ id).active = true ∧
      ((s.open_connection fd endpoint).2.connections_ id).input_buffer.state
        = .TCP_BUFFER_EMPTY ∧
      ((s.open_connection fd endpoint).2.connections_ id).input_buffer.msg_size = 0 ∧
      ((s.open_connection fd endpoint).2.connections_ id).endpoint = endpoint ∧
      ((s.open_connection fd endpoint).2.connections_ id).fd = some fd ∧
      (∀ j, j ≠ id →
        (s.open_connection fd endpoint).2.connections_ j = s.connections_ j) ∧
      (s.open_connection fd endpoint).2.free_connections_ = rest ∧
      (s.open_connection fd endpoint).2.active_connections_
        = insert id s.active_connections_ ∧
      (s.open_connection fd endpoint).2.endpoint_to_connection_map_.find endpoint
        = some (s.connections_ id).id ∧
      (∀ e, e ≠ endpoint →
        (s.open_connection fd endpoint).2.endpoint_to_connection_map_.find e
          = s.endpoint_to_connection_map_.find e) ∧
      (∀ n, TCPv4Agent.Reachable n s → (s.connections_ id).id = id)) := by
  refine ⟨?_, ?_, ?_⟩
  · cases hfree : s.free_connections_ <;> simp [TCPv4Agent.open_connection, hfree]
  · intro hfree
    simp [TCPv4Agent.open_connection, hfree]
  · intro id rest hfree
    simp only [TCPv4Agent.open_connection, hfree, if_true, TCPv4Agent.init_input_buffer,
      true_and]
    refine ⟨fun j hj => by simp [hj], fun e he => by simp [he], ?_⟩
    intro n hreach
    obtain ⟨⟨_, _, hall, _, _⟩, hids, _⟩ := TCPv4Agent.consistent_of_reachable n s hreach
    apply hids
    rw [hall id, hfree]
    exact Or.inr (List.mem_cons_self _ _)

/-- C23, run on the sample pool, whose free list is 0, 1, 2, 3: the connection
of the endpoint (10, 2019) takes slot 0. -/
theorem open_connection_takes_front_slot_witness :
    (samplePool.open_connection 7 (10, 2019)).1 = true ∧
    ((samplePool.open_connection 7 (10, 2019)).2.connections_ 0).active = true ∧
    (samplePool.open_connection 7 (10, 2019)).2.free_connections_ = [1, 2, 3] ∧
    (samplePool.open_connection 7 (10, 2019)).2.endpoint_to_connection_map_.find (10, 2019)
      = some 0 :=
  have h := (open_connection_takes_front_slot samplePool 7 (10, 2019)).2.2 0 [1, 2, 3] rfl
  ⟨h.1, h.2.1, h.2.2.2.2.2.2.2.1, h.2.2.2.2.2.2.2.2.2.1⟩

/-! ## Framing and failure of TCPv4Agent::send_message -/

/-- Whenever the payload loop reports the payload sent, the octets it made the
socket accept are the octets of the message from `bytes_sent` on, in order. -/
theorem TCPv4Agent.send_payload_wire (connection : TCPv4ConnectionWindows)
    (socket : Nat → SendResult) (uninit : Nat → Nat) (message : List Nat)
    (hlen : message.length < 65536) (attempts : Nat) :
    ∀ (call bytes_sent : Nat) (wire : List Nat) (call1 : Nat) (wire1 : List Nat),
      bytes_sent ≤ message.length →
      TCPv4Agent.send_payload connection socket uninit message attempts call bytes_sent wire
        = (true, call1, wire1) →
      wire1 = wire ++ message.drop bytes_sent := by
  induction attempts with
  | zero =>
    intro call bytes_sent wire call1 wire1 _ h
    simp [TCPv4Agent.send_payload] at h
  | succ attempts ih =>
    intro call bytes_sent wire call1 wire1 hle h
    unfold TCPv4Agent.send_payload at h
    unfold TCPv4Agent.send_data at h
    by_cases hactive : connection.active = true
    · cases hsock : socket call with
      | socket_error => simp [hactive, hsock] at h
      | accepted n =>
        simp only [hactive, hsock, if_true] at h
        by_cases hpos : 0 < min n (message.length - bytes_sent)
        · have hsum : (bytes_sent + min n (message.length - bytes_sent)) % 65536
              = bytes_sent + min n (message.length - bytes_sent) := by
            apply Nat.mod_eq_of_lt
            omega
          have hmod : message.length % 65536 = message.length := Nat.mod_eq_of_lt hlen
          simp only [hpos, if_true, hsum, hmod] at h
          by_cases hdone : bytes_sent + min n (message.length - bytes_sent) = message.length
          · simp only [hdone, if_true, Prod.mk.injEq, true_and] at h
            rw [← h.2]
            have hmin : min n (message.length - bytes_sent) = message.length - bytes_sent := by
              omega
            rw [hmin, List.take_of_length_le]
            simp
          · simp only [hdone, if_false] at h
            have hrec := ih _ _ _ _ _ (by omega) h
            rw [hrec, List.append_assoc]
            congr 1
            rw [← List.drop_drop, List.take_append_drop]
        · simp only [hpos, if_false, Nat.lt_irrefl] at h
          have hrec := ih _ _ _ _ _ hle h
          have hzero : min n (message.length - bytes_sent) = 0 := by omega
          rw [hrec, hzero]
          simp
    · simp only [hactive, Bool.false_eq_true, if_false, Nat.lt_irrefl, List.append_nil] at h
      by_cases hjunk : 0 < uninit call
      · simp [hjunk] at h
      · simp only [hjunk, if_false] at h
        exact ih _ _ _ _ _ hle h

/-- The two octets of the size prefix are the little-endian encoding of the
length, for a length below 2^16. -/
theorem size_prefix_little_endian (len : Nat) (hlen : len < 65536) :
    (0x00FF &&& len) % 256 + 256 * (((0xFF00 &&& len) >>> 8) % 256) = len := by
  have hlow : 0x00FF &&& len = len % 256 := by
    rw [Nat.and_comm]
    exact Nat.and_pow_two_sub_one_eq_mod len 8
  have hhigh : (0xFF00 &&& len) >>> 8 = (len / 256) % 256 := by
    have h1 : (0xFF00 : Nat) = 0xFF <<< 8 := by decide
    have h2 : (0xFF : Nat) = 2 ^ 8 - 1 := by decide
    have h3 : (256 : Nat) = 2 ^ 8 := by decide
    apply Nat.eq_of_testBit_eq
    intro j
    rw [Nat.testBit_shiftRight, Nat.testBit_and, h1, Nat.testBit_shiftLeft, h2,
      Nat.testBit_two_pow_sub_one, h3, Nat.testBit_mod_two_pow, ← Nat.shiftRight_eq_div_pow,
      Nat.testBit_shiftRight]
    simp
  rw [hlow, hhigh]
  omega

/-- When the first `send` call accepts the two octets of the size, a
`send_message` that returns true has made the socket accept exactly the
little-endian size followed by the octets of the message. -/
theorem send_message_framing_when_prefix_whole (s : TCPv4Agent) (socket : Nat → SendResult)
    (uninit : Nat → Nat) (close_ok : Bool) (destination : IPv4EndPoint)
    (message : List Nat) (id n : Nat)
    (hlen : message.length < 65536)
    (hbound : s.endpoint_to_connection_map_.find destination = some id)
    (hactive : (s.connections_ id).active = true)
    (hfirst : socket 0 = .accepted n) (hwhole : 2 ≤ n)
    (hsent : (s.send_message socket uninit close_ok destination message).1 = true) :
    ∃ byte0 byte1,
      (s.send_message socket uninit close_ok destination message).2.2
        = byte0 :: byte1 :: message ∧
      byte0 + 256 * byte1 = message.length := by
  refine ⟨(0x00FF &&& message.length) % 256, ((0xFF00 &&& message.length) >>> 8) % 256,
    ?_, size_prefix_little_endian message.length hlen⟩
  have hmin : min n 2 = 2 := by omega
  have hsize : TCPv4Agent.send_size (s.connections_ id) socket uninit
      [(0x00FF &&& message.length) % 256, ((0xFF00 &&& message.length) >>> 8) % 256]
      max_attemps 0 0 []
      = (true, 1, [(0x00FF &&& message.length) % 256,
          ((0xFF00 &&& message.length) >>> 8) % 256]) := by
    simp [max_attemps, TCPv4Agent.send_size, TCPv4Agent.send_data, hactive, hfirst, hmin]
  simp only [TCPv4Agent.send_message, TCPv4Agent.send_frame, hbound, hsize, if_true]
    at hsent ⊢
  cases hpay : TCPv4Agent.send_payload (s.connections_ id) socket uninit message max_attemps
      1 0 [(0x00FF &&& message.length) % 256, ((0xFF00 &&& message.length) >>> 8) % 256] with
  | mk sent rest =>
    obtain ⟨call1, wire1⟩ := rest
    rw [hpay] at hsent
    cases sent with
    | false => simp at hsent
    | true =>
      simp only [if_true]
      have hw := TCPv4Agent.send_payload_wire (s.connections_ id) socket uninit message hlen
        max_attemps 1 0 _ call1 wire1 (Nat.zero_le _) hpay
      rw [hw]
      simp

/-- C22: a partial send of the size prefix breaks the framing. The message
7, 8, 9 (length 3, prefix 3, 0) is sent to the connected endpoint of the sample
pool through a socket that accepts one octet at each of its first two calls:
`send_message` returns true and the socket has accepted 3, 3, 7, 8, 9, the
first octet of the prefix twice and the second never. -/
theorem send_message_repeats_first_size_octet :
    (sampleConnected.send_message sampleSlowSocket (fun _ => 0) true (10, 2019)
      [7, 8, 9]).1 = true ∧
    (sampleConnected.send_message sampleSlowSocket (fun _ => 0) true (10, 2019)
      [7, 8, 9]).2.2 = [3, 3, 7, 8, 9] ∧
    (sampleConnected.send_message sampleSlowSocket (fun _ => 0) true (10, 2019)
      [7, 8, 9]).2.2 ≠ [3, 0, 7, 8, 9] := by
  decide

/-- One pass of the size loop on an active connection. -/
theorem TCPv4Agent.send_size_pass (connection : TCPv4ConnectionWindows)
    (hactive : connection.active = true) (socket : Nat → SendResult) (uninit : Nat → Nat)
    (msg_size_buf : List Nat) (attempts call bytes_sent : Nat) (wire : List Nat) :
    TCPv4Agent.send_size connection socket uninit msg_size_buf (attempts + 1) call bytes_sent
        wire =
      match socket call with
      | .socket_error => (false, call + 1, wire)
      | .accepted n =>
        if 0 < min n 2 then
          if (bytes_sent + min n 2) % 65536 = 2 then
            (true, call + 1, wire ++ msg_size_buf.take (min n 2))
          else TCPv4Agent.send_size connection socket uninit msg_size_buf attempts (call + 1)
            ((bytes_sent + min n 2) % 65536) (wire ++ msg_size_buf.take (min n 2))
        else TCPv4Agent.send_size connection socket uninit msg_size_buf attempts (call + 1)
          bytes_sent (wire ++ msg_size_buf.take (min n 2)) := by
  rw [TCPv4Agent.send_size]
  cases socket call <;> simp [TCPv4Agent.send_data, hactive]

/-- One pass of the payload loop on an active connection. -/
theorem TCPv4Agent.send_payload_pass (connection : TCPv4ConnectionWindows)
    (hactive : connection.active = true) (socket : Nat → SendResult) (uninit : Nat → Nat)
    (message : List Nat) (attempts call bytes_sent : Nat) (wire : List Nat) :
    TCPv4Agent.send_payload connection socket uninit message (attempts + 1) call bytes_sent
        wire =
      match socket call with
      | .socket_error => (false, call + 1, wire)
      | .accepted n =>
        if 0 < min n (message.length - bytes_sent) then
          if (bytes_sent + min n (message.length - bytes_sent)) % 65536
              = message.length % 65536 then
            (true, call + 1,
              wire ++ (message.drop bytes_sent).take (min n (message.length - bytes_sent)))
          else TCPv4Agent.send_payload connection socket uninit message attempts (call + 1)
            ((bytes_sent + min n (message.length - bytes_sent)) % 65536)
            (wire ++ (message.drop bytes_sent).take (min n (message.length - bytes_sent)))
        else TCPv4Agent.send_payload connection socket uninit message attempts (call + 1)
          bytes_sent
          (wire ++ (message.drop bytes_sent).take (min n (message.length - bytes_sent))) := by
  rw [TCPv4Agent.send_payload]
  cases socket call <;> simp [TCPv4Agent.send_data, hactive]

/-- A loop of at most `max_attemps` passes that leaves on `SOCKET_ERROR`, leaves
with success when a positive count brings the counter to `target`, and goes on
otherwise, reports success exactly when it is sent completely in the sense of
`SentAt`, and has then made its last `send` at the completing pass. The loop is
taken after `i` passes that neither failed nor completed. -/
theorem TCPv4Agent.sending_loop_sent (socket : Nat → SendResult) (offer : Nat → Nat)
    (target : Nat) (chunk : Nat → Nat → List Nat)
    (loop : Nat → Nat → Nat → List Nat → Bool × Nat × List Nat)
    (hzero : ∀ call b w, loop 0 call b w = (false, call, w))
    (hpass : ∀ attempts call b w, loop (attempts + 1) call b w =
      match socket call with
      | .socket_error => (false, call + 1, w)
      | .accepted n =>
        if 0 < min n (offer b) then
          if (b + min n (offer b)) % 65536 = target then
            (true, call + 1, w ++ chunk b (min n (offer b)))
          else loop attempts (call + 1) ((b + min n (offer b)) % 65536)
            (w ++ chunk b (min n (offer b)))
        else loop attempts (call + 1) b (w ++ chunk b (min n (offer b))))
    (start : Nat) :
    ∀ (attempts i : Nat) (w : List Nat), attempts + i = max_attemps →
      (∀ j, j < i → socket (start + j) ≠ .socket_error ∧
        ¬ TCPv4Agent.CompletesAt socket offer start target j) →
      ((loop attempts (start + i) (TCPv4Agent.bytes_sent_after socket offer start i) w).1
          = true →
        ∃ k, TCPv4Agent.SentAt socket offer start target k ∧
          (loop attempts (start + i) (TCPv4Agent.bytes_sent_after socket offer start i) w).2.1
            = start + k + 1) ∧
      (∀ k, TCPv4Agent.SentAt socket offer start target k →
        (loop attempts (start + i) (TCPv4Agent.bytes_sent_after socket offer start i) w).1
          = true ∧
        (loop attempts (start + i) (TCPv4Agent.bytes_sent_after socket offer start i) w).2.1
          = start + k + 1) := by
  have h16 : max_attemps = 16 := rfl
  intro attempts
  induction attempts with
  | zero =>
    intro i w hsum hist
    rw [hzero]
    refine ⟨fun h => by simp at h, fun k hk => ?_⟩
    obtain ⟨hlt, _, _, hdone⟩ := hk
    exact absurd hdone (hist k (by omega)).2
  | succ attempts ih =>
    intro i w hsum hist
    rw [hpass]
    cases hsock : socket (start + i) with
    | socket_error =>
      refine ⟨fun h => by simp at h, fun k hk => ?_⟩
      obtain ⟨_, hnoerr, _, hdone⟩ := hk
      by_cases hki : k < i
      · exact absurd hdone (hist k hki).2
      · exact absurd hsock (hnoerr i (by omega))
    | accepted n =>
      have htaken : (socket (start + i)).taken
          (offer (TCPv4Agent.bytes_sent_after socket offer start i))
          = min n (offer (TCPv4Agent.bytes_sent_after socket offer start i)) := by
        rw [hsock]; rfl
      have hnoerr : socket (start + i) ≠ .socket_error := by rw [hsock]; intro h; cases h
      by_cases hpos : 0 < min n (offer (TCPv4Agent.bytes_sent_after socket offer start i))
      · have hcount : TCPv4Agent.bytes_sent_after socket offer start (i + 1)
            = (TCPv4Agent.bytes_sent_after socket offer start i +
                min n (offer (TCPv4Agent.bytes_sent_after socket offer start i))) % 65536 := by
          rw [TCPv4Agent.bytes_sent_after, htaken, if_pos hpos]
        by_cases hdone : (TCPv4Agent.bytes_sent_after socket offer start i +
            min n (offer (TCPv4Agent.bytes_sent_after socket offer start i))) % 65536 = target
        · have hcomplete : TCPv4Agent.CompletesAt socket offer start target i :=
            ⟨by rw [htaken]; exact hpos, by rw [hcount]; exact hdone⟩
          simp only [hpos, hdone, if_true]
          refine ⟨fun _ => ⟨i, ⟨by omega, ?_, fun j hj => (hist j hj).2, hcomplete⟩, rfl⟩,
            fun k hk => ⟨trivial, ?_⟩⟩
          · intro j hj
            by_cases hji : j < i
            · exact (hist j hji).1
            · have hjeq : j = i := by omega
              rw [hjeq]; exact hnoerr
          · obtain ⟨_, _, hleast, hkdone⟩ := hk
            by_cases hki : k < i
            · exact absurd hkdone (hist k hki).2
            · by_cases hik : i < k
              · exact absurd hcomplete (hleast i hik)
              · have hkeq : k = i := by omega
                rw [hkeq]
        · simp only [hpos, hdone, if_true, if_false]
          rw [← hcount]
          refine ih (i + 1) _ (by omega) ?_
          intro j hj
          by_cases hji : j < i
          · exact hist j hji
          · have hjeq : j = i := by omega
            rw [hjeq]
            exact ⟨hnoerr, fun hc => hdone (by rw [← hcount]; exact hc.2)⟩
      · have hcount : TCPv4Agent.bytes_sent_after socket offer start (i + 1)
            = TCPv4Agent.bytes_sent_after socket offer start i := by
          rw [TCPv4Agent.bytes_sent_after, htaken, if_neg hpos]
        simp only [hpos, if_false]
        have hrec := ih (i + 1) (w ++ chunk (TCPv4Agent.bytes_sent_after socket offer start i)
            (min n (offer (TCPv4Agent.bytes_sent_after socket offer start i)))) (by omega)
          (by
            intro j hj
            by_cases hji : j < i
            · exact hist j hji
            · have hjeq : j = i := by omega
              rw [hjeq]
              exact ⟨hnoerr, fun hc => hpos (by rw [← htaken]; exact hc.1)⟩)
        rw [hcount] at hrec
        exact hrec

/-- At most one pass of a sending loop is the one at which it is sent
completely. -/
theorem TCPv4Agent.sentAt_unique (socket : Nat → SendResult) (offer : Nat → Nat)
    (start target p q : Nat)
    (hp : TCPv4Agent.SentAt socket offer start target p)
    (hq : TCPv4Agent.SentAt socket offer start target q) : p = q := by
  obtain ⟨_, _, hpleast, hpdone⟩ := hp
  obtain ⟨_, _, hqleast, hqdone⟩ := hq
  by_cases h1 : p < q
  · exact absurd hpdone (hqleast p h1)
  · by_cases h2 : q < p
    · exact absurd hqdone (hpleast q h2)
    · omega

/-- On an active connection the two loops of `send_message` report the payload
sent exactly when the prefix and the payload are sent completely. -/
theorem TCPv4Agent.send_frame_sent (connection : TCPv4ConnectionWindows)
    (hactive : connection.active = true) (socket : Nat → SendResult) (uninit : Nat → Nat)
    (message : List Nat) :
    (TCPv4Agent.send_frame connection socket uninit message).1 = true ↔
      TCPv4Agent.MessageSent socket message.length := by
  have hsize := TCPv4Agent.sending_loop_sent socket (fun _ => 2) 2
    (fun _ m =>
      [(0x00FF &&& message.length) % 256, ((0xFF00 &&& message.length) >>> 8) % 256].take m)
    (TCPv4Agent.send_size connection socket uninit
      [(0x00FF &&& message.length) % 256, ((0xFF00 &&& message.length) >>> 8) % 256])
    (fun call b w => by simp [TCPv4Agent.send_size])
    (fun attempts call b w => TCPv4Agent.send_size_pass connection hactive socket uninit _
      attempts call b w)
    0 max_attemps 0 [] rfl (fun j hj => absurd hj (Nat.not_lt_zero j))
  have hpayload := fun (p : Nat) (w : List Nat) =>
    TCPv4Agent.sending_loop_sent socket (fun b => message.length - b)
      (message.length % 65536)
      (fun b m => (message.drop b).take m)
      (TCPv4Agent.send_payload connection socket uninit message)
      (fun call b w => by simp [TCPv4Agent.send_payload])
      (fun attempts call b w => TCPv4Agent.send_payload_pass connection hactive socket uninit
        message attempts call b w)
      (p + 1) max_attemps 0 w rfl (fun j hj => absurd hj (Nat.not_lt_zero j))
  simp only [Nat.add_zero, TCPv4Agent.bytes_sent_after, Nat.zero_add] at hsize hpayload
  unfold TCPv4Agent.send_frame TCPv4Agent.MessageSent
  by_cases hsz : (TCPv4Agent.send_size connection socket uninit
      [(0x00FF &&& message.length) % 256, ((0xFF00 &&& message.length) >>> 8) % 256]
      max_attemps 0 0 []).1 = true
  · obtain ⟨p, hp, hcall⟩ := hsize.1 hsz
    simp only [hsz, if_true, hcall]
    constructor
    · intro hsent
      obtain ⟨k, hk, _⟩ := (hpayload p _).1 hsent
      exact ⟨p, k, hp, hk⟩
    · rintro ⟨q, k, hq, hk⟩
      have hqp : q = p := TCPv4Agent.sentAt_unique socket _ 0 2 q p hq hp
      rw [hqp] at hk
      exact ((hpayload p _).2 k hk).1
  · simp only [hsz, if_false]
    constructor
    · intro h; simp at h
    · rintro ⟨q, k, hq, _⟩
      exact absurd (hsize.2 q hq).1 hsz

/-- C25: `send_message` to an endpoint bound in a reachable state, the socket
close succeeding. It returns true exactly when the length prefix and the payload
are both sent completely, and then leaves the connection state as it is. It
returns false when a `send` of the size loop fails with `SOCKET_ERROR` before a
pass has completed the prefix, when none of the 16 passes of the size loop
completes the prefix, when the prefix is sent and a `send` of the payload loop
fails before a pass has completed the payload, and when the prefix is sent and
none of the 16 passes of the payload loop completes the payload. Whenever the
prefix or the payload is not sent completely it returns false and the
connection is closed: its slot is marked inactive with an invalid socket, its
id leaves the active set and is appended to the free list, the binding of the
endpoint is evicted, and every other slot and binding is kept; the connection
state holds no session. A `send_message` to an endpoint without binding returns
false, changes nothing and makes the socket accept no octet. -/
theorem send_failure_closes_connection (n : Nat) (s : TCPv4Agent)
    (socket : Nat → SendResult) (uninit : Nat → Nat) (destination : IPv4EndPoint)
    (message : List Nat) (id : Nat)
    (hreach : TCPv4Agent.Reachable n s)
    (hbound : s.endpoint_to_connection_map_.find destination = some id) :
    ((s.send_message socket uninit true destination message).1 = true ↔
      TCPv4Agent.MessageSent socket message.length) ∧
    (∀ k, k < max_attemps → socket k = .socket_error →
      (∀ j, j < k → ¬ TCPv4Agent.CompletesAt socket (fun _ => 2) 0 2 j) →
      (s.send_message socket uninit true destination message).1 = false) ∧
    ((∀ j, j < max_attemps → ¬ TCPv4Agent.CompletesAt socket (fun _ => 2) 0 2 j) →
      (s.send_message socket uninit true destination message).1 = false) ∧
    (∀ p k, TCPv4Agent.SentAt socket (fun _ => 2) 0 2 p →
      k < max_attemps → socket (p + 1 + k) = .socket_error →
      (∀ j, j < k → ¬ TCPv4Agent.CompletesAt socket (fun b => message.length - b) (p + 1)
        (message.length % 65536) j) →
      (s.send_message socket uninit true destination message).1 = false) ∧
    (∀ p, TCPv4Agent.SentAt socket (fun _ => 2) 0 2 p →
      (∀ j, j < max_attemps →
        ¬ TCPv4Agent.CompletesAt socket (fun b => message.length - b) (p + 1)
          (message.length % 65536) j) →
      (s.send_message socket uninit true destination message).1 = false) ∧
    ((s.send_message socket uninit true destination message).1 = true →
      (s.send_message socket uninit true destination message).2.1 = s) ∧
    (¬ TCPv4Agent.MessageSent socket message.length →
      (s.send_message socket uninit true destination message).1 = false ∧
      id ∈ s.active_connections_ ∧
      (s.send_message socket uninit true destination message).2.1.active_connections_
        = s.active_connections_.erase id ∧
      (s.send_message socket uninit true destination message).2.1.free_connections_
        = s.free_connections_ ++ [id] ∧
      (s.send_message socket uninit true destination message).2.1.endpoint_to_connection_map_.find
        destination = none ∧
      (∀ e, e ≠ destination →
        (s.send_message socket uninit true destination
          message).2.1.endpoint_to_connection_map_.find e
          = s.endpoint_to_connection_map_.find e) ∧
      ((s.send_message socket uninit true destination message).2.1.connections_ id).active
        = false ∧
      ((s.send_message socket uninit true destination message).2.1.connections_ id).fd
        = none ∧
      (∀ j, j ≠ id →
        (s.send_message socket uninit true destination message).2.1.connections_ j
          = s.connections_ j)) ∧
    (∀ (unbound : TCPv4Agent) (close_ok : Bool),
      unbound.endpoint_to_connection_map_.find destination = none →
      unbound.send_message socket uninit close_ok destination message
        = (false, unbound, [])) := by
  obtain ⟨⟨_, _, hall, hflag, hmap⟩, hids, hends⟩ :=
    TCPv4Agent.consistent_of_reachable n s hreach
  have hactive : id ∈ s.active_connections_ := hmap destination id hbound
  have hslot : id < n := (hall id).mpr (Or.inl hactive)
  have hid : (s.connections_ id).id = id := hids id hslot
  have hopen : (s.connections_ id).active = true := (hflag id hslot).mpr (by rw [hid]; exact hactive)
  have hendpoint : (s.connections_ id).endpoint = destination := hends destination id hbound
  have hclose : (s.close_connection id true).2
      = ⟨fun j => if j = id then
            ⟨none, destination, id, false, (s.connections_ id).input_buffer⟩
          else s.connections_ j,
        s.active_connections_.erase id, s.free_connections_ ++ [id],
        s.endpoint_to_connection_map_.erase destination⟩ := by
    simp [TCPv4Agent.close_connection, hid, hactive, hendpoint]
  have hrun : s.send_message socket uninit true destination message
      = (if (TCPv4Agent.send_frame (s.connections_ id) socket uninit message).1 = true then
          (true, s, (TCPv4Agent.send_frame (s.connections_ id) socket uninit message).2.2)
        else (false, (s.close_connection id true).2,
          (TCPv4Agent.send_frame (s.connections_ id) socket uninit message).2.2)) := by
    simp only [TCPv4Agent.send_message, hbound]
  have hframe := TCPv4Agent.send_frame_sent (s.connections_ id) hopen socket uninit message
  have hsent : (s.send_message socket uninit true destination message).1 = true ↔
      TCPv4Agent.MessageSent socket message.length := by
    rw [hrun, ← hframe]
    cases (TCPv4Agent.send_frame (s.connections_ id) socket uninit message).1 <;> simp
  have hfalse : ¬ TCPv4Agent.MessageSent socket message.length →
      (s.send_message socket uninit true destination message).1 = false := by
    intro hnot
    cases hres : (s.send_message socket uninit true destination message).1 with
    | false => rfl
    | true => exact absurd (hsent.mp hres) hnot
  refine ⟨hsent, ?_, ?_, ?_, ?_, ?_, ?_, ?_⟩
  · intro k _ herror hpending
    apply hfalse
    rintro ⟨p, _, ⟨_, hnoerr, _, hdone⟩, _⟩
    by_cases hpk : p < k
    · exact hpending p hpk hdone
    · have hk := hnoerr k (by omega)
      rw [Nat.zero_add] at hk
      exact hk herror
  · intro hnever
    apply hfalse
    rintro ⟨p, _, ⟨hlt, _, _, hdone⟩, _⟩
    exact hnever p hlt hdone
  · intro p k hp _ herror hpending
    apply hfalse
    rintro ⟨q, r, hq, ⟨_, hnoerr, _, hdone⟩⟩
    have hqp : q = p := TCPv4Agent.sentAt_unique socket _ 0 2 q p hq hp
    rw [hqp] at hnoerr hdone
    by_cases hrk : r < k
    · exact hpending r hrk hdone
    · exact hnoerr k (by omega) herror
  · intro p hp hnever
    apply hfalse
    rintro ⟨q, r, hq, ⟨hlt, _, _, hdone⟩⟩
    have hqp : q = p := TCPv4Agent.sentAt_unique socket _ 0 2 q p hq hp
    rw [hqp] at hdone
    exact hnever r hlt hdone
  · intro htrue
    rw [hrun] at htrue ⊢
    cases hf : (TCPv4Agent.send_frame (s.connections_ id) socket uninit message).1 with
    | false => simp [hf] at htrue
    | true => simp
  · intro hnot
    have hf : (TCPv4Agent.send_frame (s.connections_ id) socket uninit message).1 = false := by
      cases hres : (TCPv4Agent.send_frame (s.connections_ id) socket uninit message).1 with
      | false => rfl
      | true => exact absurd (hframe.mp hres) hnot
    rw [hrun]
    simp only [hf, Bool.false_eq_true, if_false]
    rw [hclose]
    exact ⟨trivial, hactive, rfl, rfl, Map.find_erase_self _ _,
      fun e he => Map.find_erase_ne _ _ _ he, by simp, by simp, fun j hj => by simp [hj]⟩
  · intro unbound close_ok hnone
    simp [TCPv4Agent.send_message, hnone]

/-- C25, run on the sample pool. A message sent to the connected endpoint
through a socket whose every call fails is not sent: slot 0 leaves the active
set, goes back to the end of the free list, and the binding of the endpoint is
evicted. Through a socket that never fails and never accepts an octet the 16
passes of the size loop are used up and the message is not sent either. Through
a socket that accepts whatever it is offered the message is sent completely. -/
theorem send_failure_closes_connection_witness :
    (sampleConnected.send_message sampleDeadSocket (fun _ => 0) true (10, 2019)
      [7, 8, 9]).1 = false ∧
    (sampleConnected.send_message sampleDeadSocket (fun _ => 0) true (10, 2019)
      [7, 8, 9]).2.1.free_connections_ = [1, 2, 3, 0] ∧
    (sampleConnected.send_message sampleDeadSocket (fun _ => 0) true (10, 2019)
      [7, 8, 9]).2.1.endpoint_to_connection_map_.find (10, 2019) = none ∧
    (sampleConnected.send_message sampleStalledSocket (fun _ => 0) true (10, 2019)
      [7, 8, 9]).1 = false ∧
    (sampleConnected.send_message sampleStalledSocket (fun _ => 0) true (10, 2019)
      [7, 8, 9]).2.1.free_connections_ = [1, 2, 3, 0] ∧
    TCPv4Agent.MessageSent (fun _ => .accepted 65535) 3 :=
  have hwhole := send_failure_closes_connection 4 sampleConnected (fun _ => .accepted 65535)
    (fun _ => 0) (10, 2019) [7, 8, 9] 0 sampleConnected_reachable rfl
  have hdead := send_failure_closes_connection 4 sampleConnected sampleDeadSocket (fun _ => 0)
    (10, 2019) [7, 8, 9] 0 sampleConnected_reachable rfl
  have hstalled := send_failure_closes_connection 4 sampleConnected sampleStalledSocket
    (fun _ => 0) (10, 2019) [7, 8, 9] 0 sampleConnected_reachable rfl
  have hfail : (sampleConnected.send_message sampleDeadSocket (fun _ => 0) true (10, 2019)
      [7, 8, 9]).1 = false :=
    hdead.2.1 0 (by decide) rfl (fun j hj => absurd hj (Nat.not_lt_zero j))
  have hused : (sampleConnected.send_message sampleStalledSocket (fun _ => 0) true (10, 2019)
      [7, 8, 9]).1 = false :=
    hstalled.2.2.1 (fun _ _ hc => absurd hc.1 (by simp [sampleStalledSocket, SendResult.taken]))
  have hclosed := hdead.2.2.2.2.2.2.1
    (fun hsent => by rw [hdead.1.mpr hsent] at hfail; cases hfail)
  have hclosed2 := hstalled.2.2.2.2.2.2.1
    (fun hsent => by rw [hstalled.1.mpr hsent] at hused; cases hused)
  ⟨hfail, hclosed.2.2.2.1, hclosed.2.2.2.2.1, hused, hclosed2.2.2.2.1,
    hwhole.1.mp (by decide)⟩

/-! ## Agent::handle_input_message -/

/-- C24: a dropped message is inert. The dispatcher returns the agent it
received, with no reply pushed and no session, registry or stream state
changed, and hands nothing to the handlers, when (a) the header does not
decode, (b) the session id is one of the two none classes and the first
submessage is missing or is not a CREATE_CLIENT, (c) the session id is an
established one and the client key of the header is bound to no session. -/
theorem dropped_message_is_inert {S : Type} (env : Collaborators S) (fuel : Nat)
    (a : Agent S) (input_message : XrceMessage) :
    (env.serializer.header (input_message.buf.take input_message.len) = none →
      (Agent.handle_input_message env fuel a input_message).outcome = .returned a ∧
      (Agent.handle_input_message env fuel a input_message).events = []) ∧
    (∀ header rest,
      env.serializer.header (input_message.buf.take input_message.len)
        = some (header, rest) →
      (header.session_id = SESSIONID_NONE_WITHOUT_CLIENT_KEY ∨
        header.session_id = SESSIONID_NONE_WITH_CLIENT_KEY) →
      ((env.serializer.submessages rest).head? = none ∨
        ∃ sub, (env.serializer.submessages rest).head? = some sub ∧
          ∀ payload, sub ≠ .CREATE_CLIENT payload) →
      (Agent.handle_input_message env fuel a input_message).outcome = .returned a ∧
      (Agent.handle_input_message env fuel a input_message).events = []) ∧
    (∀ header rest,
      env.serializer.header (input_message.buf.take input_message.len)
        = some (header, rest) →
      ¬ (header.session_id = SESSIONID_NONE_WITHOUT_CLIENT_KEY ∨
        header.session_id = SESSIONID_NONE_WITH_CLIENT_KEY) →
      a.clients_.find header.client_key = none →
      (Agent.handle_input_message env fuel a input_message).outcome = .returned a ∧
      (Agent.handle_input_message env fuel a input_message).events = []) := by
  refine ⟨?_, ?_, ?_⟩
  · intro hheader
    simp [Agent.handle_input_message, hheader]
  · intro header rest hheader hnone hfirst
    simp only [Agent.handle_input_message, hheader, hnone, if_true]
    rcases hfirst with hmissing | ⟨sub, hsub, hother⟩
    · simp [hmissing]
    · rw [hsub]
      cases sub with
      | CREATE_CLIENT payload => exact absurd rfl (hother payload)
      | _ => exact ⟨rfl, rfl⟩
  · intro header rest hheader hestablished hunknown
    simp [Agent.handle_input_message, hheader, hestablished, hunknown]

/-- C24, run on the sample agent: seven octets (no header), a handshake-class
message whose first submessage is a DELETE, and a message for a key that has no
session. -/
theorem dropped_message_is_inert_witness :
    (Agent.handle_input_message sampleEnv 4 sampleDispatchAgent
      ⟨[0x81, 0x80, 0, 0, 0xAA, 0xBB, 0xCC], 7⟩).events = [] ∧
    (Agent.handle_input_message sampleEnv 4 sampleDispatchAgent
      ⟨[0x00, 0x00, 0, 0, 0xAA, 0xBB, 0xCC, 0xDD, 3, 0, 6, 0, 2], 13⟩).events = [] ∧
    (Agent.handle_input_message sampleEnv 4 sampleDispatchAgent
      ⟨[0x81, 0x80, 0, 0, 1, 2, 3, 4, 3, 0, 6, 0, 2], 13⟩).events = [] :=
  ⟨((dropped_message_is_inert sampleEnv 4 sampleDispatchAgent
      ⟨[0x81, 0x80, 0, 0, 0xAA, 0xBB, 0xCC], 7⟩).1 rfl).2,
   ((dropped_message_is_inert sampleEnv 4 sampleDispatchAgent
      ⟨[0x00, 0x00, 0, 0, 0xAA, 0xBB, 0xCC, 0xDD, 3, 0, 6, 0, 2], 13⟩).2.1
      ⟨0x00, 0x00, 0, sampleKey⟩ [3, 0, 6, 0, 2] rfl (Or.inl rfl)
      (Or.inr ⟨.DELETE (some ⟨(0, 6), (0, 2)⟩), rfl, fun _ h => by cases h⟩)).2,
   ((dropped_message_is_inert sampleEnv 4 sampleDispatchAgent
      ⟨[0x81, 0x80, 0, 0, 1, 2, 3, 4, 3, 0, 6, 0, 2], 13⟩).2.2
      ⟨0x81, 0x80, 0, (1, 2, 3, 4)⟩ [3, 0, 6, 0, 2] rfl (by decide) rfl).2⟩

/-- The log asked of an in-order delivery depends on the starting sequence
number only modulo 2^16. -/
theorem advance_log_congr (stream_id : StreamId) :
    ∀ (batches : List (List Submessage)) (x y : Nat), x % 65536 = y % 65536 →
      advance_log stream_id x batches = advance_log stream_id y batches := by
  intro batches
  induction batches with
  | nil => intro x y _; rfl
  | cons batch rest ih =>
    intro x y h
    simp only [advance_log]
    rw [h, ih (x + 1) (y + 1) (by omega)]

/-- The draining loop on a session that has been erased. -/
theorem Agent.drain_erased {S : Type} (env : Collaborators S) (header : MessageHeader)
    (fuel : Nat) (a : Agent S) (seq_num : Nat)
    (hclient : a.clients_.find header.client_key = none) :
    Agent.drain env header fuel a seq_num = ⟨[], .faulted .dangling_reference⟩ := by
  cases fuel <;> simp [Agent.drain, hclient]

/-- The draining loop when no stored message is available: the call returns. -/
theorem Agent.drain_idle {S : Type} (env : Collaborators S) (header : MessageHeader)
    (fuel : Nat) (a : Agent S) (seq_num : Nat) (client : ProxyClient S)
    (hclient : a.clients_.find header.client_key = some client)
    (hidle : env.input.message_available client.streams_manager_ header.stream_id = false) :
    Agent.drain env header fuel a seq_num = ⟨[], .returned a⟩ := by
  cases fuel <;> simp [Agent.drain, hclient, hidle]

/-- The draining loop with a stored message available and no pass left. -/
theorem Agent.drain_no_fuel {S : Type} (env : Collaborators S) (header : MessageHeader)
    (a : Agent S) (seq_num : Nat) (client : ProxyClient S)
    (hclient : a.clients_.find header.client_key = some client)
    (havailable :
      env.input.message_available client.streams_manager_ header.stream_id = true) :
    Agent.drain env header 0 a seq_num = ⟨[], .out_of_fuel⟩ := by
  simp [Agent.drain, hclient, havailable]

/-- One pass of the draining loop: the stored message is taken, its submessages
are handed to the handlers, and, when the handlers return and the session is
still there, the stream is advanced with the successor of `seq_num` before the
loop goes on. -/
theorem Agent.drain_pass {S : Type} (env : Collaborators S) (header : MessageHeader)
    (fuel : Nat) (a : Agent S) (seq_num : Nat) (client : ProxyClient S)
    (hclient : a.clients_.find header.client_key = some client)
    (havailable :
      env.input.message_available client.streams_manager_ header.stream_id = true) :
    Agent.drain env header (fuel + 1) a seq_num =
      match Agent.process_message env header
          (a.with_client header.client_key (client.with_streams
            (env.input.get_next_message client.streams_manager_ header.stream_id).2))
          (env.serializer.submessages
            ((env.input.get_next_message client.streams_manager_ header.stream_id).1.buf.take
              (env.input.get_next_message client.streams_manager_ header.stream_id).1.len)) with
      | .error f =>
        ⟨[.processed (env.serializer.submessages
          ((env.input.get_next_message client.streams_manager_ header.stream_id).1.buf.take
            (env.input.get_next_message client.streams_manager_ header.stream_id).1.len))],
          .faulted f⟩
      | .ok a2 =>
        match a2.clients_.find header.client_key with
        | none =>
          ⟨[.processed (env.serializer.submessages
            ((env.input.get_next_message client.streams_manager_ header.stream_id).1.buf.take
              (env.input.get_next_message client.streams_manager_ header.stream_id).1.len))],
            .faulted .dangling_reference⟩
        | some client2 =>
          Dispatched.after
            [.processed (env.serializer.submessages
              ((env.input.get_next_message client.streams_manager_
                header.stream_id).1.buf.take
                (env.input.get_next_message client.streams_manager_ header.stream_id).1.len)),
              .advanced header.stream_id ((seq_num + 1) % 65536)]
            (Agent.drain env header fuel
              (a2.with_client header.client_key
                (client2.with_streams
                  (env.input.update_stream client2.streams_manager_ header.stream_id
                    ((seq_num + 1) % 65536))))
              ((seq_num + 1) % 65536)) := by
  rw [Agent.drain]
  simp only [hclient, havailable, if_true]

/-- The draining loop entered after the advance with `seq_num` logs the
in-order pattern from `seq_num + 1`, whatever the number of passes allowed. -/
theorem Agent.drain_in_order {S : Type} (env : Collaborators S) (header : MessageHeader) :
    ∀ (fuel : Nat) (a : Agent S) (seq_num : Nat),
      InOrderLog header.stream_id (seq_num + 1) (Agent.drain env header fuel a seq_num) := by
  intro fuel
  induction fuel with
  | zero =>
    intro a seq_num
    cases hclient : a.clients_.find header.client_key with
    | none => rw [Agent.drain_erased env header 0 a seq_num hclient]; exact ⟨[], Or.inl rfl⟩
    | some client =>
      cases havailable :
          env.input.message_available client.streams_manager_ header.stream_id with
      | false =>
        rw [Agent.drain_idle env header 0 a seq_num client hclient havailable]
        exact ⟨[], Or.inl rfl⟩
      | true =>
        rw [Agent.drain_no_fuel env header a seq_num client hclient havailable]
        exact ⟨[], Or.inl rfl⟩
  | succ fuel ih =>
    intro a seq_num
    cases hclient : a.clients_.find header.client_key with
    | none =>
      rw [Agent.drain_erased env header (fuel + 1) a seq_num hclient]
      exact ⟨[], Or.inl rfl⟩
    | some client =>
      cases havailable :
          env.input.message_available client.streams_manager_ header.stream_id with
      | false =>
        rw [Agent.drain_idle env header (fuel + 1) a seq_num client hclient havailable]
        exact ⟨[], Or.inl rfl⟩
      | true =>
        rw [Agent.drain_pass env header fuel a seq_num client hclient havailable]
        cases hrun : Agent.process_message env header
            (a.with_client header.client_key (client.with_streams
              (env.input.get_next_message client.streams_manager_ header.stream_id).2))
            (env.serializer.submessages
              ((env.input.get_next_message client.streams_manager_
                header.stream_id).1.buf.take
                (env.input.get_next_message client.streams_manager_
                  header.stream_id).1.len)) with
        | error f =>
          exact ⟨[], Or.inr ⟨⟨_, rfl⟩, fun _ h => by cases h⟩⟩
        | ok a2 =>
          dsimp only
          cases hclient2 : a2.clients_.find header.client_key with
          | none =>
            exact ⟨[], Or.inr ⟨⟨_, rfl⟩, fun _ h => by cases h⟩⟩
          | some client2 =>
            obtain ⟨batches, hlog⟩ := ih
              (a2.with_client header.client_key
                (client2.with_streams
                  (env.input.update_stream client2.streams_manager_ header.stream_id
                    ((seq_num + 1) % 65536))))
              ((seq_num + 1) % 65536)
            have hnext : ∀ rest, advance_log header.stream_id ((seq_num + 1) % 65536 + 1) rest
                = advance_log header.stream_id (seq_num + 1 + 1) rest :=
              fun rest => advance_log_congr header.stream_id rest _ _ (by omega)
            refine ⟨env.serializer.submessages
              ((env.input.get_next_message client.streams_manager_
                header.stream_id).1.buf.take
                (env.input.get_next_message client.streams_manager_
                  header.stream_id).1.len) :: batches, ?_⟩
            rcases hlog with hlog | ⟨⟨batch, hlog⟩, hfault⟩
            · left
              simp only [Dispatched.after, hlog, advance_log, hnext]
              rfl
            · right
              refine ⟨⟨batch, ?_⟩, hfault⟩
              simp only [Dispatched.after, hlog, advance_log, hnext]
              rfl

/-- One more pass allowed changes nothing in a run of the draining loop that did
not stop for want of passes. -/
theorem Agent.drain_one_more_pass {S : Type} (env : Collaborators S)
    (header : MessageHeader) :
    ∀ (fuel : Nat) (a : Agent S) (seq_num : Nat),
      (Agent.drain env header fuel a seq_num).outcome ≠ .out_of_fuel →
      Agent.drain env header (fuel + 1) a seq_num = Agent.drain env header fuel a seq_num := by
  intro fuel
  induction fuel with
  | zero =>
    intro a seq_num h
    cases hclient : a.clients_.find header.client_key with
    | none =>
      rw [Agent.drain_erased env header 1 a seq_num hclient,
        Agent.drain_erased env header 0 a seq_num hclient]
    | some client =>
      cases havailable :
          env.input.message_available client.streams_manager_ header.stream_id with
      | false =>
        rw [Agent.drain_idle env header 1 a seq_num client hclient havailable,
          Agent.drain_idle env header 0 a seq_num client hclient havailable]
      | true =>
        rw [Agent.drain_no_fuel env header a seq_num client hclient havailable] at h
        exact absurd rfl h
  | succ fuel ih =>
    intro a seq_num h
    cases hclient : a.clients_.find header.client_key with
    | none =>
      rw [Agent.drain_erased env header (fuel + 1 + 1) a seq_num hclient,
        Agent.drain_erased env header (fuel + 1) a seq_num hclient]
    | some client =>
      cases havailable :
          env.input.message_available client.streams_manager_ header.stream_id with
      | false =>
        rw [Agent.drain_idle env header (fuel + 1 + 1) a seq_num client hclient havailable,
          Agent.drain_idle env header (fuel + 1) a seq_num client hclient havailable]
      | true =>
        rw [Agent.drain_pass env header fuel a seq_num client hclient havailable] at h
        rw [Agent.drain_pass env header (fuel + 1) a seq_num client hclient havailable,
          Agent.drain_pass env header fuel a seq_num client hclient havailable]
        cases hrun : Agent.process_message env header
            (a.with_client header.client_key (client.with_streams
              (env.input.get_next_message client.streams_manager_ header.stream_id).2))
            (env.serializer.submessages
              ((env.input.get_next_message client.streams_manager_
                header.stream_id).1.buf.take
                (env.input.get_next_message client.streams_manager_
                  header.stream_id).1.len)) with
        | error f => rfl
        | ok a2 =>
          rw [hrun] at h
          dsimp only at h ⊢
          cases hclient2 : a2.clients_.find header.client_key with
          | none => rfl
          | some client2 =>
            rw [hclient2] at h
            dsimp only at h ⊢
            rw [ih _ _ h]

/-- Enough passes give the result: a run of the draining loop that did not stop
for want of passes is the run with any larger number of passes. -/
theorem Agent.drain_enough_fuel {S : Type} (env : Collaborators S) (header : MessageHeader)
    (fuel : Nat) (a : Agent S) (seq_num : Nat)
    (h : (Agent.drain env header fuel a seq_num).outcome ≠ .out_of_fuel) :
    ∀ extra : Nat,
      Agent.drain env header (fuel + extra) a seq_num = Agent.drain env header fuel a seq_num := by
  intro extra
  induction extra with
  | zero => rfl
  | succ extra ih =>
    have hmore : (Agent.drain env header (fuel + extra) a seq_num).outcome ≠ .out_of_fuel := by
      rw [ih]; exact h
    rw [← Nat.add_assoc, Agent.drain_one_more_pass env header (fuel + extra) a seq_num hmore, ih]

/-- The dispatcher on a message for an existing session whose sequence number is
valid and next in order: the submessages go to the handlers, then the stream is
advanced with the sequence number and the stored messages are drained. -/
theorem Agent.handle_input_message_in_order {S : Type} (env : Collaborators S) (fuel : Nat)
    (a : Agent S) (input_message : XrceMessage) (header : MessageHeader) (rest : List Nat)
    (client : ProxyClient S)
    (hheader : env.serializer.header (input_message.buf.take input_message.len)
      = some (header, rest))
    (hsession : ¬ (header.session_id = SESSIONID_NONE_WITHOUT_CLIENT_KEY ∨
      header.session_id = SESSIONID_NONE_WITH_CLIENT_KEY))
    (hclient : a.clients_.find header.client_key = some client)
    (hvalid : env.input.is_valid_message client.streams_manager_ header.stream_id
      (header.sequence_nr % 65536) = true)
    (hnext : env.input.is_next_message client.streams_manager_ header.stream_id
      (header.sequence_nr % 65536) = true) :
    Agent.handle_input_message env fuel a input_message =
      match Agent.process_message env header a (env.serializer.submessages rest) with
      | .error f => ⟨[.processed (env.serializer.submessages rest)], .faulted f⟩
      | .ok a1 =>
        match a1.clients_.find header.client_key with
        | none =>
          ⟨[.processed (env.serializer.submessages rest)], .faulted .dangling_reference⟩
        | some client1 =>
          Dispatched.after
            [.processed (env.serializer.submessages rest),
              .advanced header.stream_id (header.sequence_nr % 65536)]
            (Agent.drain env header fuel
              (a1.with_client header.client_key
                (client1.with_streams
                  (env.input.update_stream client1.streams_manager_ header.stream_id
                    (header.sequence_nr % 65536))))
              (header.sequence_nr % 65536)) := by
  simp only [Agent.handle_input_message, hheader, hsession, hclient, hvalid, hnext, if_true,
    if_false]

/-- The first sentence of the delivery rule, for a message addressed to an
existing session: its submessages are handed to the handlers if and only if the
stream manager reports the sequence number valid and next in order; when it is
valid and not next the message is stored, nothing is handed to the handlers and
the call returns with only the stream state of that session changed; when it is
not valid nothing is logged and the call returns the agent unchanged. -/
theorem Agent.handle_input_message_delivery {S : Type} (env : Collaborators S) (fuel : Nat)
    (a : Agent S) (input_message : XrceMessage) (header : MessageHeader) (rest : List Nat)
    (client : ProxyClient S)
    (hheader : env.serializer.header (input_message.buf.take input_message.len)
      = some (header, rest))
    (hsession : ¬ (header.session_id = SESSIONID_NONE_WITHOUT_CLIENT_KEY ∨
      header.session_id = SESSIONID_NONE_WITH_CLIENT_KEY))
    (hclient : a.clients_.find header.client_key = some client) :
    ((∃ batch, DispatchEvent.processed batch ∈
        (Agent.handle_input_message env fuel a input_message).events) ↔
      (env.input.is_valid_message client.streams_manager_ header.stream_id
          (header.sequence_nr % 65536) = true ∧
        env.input.is_next_message client.streams_manager_ header.stream_id
          (header.sequence_nr % 65536) = true)) ∧
    (env.input.is_valid_message client.streams_manager_ header.stream_id
        (header.sequence_nr % 65536) = true →
      env.input.is_next_message client.streams_manager_ header.stream_id
        (header.sequence_nr % 65536) = false →
      (Agent.handle_input_message env fuel a input_message).events
        = [.stored header.stream_id (header.sequence_nr % 65536)] ∧
      (Agent.handle_input_message env fuel a input_message).outcome
        = .returned (a.with_client header.client_key (client.with_streams
            (env.input.store_input_message client.streams_manager_ header.stream_id
              (header.sequence_nr % 65536) rest)))) ∧
    (env.input.is_valid_message client.streams_manager_ header.stream_id
        (header.sequence_nr % 65536) = false →
      (Agent.handle_input_message env fuel a input_message).events = [] ∧
      (Agent.handle_input_message env fuel a input_message).outcome = .returned a) := by
  have hstored : env.input.is_valid_message client.streams_manager_ header.stream_id
        (header.sequence_nr % 65536) = true →
      env.input.is_next_message client.streams_manager_ header.stream_id
        (header.sequence_nr % 65536) = false →
      Agent.handle_input_message env fuel a input_message
        = ⟨[.stored header.stream_id (header.sequence_nr % 65536)],
          .returned (a.with_client header.client_key (client.with_streams
            (env.input.store_input_message client.streams_manager_ header.stream_id
              (header.sequence_nr % 65536) rest)))⟩ := by
    intro hvalid hnext
    simp [Agent.handle_input_message, hheader, hsession, hclient, hvalid, hnext]
  have hdropped : env.input.is_valid_message client.streams_manager_ header.stream_id
        (header.sequence_nr % 65536) = false →
      Agent.handle_input_message env fuel a input_message = ⟨[], .returned a⟩ := by
    intro hvalid
    simp [Agent.handle_input_message, hheader, hsession, hclient, hvalid]
  refine ⟨Iff.intro ?_ ?_, ?_, ?_⟩
  · rintro ⟨batch, hbatch⟩
    cases hvalid : env.input.is_valid_message client.streams_manager_ header.stream_id
        (header.sequence_nr % 65536) with
    | false => rw [hdropped hvalid] at hbatch; simp at hbatch
    | true =>
      cases hnext : env.input.is_next_message client.streams_manager_ header.stream_id
          (header.sequence_nr % 65536) with
      | false => rw [hstored hvalid hnext] at hbatch; simp at hbatch
      | true => exact ⟨rfl, rfl⟩
  · rintro ⟨hvalid, hnext⟩
    refine ⟨env.serializer.submessages rest, ?_⟩
    rw [Agent.handle_input_message_in_order env fuel a input_message header rest client
      hheader hsession hclient hvalid hnext]
    cases Agent.process_message env header a (env.serializer.submessages rest) with
    | error f => simp
    | ok a1 =>
      dsimp only
      cases a1.clients_.find header.client_key with
      | none => simp
      | some client1 => simp [Dispatched.after]
  · intro hvalid hnext
    rw [hstored hvalid hnext]
    exact ⟨rfl, rfl⟩
  · intro hvalid
    rw [hdropped hvalid]
    exact ⟨rfl, rfl⟩

/-- The second sentence of the delivery rule, for a message addressed to an
existing session with a valid, in-order sequence number `s`: the first batch
handed to the handlers is the message itself; the log follows the in-order
pattern from `s`; and when the call returns, every batch handed to the handlers
is followed by its own advance, the values being `s, s + 1, s + 2, ...` modulo
2^16. -/
theorem Agent.handle_input_message_advances {S : Type} (env : Collaborators S) (fuel : Nat)
    (a : Agent S) (input_message : XrceMessage) (header : MessageHeader) (rest : List Nat)
    (client : ProxyClient S)
    (hheader : env.serializer.header (input_message.buf.take input_message.len)
      = some (header, rest))
    (hsession : ¬ (header.session_id = SESSIONID_NONE_WITHOUT_CLIENT_KEY ∨
      header.session_id = SESSIONID_NONE_WITH_CLIENT_KEY))
    (hclient : a.clients_.find header.client_key = some client)
    (hvalid : env.input.is_valid_message client.streams_manager_ header.stream_id
      (header.sequence_nr % 65536) = true)
    (hnext : env.input.is_next_message client.streams_manager_ header.stream_id
      (header.sequence_nr % 65536) = true) :
    (Agent.handle_input_message env fuel a input_message).events.head?
      = some (.processed (env.serializer.submessages rest)) ∧
    InOrderLog header.stream_id header.sequence_nr
      (Agent.handle_input_message env fuel a input_message) ∧
    (∀ a1, (Agent.handle_input_message env fuel a input_message).outcome = .returned a1 →
      ∃ batches, (Agent.handle_input_message env fuel a input_message).events
        = advance_log header.stream_id header.sequence_nr
            (env.serializer.submessages rest :: batches)) := by
  rw [Agent.handle_input_message_in_order env fuel a input_message header rest client
    hheader hsession hclient hvalid hnext]
  cases Agent.process_message env header a (env.serializer.submessages rest) with
  | error f =>
    exact ⟨rfl, ⟨[], Or.inr ⟨⟨_, rfl⟩, fun _ h => by cases h⟩⟩, fun _ h => by cases h⟩
  | ok a1 =>
    dsimp only
    cases a1.clients_.find header.client_key with
    | none =>
      exact ⟨rfl, ⟨[], Or.inr ⟨⟨_, rfl⟩, fun _ h => by cases h⟩⟩, fun _ h => by cases h⟩
    | some client1 =>
      dsimp only
      obtain ⟨batches, hlog⟩ := Agent.drain_in_order env header fuel
        (a1.with_client header.client_key
          (client1.with_streams
            (env.input.update_stream client1.streams_manager_ header.stream_id
              (header.sequence_nr % 65536))))
        (header.sequence_nr % 65536)
      have hfrom : ∀ later, advance_log header.stream_id (header.sequence_nr % 65536 + 1) later
          = advance_log header.stream_id (header.sequence_nr + 1) later :=
        fun later => advance_log_congr header.stream_id later _ _ (by omega)
      refine ⟨rfl, ⟨env.serializer.submessages rest :: batches, ?_⟩, ?_⟩
      · rcases hlog with hlog | ⟨⟨batch, hlog⟩, hfault⟩
        · left
          simp only [Dispatched.after, hlog, advance_log, hfrom]
          rfl
        · right
          refine ⟨⟨batch, ?_⟩, hfault⟩
          simp only [Dispatched.after, hlog, advance_log, hfrom]
          rfl
      · intro a2 hreturned
        rcases hlog with hlog | ⟨_, hfault⟩
        · refine ⟨batches, ?_⟩
          simp only [Dispatched.after, hlog, advance_log, hfrom]
          rfl
        · exact absurd hreturned (hfault a2)

/-- Enough passes give the result of the dispatcher: a call that did not stop
for want of passes in the draining loop is the call with any larger number of
passes. -/
theorem Agent.handle_input_message_enough_fuel {S : Type} (env : Collaborators S)
    (fuel : Nat) (a : Agent S) (input_message : XrceMessage)
    (h : (Agent.handle_input_message env fuel a input_message).outcome ≠ .out_of_fuel)
    (extra : Nat) :
    Agent.handle_input_message env (fuel + extra) a input_message
      = Agent.handle_input_message env fuel a input_message := by
  cases hheader : env.serializer.header (input_message.buf.take input_message.len) with
  | none => simp [Agent.handle_input_message, hheader]
  | some decoded =>
    obtain ⟨header, rest⟩ := decoded
    by_cases hsession : header.session_id = SESSIONID_NONE_WITHOUT_CLIENT_KEY ∨
        header.session_id = SESSIONID_NONE_WITH_CLIENT_KEY
    · simp only [Agent.handle_input_message, hheader, hsession, if_true]
    · cases hclient : a.clients_.find header.client_key with
      | none => simp [Agent.handle_input_message, hheader, hsession, hclient]
      | some client =>
        cases hvalid : env.input.is_valid_message client.streams_manager_ header.stream_id
            (header.sequence_nr % 65536) with
        | false => simp [Agent.handle_input_message, hheader, hsession, hclient, hvalid]
        | true =>
          cases hnext : env.input.is_next_message client.streams_manager_ header.stream_id
              (header.sequence_nr % 65536) with
          | false =>
            simp [Agent.handle_input_message, hheader, hsession, hclient, hvalid, hnext]
          | true =>
            rw [Agent.handle_input_message_in_order env fuel a input_message header rest
              client hheader hsession hclient hvalid hnext] at h
            rw [Agent.handle_input_message_in_order env fuel a input_message header rest
              client hheader hsession hclient hvalid hnext,
              Agent.handle_input_message_in_order env (fuel + extra) a input_message header
              rest client hheader hsession hclient hvalid hnext]
            cases hrun : Agent.process_message env header a
                (env.serializer.submessages rest) with
            | error f => rfl
            | ok a1 =>
              rw [hrun] at h
              dsimp only at h ⊢
              cases hclient1 : a1.clients_.find header.client_key with
              | none => rfl
              | some client1 =>
                rw [hclient1] at h
                dsimp only at h ⊢
                rw [Agent.drain_enough_fuel env header fuel _ _ h extra]

/-- The dispatcher run on the sample agent with an in-order message (sequence
number 0, a DELETE of object (0, 3)): the message goes to the handlers, the
stream is advanced with 0, the stored message of sequence number 1 is drained
and the stream is advanced with 1; the call returns with two replies queued, the
session expecting sequence number 2 and nothing left stored. Two passes are
enough, and so is any larger number. -/
theorem handle_input_message_drains_sample (extra : Nat) :
    (Agent.handle_input_message sampleEnv (2 + extra) sampleDispatchAgent
      (sampleInput 0 [3, 0, 5, 0, 3])).events
      = [.processed [.DELETE (some ⟨(0, 5), (0, 3)⟩)], .advanced 0x80 0,
          .processed [.DELETE (some ⟨(0, 6), (0, 2)⟩)], .advanced 0x80 1] ∧
    ∃ a1 client1,
      (Agent.handle_input_message sampleEnv (2 + extra) sampleDispatchAgent
        (sampleInput 0 [3, 0, 5, 0, 3])).outcome = .returned a1 ∧
      a1.messages_.length = 2 ∧
      a1.clients_.find sampleKey = some client1 ∧
      client1.streams_manager_.expected = 2 ∧
      client1.streams_manager_.buffered = [] := by
  rw [Agent.handle_input_message_enough_fuel sampleEnv 2 sampleDispatchAgent
    (sampleInput 0 [3, 0, 5, 0, 3]) (fun h => by cases h) extra]
  exact ⟨rfl, _, _, rfl, rfl, rfl, rfl, rfl⟩

/-- The dispatcher run on the sample agent with an out-of-order message
(sequence number 3 while 0 is expected): it is stored, nothing goes to the
handlers and no reply is queued; with a sequence number the sample stream
manager reports invalid nothing happens at all. -/
theorem handle_input_message_stores_sample :
    (Agent.handle_input_message sampleEnv 2 sampleDispatchAgent
      (sampleInput 3 [3, 0, 5, 0, 3])).events = [.stored 0x80 3] ∧
    ∃ a1 client1,
      (Agent.handle_input_message sampleEnv 2 sampleDispatchAgent
        (sampleInput 3 [3, 0, 5, 0, 3])).outcome = .returned a1 ∧
      a1.messages_ = [] ∧
      a1.clients_.find sampleKey = some client1 ∧
      client1.streams_manager_.expected = 0 ∧
      client1.streams_manager_.buffered = [(1, [3, 0, 6, 0, 2]), (3, [3, 0, 5, 0, 3])] :=
  ⟨rfl, _, _, rfl, rfl, rfl, rfl, rfl⟩

/-- C21, at an input where the code leaves the rule: the sample session exists,
expects sequence number 0 and receives the in-order message of sequence number
0 whose only submessage is a DELETE of OBJECTID_CLIENT. The handlers run and
return, with the session erased from the table and one reply queued; the
dispatcher then reaches the stream manager through the reference it took from
that session before the handlers ran (Root.cpp, line 267), so the call leaves
defined behaviour: one batch has been handed to the handlers, no advance of the
stream follows it and the stored message of sequence number 1 is not drained,
whatever the number of passes allowed. -/
theorem in_order_delete_client_dangles (fuel : Nat) :
    (∃ client, sampleDispatchAgent.clients_.find sampleKey = some client ∧
      sampleEnv.input.is_valid_message client.streams_manager_ 0x80 0 = true ∧
      sampleEnv.input.is_next_message client.streams_manager_ 0x80 0 = true ∧
      sampleEnv.input.message_available
        (sampleEnv.input.update_stream client.streams_manager_ 0x80 0) 0x80 = true) ∧
    (∃ a1, Agent.process_message sampleEnv ⟨0x81, 0x80, 0, sampleKey⟩ sampleDispatchAgent
        [.DELETE (some ⟨(0, 9), (0xFF, 0xFF)⟩)] = .ok a1 ∧
      a1.clients_.find sampleKey = none ∧ a1.messages_.length = 1) ∧
    (Agent.handle_input_message sampleEnv fuel sampleDispatchAgent
      (sampleInput 0 [3, 0, 9, 0xFF, 0xFF])).events
      = [.processed [.DELETE (some ⟨(0, 9), (0xFF, 0xFF)⟩)]] ∧
    (Agent.handle_input_message sampleEnv fuel sampleDispatchAgent
      (sampleInput 0 [3, 0, 9, 0xFF, 0xFF])).outcome = .faulted .dangling_reference :=
  ⟨⟨_, rfl, rfl, rfl, rfl⟩, ⟨_, rfl, rfl, rfl⟩, rfl, rfl⟩

end XRCE
